import Mathlib

/-!
Verification of the sun event calculator in `auto_mode/suntime.py`.

The Python source computes with IEEE doubles and the `math` library's
transcendental functions.  The shallow embedding below idealizes floats as
real numbers (`Real.sin`, `Real.cos`, ...), models Python `int()` as
truncation toward zero, Python `round(x, 0)` as round-half-to-even, and the
`datetime.datetime` constructor as a validating partial constructor whose
failure (`ValueError`) is an explicit result.  All concrete numeric facts are
established through proved interval bounds (Taylor remainders from
`Real.sin_bound`/`Real.cos_bound`, monotonicity, triple-angle amplification
and the bounds `3.141592 < pi < 3.141593`).
-/

namespace Suntime

open Real

noncomputable section

set_option maxHeartbeats 1000000

/-! ### Calendar model (Python `datetime`) -/

/-- Gregorian leap-year rule used by `datetime.date`. -/
def isLeap (y : ℤ) : Bool :=
  (y % 4 == 0 && y % 100 != 0) || (y % 400 == 0)

/-- Days in a month, as `datetime` validates them. -/
def daysInMonth (y m : ℤ) : ℤ :=
  if m = 2 then (if isLeap y then 29 else 28)
  else if m = 4 ∨ m = 6 ∨ m = 9 ∨ m = 11 then 30
  else 31

/-- A `datetime.date`: the `(year, month, day)` triple passed to the calculator. -/
structure Date where
  year : ℤ
  month : ℤ
  day : ℤ

/-- Validity exactly as `datetime.date` enforces it. -/
def Date.Valid (d : Date) : Prop :=
  1 ≤ d.year ∧ d.year ≤ 9999 ∧ 1 ≤ d.month ∧ d.month ≤ 12 ∧
    1 ≤ d.day ∧ d.day ≤ daysInMonth d.year d.month

instance (d : Date) : Decidable d.Valid := by
  unfold Date.Valid; infer_instance

/-- The `(year, month, day, hour, minute)` part of a `datetime.datetime`
(the calculator always passes 0 seconds). -/
structure Datetime where
  year : ℤ
  month : ℤ
  day : ℤ
  hour : ℤ
  minute : ℤ
deriving DecidableEq

/-- The `datetime.datetime` constructor: validates all components and raises
`ValueError` (here: `none`) on an out-of-range component. -/
def mkDatetime (y mo dy hr mn : ℤ) : Option Datetime :=
  if 1 ≤ y ∧ y ≤ 9999 ∧ 1 ≤ mo ∧ mo ≤ 12 ∧ 1 ≤ dy ∧ dy ≤ daysInMonth y mo ∧
      0 ≤ hr ∧ hr ≤ 23 ∧ 0 ≤ mn ∧ mn ≤ 59 then
    some ⟨y, mo, dy, hr, mn⟩
  else none

/-- Chronological key: on valid datetimes, comparing keys is the same as the
lexicographic comparison Python's `datetime` ordering performs. -/
def Datetime.key (dt : Datetime) : ℤ :=
  (((dt.year * 13 + dt.month) * 32 + dt.day) * 24 + dt.hour) * 60 + dt.minute

/-! ### Python numeric primitives -/

/-- Python `int()` on a float: truncation toward zero. -/
def pyint (x : ℝ) : ℤ := if 0 ≤ x then ⌊x⌋ else -⌊-x⌋

/-- Python `round(x, 0)`: round half to even.  The Python call returns an
integral float; the code only compares it with 60 and passes `int(min)` on,
so we keep the integer value. -/
def pyround (x : ℝ) : ℤ :=
  if Int.fract x = 1 / 2 then (if Even ⌊x⌋ then ⌊x⌋ else ⌊x⌋ + 1) else ⌊x + 1 / 2⌋

/-! ### The calculator (`suntime.py`) -/

/-- `TO_RAD = math.pi / 180.0` (line 64). -/
def TO_RAD : ℝ := π / 180

/-- `_force_range` (lines 147-153): one conditional correction into `[0, mx)`. -/
def _force_range (v mx : ℝ) : ℝ :=
  if v < 0 then v + mx
  else if mx ≤ v then v - mx
  else v

/-- Python applies `_force_range` to the integer `int(UT)` as well; this is the
same function at integer type. -/
def _force_rangeZ (v mx : ℤ) : ℤ :=
  if v < 0 then v + mx
  else if mx ≤ v then v - mx
  else v

/-- Step 1 (lines 66-70): day of the year `N` from the integer formula. -/
def calcN (d : Date) : ℤ :=
  let N1 : ℤ := ⌊(275 * (d.month : ℝ)) / 9⌋
  let N2 : ℤ := ⌊((d.month : ℝ) + 9) / 12⌋
  let N3 : ℤ := 1 + ⌊((d.year : ℝ) - 4 * ((⌊(d.year : ℝ) / 4⌋ : ℤ) : ℝ) + 2) / 3⌋
  N1 - N2 * N3 + d.day - 30

/-- `lngHour = lon / 15` (line 73). -/
def calcLngHour (lon : ℝ) : ℝ := lon / 15

/-- Step 2 (lines 75-78): approximate event time in days. -/
def calcT (lon : ℝ) (d : Date) (isRiseTime : Bool) : ℝ :=
  if isRiseTime then (calcN d : ℝ) + ((6 - calcLngHour lon) / 24)
  else (calcN d : ℝ) + ((18 - calcLngHour lon) / 24)

/-- Step 3 (line 81): the Sun's mean anomaly. -/
def calcM (lon : ℝ) (d : Date) (isRise : Bool) : ℝ :=
  0.9856 * calcT lon d isRise - 3.289

/-- Steps 4 (lines 84-86): the Sun's true longitude, adjusted into `[0, 360)`. -/
def calcL (lon : ℝ) (d : Date) (isRise : Bool) : ℝ :=
  _force_range (calcM lon d isRise
      + 1.916 * Real.sin (TO_RAD * calcM lon d isRise)
      + 0.020 * Real.sin (TO_RAD * 2 * calcM lon d isRise)
      + 282.634) 360

/-- Steps 5a-5c (lines 90-99): right ascension, same quadrant as `L`, in hours. -/
def calcRA (lon : ℝ) (d : Date) (isRise : Bool) : ℝ :=
  let L := calcL lon d isRise
  let RA := _force_range ((1 / TO_RAD) * Real.arctan (0.91764 * Real.tan (TO_RAD * L))) 360
  let Lquadrant := ((⌊L / 90⌋ : ℤ) : ℝ) * 90
  let RAquadrant := ((⌊RA / 90⌋ : ℤ) : ℝ) * 90
  (RA + (Lquadrant - RAquadrant)) / 15

/-- Step 6 (line 102): `sinDec`. -/
def calcSinDec (lon : ℝ) (d : Date) (isRise : Bool) : ℝ :=
  0.39782 * Real.sin (TO_RAD * calcL lon d isRise)

/-- Step 6 (line 103): `cosDec`. -/
def calcCosDec (lon : ℝ) (d : Date) (isRise : Bool) : ℝ :=
  Real.cos (Real.arcsin (calcSinDec lon d isRise))

/-- Step 7a (lines 106-107): the local hour angle cosine. -/
def calcCosH (lat lon : ℝ) (d : Date) (isRise : Bool) (zenith : ℝ) : ℝ :=
  (Real.cos (TO_RAD * zenith) - calcSinDec lon d isRise * Real.sin (TO_RAD * lat)) /
    (calcCosDec lon d isRise * Real.cos (TO_RAD * lat))

/-- Step 7b (lines 118-123): hour angle converted into hours. -/
def calcH (lat lon : ℝ) (d : Date) (isRise : Bool) (zenith : ℝ) : ℝ :=
  (if isRise then 360 - (1 / TO_RAD) * Real.arccos (calcCosH lat lon d isRise zenith)
   else (1 / TO_RAD) * Real.arccos (calcCosH lat lon d isRise zenith)) / 15

/-- Steps 8-9 (lines 126-130): UTC time in decimal hours, adjusted by
`_force_range _ 24`. -/
def calcUT (lat lon : ℝ) (d : Date) (isRise : Bool) (zenith : ℝ) : ℝ :=
  _force_range (calcH lat lon d isRise zenith + calcRA lon d isRise
      - 0.06571 * calcT lon d isRise - 6.622 - calcLngHour lon) 24

/-- Result of `_calc_sun_time`: `None` (no event), the implicit `ValueError`
from the `datetime` constructor, or a UTC datetime. -/
inductive CalcResult where
  | noEvent : CalcResult
  | invalidDate : CalcResult
  | ok : Datetime → CalcResult

/-- The final `return datetime.datetime(...)` of line 144: a valid component
tuple gives a result, an invalid one raises `ValueError`. -/
def finishResult (o : Option Datetime) : CalcResult :=
  match o with
  | some dt => .ok dt
  | none => .invalidDate

/-- `_calc_sun_time` (lines 47-144). -/
def _calc_sun_time (lat lon : ℝ) (date : Date) (isRiseTime : Bool)
    (zenith : ℝ := 90.8) : CalcResult :=
  let cosH := calcCosH lat lon date isRiseTime zenith
  if 1 < cosH then .noEvent
  else if cosH < -1 then .noEvent
  else
    let UT := calcUT lat lon date isRiseTime zenith
    let hr0 : ℤ := _force_rangeZ (pyint UT) 24
    let mn0 : ℤ := pyround ((UT - (pyint UT : ℝ)) * 60)
    let hr1 : ℤ := if mn0 = 60 then hr0 + 1 else hr0
    let mn1 : ℤ := if mn0 = 60 then 0 else mn0
    let hr2 : ℤ := if hr1 = 24 then 0 else hr1
    let day2 : ℤ := if hr1 = 24 then date.day + 1 else date.day
    finishResult (mkDatetime date.year date.month day2 hr2 mn1)

/-! ### The two entry points -/

/-- Reason inside the `SunTimeException` messages of lines 23-24 and 41-42. -/
inductive SunTimeException where
  | neverRises
  | neverSets

/-- Everything a call can raise: the `SunTimeException` raised explicitly, or
the `ValueError` propagating out of `datetime.datetime`. -/
inductive CallError where
  | sun : SunTimeException → CallError
  | valueError : CallError

/-- Call-time state.  Python evaluates the default `local_time_zone=tz.tzlocal()`
once, when the `def` is executed (`importZone`), while `datetime.date.today()`
runs on every call (`today`).  `currentZone` is the system zone at the moment
of the call.  Zones are opaque ids; `astimezone` is modeled as tagging the
result with the zone used (the instant itself is unchanged). -/
structure Env where
  importZone : ℤ
  currentZone : ℤ
  today : Date

/-- `get_local_sunrise_time` (lines 11-26). -/
def get_local_sunrise_time (lat lon : ℝ) (env : Env)
    (dateOpt : Option Date) (zoneOpt : Option ℤ) :
    Except CallError (Datetime × ℤ) :=
  let date := dateOpt.getD env.today
  let zone := zoneOpt.getD env.importZone
  match _calc_sun_time lat lon date true with
  | .noEvent => .error (.sun .neverRises)
  | .invalidDate => .error .valueError
  | .ok dt => .ok (dt, zone)

/-- `get_local_sunset_time` (lines 29-44). -/
def get_local_sunset_time (lat lon : ℝ) (env : Env)
    (dateOpt : Option Date) (zoneOpt : Option ℤ) :
    Except CallError (Datetime × ℤ) :=
  let date := dateOpt.getD env.today
  let zone := zoneOpt.getD env.importZone
  match _calc_sun_time lat lon date false with
  | .noEvent => .error (.sun .neverSets)
  | .invalidDate => .error .valueError
  | .ok dt => .ok (dt, zone)

end

/-! ### Interval arithmetic toolkit -/

lemma pi_lb : (3.141592 : ℝ) ≤ π := le_of_lt Real.pi_gt_d6

lemma pi_ub : π ≤ (3.141593 : ℝ) := le_of_lt Real.pi_lt_d6

/-- Taylor-with-monotonicity evaluation of `sin` on an interval inside `[-1, 1]`. -/
lemma sin_ivl (x a b lo hi : ℝ) (h1 : a ≤ x) (h2 : x ≤ b)
    (hn : -1 ≤ a ∧ b ≤ 1 ∧ lo ≤ a - a ^ 3 / 6 - a ^ 4 * (5 / 96) ∧
      b - b ^ 3 / 6 + b ^ 4 * (5 / 96) ≤ hi) :
    lo ≤ Real.sin x ∧ Real.sin x ≤ hi := by
  obtain ⟨h3, h4, h5, h6⟩ := hn
  have hb1 : -1 ≤ b := le_trans h3 (le_trans h1 h2)
  have ha1 : a ≤ 1 := le_trans (le_trans h1 h2) h4
  have hpi : (1 : ℝ) ≤ π / 2 := by nlinarith [pi_lb]
  have hmem : ∀ y : ℝ, -1 ≤ y → y ≤ 1 → y ∈ Set.Icc (-(π / 2)) (π / 2) := by
    intro y hy1 hy2
    constructor <;> [linarith; linarith]
  have hsa : Real.sin a ≤ Real.sin x :=
    Real.strictMonoOn_sin.monotoneOn (hmem a h3 ha1)
      (hmem x (le_trans h3 h1) (le_trans h2 h4)) h1
  have hsb : Real.sin x ≤ Real.sin b :=
    Real.strictMonoOn_sin.monotoneOn (hmem x (le_trans h3 h1) (le_trans h2 h4))
      (hmem b hb1 h4) h2
  have hta := Real.sin_bound (x := a) (abs_le.2 ⟨h3, ha1⟩)
  have htb := Real.sin_bound (x := b) (abs_le.2 ⟨hb1, h4⟩)
  have ha4 : |a| ^ 4 = a ^ 4 := by
    rw [show (4 : ℕ) = 2 * 2 from rfl, pow_mul, pow_mul, sq_abs]
  have hb4 : |b| ^ 4 = b ^ 4 := by
    rw [show (4 : ℕ) = 2 * 2 from rfl, pow_mul, pow_mul, sq_abs]
  rw [abs_le, ha4] at hta
  rw [abs_le, hb4] at htb
  constructor
  · linarith [hta.1]
  · linarith [htb.2]

/-- Monotonicity of `3 s - 4 s ^ 3` on `[-1/2, 1/2]`. -/
lemma cubic_mono (l s : ℝ) (h : l ≤ s) (hl : -(1 / 2) ≤ l) (hs : s ≤ 1 / 2) :
    3 * l - 4 * l ^ 3 ≤ 3 * s - 4 * s ^ 3 := by
  nlinarith [mul_nonneg (sub_nonneg.2 h) (mul_nonneg (by linarith : (0:ℝ) ≤ 1 / 2 - s) (by linarith : (0:ℝ) ≤ 1 / 2 + l)),
    mul_nonneg (sub_nonneg.2 h) (mul_nonneg (by linarith : (0:ℝ) ≤ 1 / 2 + s) (by linarith : (0:ℝ) ≤ 1 / 2 + l)),
    mul_nonneg (sub_nonneg.2 h) (mul_nonneg (by linarith : (0:ℝ) ≤ 1 / 2 - s) (by linarith : (0:ℝ) ≤ 1 / 2 - l)),
    mul_nonneg (sub_nonneg.2 h) (mul_nonneg (by linarith : (0:ℝ) ≤ 1 / 2 + s) (by linarith : (0:ℝ) ≤ 1 / 2 - l))]

/-- Triple-angle amplification step for `sin`. -/
lemma sin_triple (x l u lo hi : ℝ) (h1 : l ≤ Real.sin (x / 3)) (h2 : Real.sin (x / 3) ≤ u)
    (hn : -(1 / 2) ≤ l ∧ u ≤ 1 / 2 ∧ lo ≤ 3 * l - 4 * l ^ 3 ∧ 3 * u - 4 * u ^ 3 ≤ hi) :
    lo ≤ Real.sin x ∧ Real.sin x ≤ hi := by
  obtain ⟨h3, h4, h5, h6⟩ := hn
  have hx : Real.sin x = 3 * Real.sin (x / 3) - 4 * Real.sin (x / 3) ^ 3 := by
    have h := Real.sin_three_mul (x / 3)
    rw [show 3 * (x / 3) = x by ring] at h
    exact h
  constructor
  · rw [hx]
    exact le_trans h5 (cubic_mono l (Real.sin (x / 3)) h1 h3 (le_trans h2 h4))
  · rw [hx]
    exact le_trans (cubic_mono (Real.sin (x / 3)) u h2 (le_trans h3 h1) h4) h6

/-- `cos x` from `sin (x/2)`: the identity `cos x = 1 - 2 sin (x/2) ^ 2`. -/
lemma cos_eq_one_sub_two_sin_sq_half (x : ℝ) :
    Real.cos x = 1 - 2 * Real.sin (x / 2) ^ 2 := by
  have h := Real.cos_two_mul (x / 2)
  rw [show 2 * (x / 2) = x by ring] at h
  have h2 := Real.sin_sq_add_cos_sq (x / 2)
  linarith

/-- `cos` bounds when the half-angle sine interval is nonnegative. -/
lemma cos_half_pos (x l u lo hi : ℝ) (h1 : l ≤ Real.sin (x / 2)) (h2 : Real.sin (x / 2) ≤ u)
    (hn : 0 ≤ l ∧ lo ≤ 1 - 2 * u ^ 2 ∧ 1 - 2 * l ^ 2 ≤ hi) :
    lo ≤ Real.cos x ∧ Real.cos x ≤ hi := by
  obtain ⟨h0, h5, h6⟩ := hn
  rw [cos_eq_one_sub_two_sin_sq_half]
  constructor
  · nlinarith [mul_le_mul h2 h2 (le_trans h0 h1) (le_trans (le_trans h0 h1) h2)]
  · nlinarith [mul_le_mul h1 h1 h0 (le_trans h0 h1), sq_nonneg (Real.sin (x / 2))]

/-- `cos` bounds when the half-angle sine interval is nonpositive. -/
lemma cos_half_neg (x l u lo hi : ℝ) (h1 : l ≤ Real.sin (x / 2)) (h2 : Real.sin (x / 2) ≤ u)
    (hn : u ≤ 0 ∧ lo ≤ 1 - 2 * l ^ 2 ∧ 1 - 2 * u ^ 2 ≤ hi) :
    lo ≤ Real.cos x ∧ Real.cos x ≤ hi := by
  obtain ⟨h0, h5, h6⟩ := hn
  rw [cos_eq_one_sub_two_sin_sq_half]
  constructor
  · nlinarith [sq_nonneg l, sq_nonneg (Real.sin (x / 2) - l), sq_nonneg (Real.sin (x / 2) + l), mul_nonneg (sub_nonneg.2 h1) (sub_nonneg.2 (le_trans h2 h0 : Real.sin (x / 2) ≤ 0))]
  · nlinarith [sq_nonneg (Real.sin (x/2) - u), sq_nonneg u, mul_nonneg (neg_nonneg.2 h0) (neg_nonneg.2 (le_trans h2 h0))]

/-- `cos` bounds when the half-angle sine interval straddles zero. -/
lemma cos_half_mix (x l u lo : ℝ) (h1 : l ≤ Real.sin (x / 2)) (h2 : Real.sin (x / 2) ≤ u)
    (hn : lo ≤ 1 - 2 * l ^ 2 ∧ lo ≤ 1 - 2 * u ^ 2) :
    lo ≤ Real.cos x ∧ Real.cos x ≤ 1 := by
  obtain ⟨h5, h6⟩ := hn
  rw [cos_eq_one_sub_two_sin_sq_half]
  constructor
  · nlinarith [sq_nonneg (Real.sin (x / 2) - l), sq_nonneg (Real.sin (x / 2) - u),
      sq_nonneg (Real.sin (x / 2) + l), sq_nonneg (Real.sin (x / 2) + u),
      mul_nonneg (sub_nonneg.2 h1) (sub_nonneg.2 h2)]
  · nlinarith [sq_nonneg (Real.sin (x / 2))]
/-! ### Packaged evaluation chains (base Taylor step plus amplifications) -/

/-- Numeric side conditions of the depth-1 evaluation chain for `sin`. -/
def sinChainCond1 (a b l0 u0 lo hi : ℝ) : Prop :=
  -1 ≤ a / 3 ∧ b / 3 ≤ 1 ∧
    l0 ≤ a / 3 - (a / 3) ^ 3 / 6 - (a / 3) ^ 4 * (5 / 96) ∧
    b / 3 - (b / 3) ^ 3 / 6 + (b / 3) ^ 4 * (5 / 96) ≤ u0 ∧
    -(1 / 2) ≤ l0 ∧ u0 ≤ 1 / 2 ∧
    lo ≤ 3 * l0 - 4 * l0 ^ 3 ∧ 3 * u0 - 4 * u0 ^ 3 ≤ hi

/-- Numeric side conditions of the depth-2 evaluation chain for `sin`. -/
def sinChainCond2 (a b l0 u0 l1 v1 lo hi : ℝ) : Prop :=
  -1 ≤ a / 9 ∧ b / 9 ≤ 1 ∧
    l0 ≤ a / 9 - (a / 9) ^ 3 / 6 - (a / 9) ^ 4 * (5 / 96) ∧
    b / 9 - (b / 9) ^ 3 / 6 + (b / 9) ^ 4 * (5 / 96) ≤ u0 ∧
    -(1 / 2) ≤ l0 ∧ u0 ≤ 1 / 2 ∧
    l1 ≤ 3 * l0 - 4 * l0 ^ 3 ∧ 3 * u0 - 4 * u0 ^ 3 ≤ v1 ∧
    -(1 / 2) ≤ l1 ∧ v1 ≤ 1 / 2 ∧
    lo ≤ 3 * l1 - 4 * l1 ^ 3 ∧ 3 * v1 - 4 * v1 ^ 3 ≤ hi

lemma sin_chain1 (x a b l0 u0 lo hi : ℝ) (h1 : a ≤ x) (h2 : x ≤ b)
    (hn : sinChainCond1 a b l0 u0 lo hi) :
    lo ≤ Real.sin x ∧ Real.sin x ≤ hi := by
  obtain ⟨c1, c2, c3, c4, c5, c6, c7, c8⟩ := hn
  obtain ⟨d1, d2⟩ := sin_ivl (x / 3) (a / 3) (b / 3) l0 u0 (by linarith) (by linarith)
    ⟨c1, c2, c3, c4⟩
  exact sin_triple x l0 u0 lo hi d1 d2 ⟨c5, c6, c7, c8⟩

lemma sin_chain2 (x a b l0 u0 l1 v1 lo hi : ℝ) (h1 : a ≤ x) (h2 : x ≤ b)
    (hn : sinChainCond2 a b l0 u0 l1 v1 lo hi) :
    lo ≤ Real.sin x ∧ Real.sin x ≤ hi := by
  obtain ⟨c1, c2, c3, c4, c5, c6, c7, c8, c9, c10, c11, c12⟩ := hn
  obtain ⟨d1, d2⟩ := sin_ivl (x / 3 / 3) (a / 9) (b / 9) l0 u0 (by linarith) (by linarith)
    ⟨c1, c2, c3, c4⟩
  obtain ⟨e1, e2⟩ := sin_triple (x / 3) l0 u0 l1 v1 d1 d2 ⟨c5, c6, c7, c8⟩
  exact sin_triple x l1 v1 lo hi e1 e2 ⟨c9, c10, c11, c12⟩

lemma cos_chain1_pos (x a b l0 u0 sl su lo hi : ℝ) (h1 : a ≤ x) (h2 : x ≤ b)
    (hn : sinChainCond1 (a / 2) (b / 2) l0 u0 sl su ∧
      0 ≤ sl ∧ lo ≤ 1 - 2 * su ^ 2 ∧ 1 - 2 * sl ^ 2 ≤ hi) :
    lo ≤ Real.cos x ∧ Real.cos x ≤ hi := by
  obtain ⟨hs, hp⟩ := hn
  obtain ⟨s1, s2⟩ := sin_chain1 (x / 2) (a / 2) (b / 2) l0 u0 sl su (by linarith) (by linarith) hs
  exact cos_half_pos x sl su lo hi s1 s2 hp

lemma cos_chain1_neg (x a b l0 u0 sl su lo hi : ℝ) (h1 : a ≤ x) (h2 : x ≤ b)
    (hn : sinChainCond1 (a / 2) (b / 2) l0 u0 sl su ∧
      su ≤ 0 ∧ lo ≤ 1 - 2 * sl ^ 2 ∧ 1 - 2 * su ^ 2 ≤ hi) :
    lo ≤ Real.cos x ∧ Real.cos x ≤ hi := by
  obtain ⟨hs, hp⟩ := hn
  obtain ⟨s1, s2⟩ := sin_chain1 (x / 2) (a / 2) (b / 2) l0 u0 sl su (by linarith) (by linarith) hs
  exact cos_half_neg x sl su lo hi s1 s2 hp

lemma cos_chain1_mix (x a b l0 u0 sl su lo : ℝ) (h1 : a ≤ x) (h2 : x ≤ b)
    (hn : sinChainCond1 (a / 2) (b / 2) l0 u0 sl su ∧
      lo ≤ 1 - 2 * sl ^ 2 ∧ lo ≤ 1 - 2 * su ^ 2) :
    lo ≤ Real.cos x ∧ Real.cos x ≤ 1 := by
  obtain ⟨hs, hp⟩ := hn
  obtain ⟨s1, s2⟩ := sin_chain1 (x / 2) (a / 2) (b / 2) l0 u0 sl su (by linarith) (by linarith) hs
  exact cos_half_mix x sl su lo s1 s2 hp

lemma cos_chain2_pos (x a b l0 u0 l1 v1 sl su lo hi : ℝ) (h1 : a ≤ x) (h2 : x ≤ b)
    (hn : sinChainCond2 (a / 2) (b / 2) l0 u0 l1 v1 sl su ∧
      0 ≤ sl ∧ lo ≤ 1 - 2 * su ^ 2 ∧ 1 - 2 * sl ^ 2 ≤ hi) :
    lo ≤ Real.cos x ∧ Real.cos x ≤ hi := by
  obtain ⟨hs, hp⟩ := hn
  obtain ⟨s1, s2⟩ := sin_chain2 (x / 2) (a / 2) (b / 2) l0 u0 l1 v1 sl su
    (by linarith) (by linarith) hs
  exact cos_half_pos x sl su lo hi s1 s2 hp

lemma cos_chain2_neg (x a b l0 u0 l1 v1 sl su lo hi : ℝ) (h1 : a ≤ x) (h2 : x ≤ b)
    (hn : sinChainCond2 (a / 2) (b / 2) l0 u0 l1 v1 sl su ∧
      su ≤ 0 ∧ lo ≤ 1 - 2 * sl ^ 2 ∧ 1 - 2 * su ^ 2 ≤ hi) :
    lo ≤ Real.cos x ∧ Real.cos x ≤ hi := by
  obtain ⟨hs, hp⟩ := hn
  obtain ⟨s1, s2⟩ := sin_chain2 (x / 2) (a / 2) (b / 2) l0 u0 l1 v1 sl su
    (by linarith) (by linarith) hs
  exact cos_half_neg x sl su lo hi s1 s2 hp

lemma cos_chain2_mix (x a b l0 u0 l1 v1 sl su lo : ℝ) (h1 : a ≤ x) (h2 : x ≤ b)
    (hn : sinChainCond2 (a / 2) (b / 2) l0 u0 l1 v1 sl su ∧
      lo ≤ 1 - 2 * sl ^ 2 ∧ lo ≤ 1 - 2 * su ^ 2) :
    lo ≤ Real.cos x ∧ Real.cos x ≤ 1 := by
  obtain ⟨hs, hp⟩ := hn
  obtain ⟨s1, s2⟩ := sin_chain2 (x / 2) (a / 2) (b / 2) l0 u0 l1 v1 sl su
    (by linarith) (by linarith) hs
  exact cos_half_mix x sl su lo s1 s2 hp

/-! ### Bounds on multiples of `pi` -/

lemma pi_mul_lb (r u1 : ℝ) (h1 : u1 ≤ r * 3.141592) (h2 : u1 ≤ r * 3.141593) : u1 ≤ r * π := by
  rcases le_or_lt 0 r with h | h
  · nlinarith [pi_lb]
  · nlinarith [pi_ub]

lemma pi_mul_ub (r u2 : ℝ) (h1 : r * 3.141592 ≤ u2) (h2 : r * 3.141593 ≤ u2) : r * π ≤ u2 := by
  rcases le_or_lt 0 r with h | h
  · nlinarith [pi_ub]
  · nlinarith [pi_lb]

/-- Radian bounds for a literal number of degrees, shifted down by `s`
quarter-turns. -/
lemma to_rad_shift_bounds (d s u1 u2 : ℝ)
    (hn : (u1 ≤ (d / 180 - s / 2) * 3.141592 ∧ u1 ≤ (d / 180 - s / 2) * 3.141593) ∧
      ((d / 180 - s / 2) * 3.141592 ≤ u2 ∧ (d / 180 - s / 2) * 3.141593 ≤ u2)) :
    u1 ≤ TO_RAD * d - s * (π / 2) ∧ TO_RAD * d - s * (π / 2) ≤ u2 := by
  obtain ⟨⟨h1, h2⟩, h3, h4⟩ := hn
  have heq : TO_RAD * d - s * (π / 2) = (d / 180 - s / 2) * π := by unfold TO_RAD; ring
  rw [heq]
  exact ⟨pi_mul_lb _ _ h1 h2, pi_mul_ub _ _ h3 h4⟩

/-- Radian bounds for a literal number of degrees. -/
lemma to_rad_val_bounds (d u1 u2 : ℝ)
    (hn : (u1 ≤ d / 180 * 3.141592 ∧ u1 ≤ d / 180 * 3.141593) ∧
      (d / 180 * 3.141592 ≤ u2 ∧ d / 180 * 3.141593 ≤ u2)) :
    u1 ≤ TO_RAD * d ∧ TO_RAD * d ≤ u2 := by
  obtain ⟨⟨h1, h2⟩, h3, h4⟩ := hn
  have heq : TO_RAD * d = d / 180 * π := by unfold TO_RAD; ring
  rw [heq]
  exact ⟨pi_mul_lb _ _ h1 h2, pi_mul_ub _ _ h3 h4⟩

/-- Radian bounds for a bounded quantity of degrees, shifted down by `s`
quarter-turns. -/
lemma to_rad_shift_bounds_of_le (x s lo hi u1 u2 : ℝ) (h1 : lo ≤ x) (h2 : x ≤ hi)
    (hn : (u1 ≤ (lo / 180 - s / 2) * 3.141592 ∧ u1 ≤ (lo / 180 - s / 2) * 3.141593) ∧
      ((hi / 180 - s / 2) * 3.141592 ≤ u2 ∧ (hi / 180 - s / 2) * 3.141593 ≤ u2)) :
    u1 ≤ TO_RAD * x - s * (π / 2) ∧ TO_RAD * x - s * (π / 2) ≤ u2 := by
  obtain ⟨⟨h3, h4⟩, h5, h6⟩ := hn
  have heq : TO_RAD * x - s * (π / 2) = (x / 180 - s / 2) * π := by unfold TO_RAD; ring
  rw [heq]
  have hm1 : (lo / 180 - s / 2) * π ≤ (x / 180 - s / 2) * π := by nlinarith [Real.pi_pos]
  have hm2 : (x / 180 - s / 2) * π ≤ (hi / 180 - s / 2) * π := by nlinarith [Real.pi_pos]
  exact ⟨le_trans (pi_mul_lb _ _ h3 h4) hm1, le_trans hm2 (pi_mul_ub _ _ h5 h6)⟩

/-- Radian bounds for a bounded quantity of degrees. -/
lemma to_rad_val_bounds_of_le (x lo hi u1 u2 : ℝ) (h1 : lo ≤ x) (h2 : x ≤ hi)
    (hn : (u1 ≤ lo / 180 * 3.141592 ∧ u1 ≤ lo / 180 * 3.141593) ∧
      (hi / 180 * 3.141592 ≤ u2 ∧ hi / 180 * 3.141593 ≤ u2)) :
    u1 ≤ TO_RAD * x ∧ TO_RAD * x ≤ u2 := by
  obtain ⟨⟨h3, h4⟩, h5, h6⟩ := hn
  have heq : TO_RAD * x = x / 180 * π := by unfold TO_RAD; ring
  rw [heq]
  have hm1 : lo / 180 * π ≤ x / 180 * π := by nlinarith [Real.pi_pos]
  have hm2 : x / 180 * π ≤ hi / 180 * π := by nlinarith [Real.pi_pos]
  exact ⟨le_trans (pi_mul_lb _ _ h3 h4) hm1, le_trans hm2 (pi_mul_ub _ _ h5 h6)⟩

/-! ### Quarter-turn reduction identities -/

lemma sin_shift1 (y : ℝ) : Real.sin (y + π / 2) = Real.cos y := Real.sin_add_pi_div_two y

lemma sin_shift2 (y : ℝ) : Real.sin (y + π) = -Real.sin y := Real.sin_add_pi y

lemma sin_shift3 (y : ℝ) : Real.sin (y + 3 * (π / 2)) = -Real.cos y := by
  rw [show y + 3 * (π / 2) = (y + π) + π / 2 by ring, Real.sin_add_pi_div_two, Real.cos_add_pi]

lemma sin_shift4 (y : ℝ) : Real.sin (y + 2 * π) = Real.sin y := Real.sin_add_two_pi y

lemma sin_shift6 (y : ℝ) : Real.sin (y + 3 * π) = -Real.sin y := by
  rw [show y + 3 * π = (y + π) + 2 * π by ring, Real.sin_add_two_pi, Real.sin_add_pi]

lemma sin_shift8 (y : ℝ) : Real.sin (y + 4 * π) = Real.sin y := by
  rw [show y + 4 * π = (y + 2 * π) + 2 * π by ring, Real.sin_add_two_pi, Real.sin_add_two_pi]

lemma cos_shift1 (y : ℝ) : Real.cos (y + π / 2) = -Real.sin y := Real.cos_add_pi_div_two y

lemma cos_shiftm1 (y : ℝ) : Real.cos (y - π / 2) = Real.sin y := Real.cos_sub_pi_div_two y

lemma sin_shiftm1 (y : ℝ) : Real.sin (y - π / 2) = -Real.cos y := Real.sin_sub_pi_div_two y

/-- Reductions written against a uniform shift form `x - j * (pi / 2)`. -/
lemma sin_red1 (x : ℝ) : Real.sin x = Real.cos (x - 1 * (π / 2)) := by
  rw [show x - 1 * (π / 2) = x - π / 2 by ring, Real.cos_sub_pi_div_two]

lemma sin_red2 (x : ℝ) : Real.sin x = -Real.sin (x - 2 * (π / 2)) := by
  rw [show x - 2 * (π / 2) = x - π by ring, Real.sin_sub_pi, neg_neg]

lemma sin_red3 (x : ℝ) : Real.sin x = -Real.cos (x - 3 * (π / 2)) := by
  rw [show x - 3 * (π / 2) = x - π - π / 2 by ring, Real.cos_sub_pi_div_two,
    Real.sin_sub_pi, neg_neg]

lemma sin_red4 (x : ℝ) : Real.sin x = Real.sin (x - 4 * (π / 2)) := by
  rw [show x - 4 * (π / 2) = x - 2 * π by ring, Real.sin_sub_two_pi]

lemma sin_red6 (x : ℝ) : Real.sin x = -Real.sin (x - 6 * (π / 2)) := by
  rw [show x - 6 * (π / 2) = x - 2 * π - π by ring, Real.sin_sub_pi,
    Real.sin_sub_two_pi, neg_neg]

lemma sin_red8 (x : ℝ) : Real.sin x = Real.sin (x - 8 * (π / 2)) := by
  rw [show x - 8 * (π / 2) = x - 2 * π - 2 * π by ring, Real.sin_sub_two_pi,
    Real.sin_sub_two_pi]

lemma sin_red_m1 (x : ℝ) : Real.sin x = -Real.cos (x - (-1) * (π / 2)) := by
  rw [show x - (-1) * (π / 2) = x + π / 2 by ring, Real.cos_add_pi_div_two, neg_neg]

lemma cos_red1 (x : ℝ) : Real.cos x = -Real.sin (x - 1 * (π / 2)) := by
  rw [show x - 1 * (π / 2) = x - π / 2 by ring, Real.sin_sub_pi_div_two, neg_neg]

lemma cos_red2 (x : ℝ) : Real.cos x = -Real.cos (x - 2 * (π / 2)) := by
  rw [show x - 2 * (π / 2) = x - π by ring, Real.cos_sub_pi, neg_neg]

lemma cos_red3 (x : ℝ) : Real.cos x = Real.sin (x - 3 * (π / 2)) := by
  rw [show x - 3 * (π / 2) = x - π - π / 2 by ring, Real.sin_sub_pi_div_two,
    Real.cos_sub_pi, neg_neg]

lemma cos_red4 (x : ℝ) : Real.cos x = Real.cos (x - 4 * (π / 2)) := by
  rw [show x - 4 * (π / 2) = x - 2 * π by ring, Real.cos_sub_two_pi]

lemma cos_red_m1 (x : ℝ) : Real.cos x = Real.sin (x - (-1) * (π / 2)) := by
  rw [show x - (-1) * (π / 2) = x + π / 2 by ring, Real.sin_add_pi_div_two]

lemma tan_shift2 (y : ℝ) : Real.tan (y + π) = Real.tan y := Real.tan_add_pi y

lemma tan_shift4 (y : ℝ) : Real.tan (y + 2 * π) = Real.tan y := by
  rw [show y + 2 * π = (y + π) + π by ring, Real.tan_add_pi, Real.tan_add_pi]

lemma tan_shift1 (y : ℝ) : Real.tan (y + π / 2) = -(Real.tan y)⁻¹ := by
  rw [show y + π / 2 = π - (π / 2 - y) by ring, Real.tan_pi_sub, Real.tan_pi_div_two_sub]

lemma tan_shift3 (y : ℝ) : Real.tan (y + 3 * (π / 2)) = -(Real.tan y)⁻¹ := by
  rw [show y + 3 * (π / 2) = (y + π / 2) + π by ring, Real.tan_add_pi, tan_shift1]

/-! ### Interval product, quotient, square root -/

lemma mul_ivl_pos (x y a b c d : ℝ) (h1 : a ≤ x) (h2 : x ≤ b) (h3 : c ≤ y) (h4 : y ≤ d)
    (ha : 0 ≤ a) (hc : 0 ≤ c) : a * c ≤ x * y ∧ x * y ≤ b * d := by
  constructor
  · exact mul_le_mul h1 h3 hc (le_trans ha h1)
  · exact mul_le_mul h2 h4 (le_trans hc h3) (le_trans (le_trans ha h1) h2)

lemma mul_ivl_negpos (x y a b c d : ℝ) (h1 : a ≤ x) (h2 : x ≤ b) (h3 : c ≤ y) (h4 : y ≤ d)
    (hb : x ≤ 0) (hc : 0 ≤ c) : a * d ≤ x * y ∧ x * y ≤ b * c := by
  constructor
  · nlinarith [mul_nonneg (sub_nonneg.2 h1) (sub_nonneg.2 h3), mul_nonneg (sub_nonneg.2 h1) (sub_nonneg.2 h4)]
  · nlinarith [mul_nonneg (sub_nonneg.2 h2) (sub_nonneg.2 h3), mul_nonneg (sub_nonneg.2 h2) (sub_nonneg.2 h4)]

lemma mul_ivl_negneg (x y a b c d : ℝ) (h1 : a ≤ x) (h2 : x ≤ b) (h3 : c ≤ y) (h4 : y ≤ d)
    (hb : b ≤ 0) (hd : d ≤ 0) : b * d ≤ x * y ∧ x * y ≤ a * c := by
  constructor
  · nlinarith [mul_nonneg (sub_nonneg.2 h2) (sub_nonneg.2 h4), mul_nonneg (sub_nonneg.2 h2) (sub_nonneg.2 h3)]
  · nlinarith [mul_nonneg (sub_nonneg.2 h1) (sub_nonneg.2 h3), mul_nonneg (sub_nonneg.2 h1) (sub_nonneg.2 h4)]

lemma div_ivl (x y a b c d lo hi : ℝ) (h1 : a ≤ x) (h2 : x ≤ b) (h3 : c ≤ y) (h4 : y ≤ d)
    (hn : 0 < c ∧ c < d ∧ lo * c ≤ a ∧ lo * d ≤ a ∧ b ≤ hi * c ∧ b ≤ hi * d) :
    lo ≤ x / y ∧ x / y ≤ hi := by
  obtain ⟨hc, hcd, h5, h6, h7, h8⟩ := hn
  have hy : 0 < y := lt_of_lt_of_le hc h3
  constructor
  · rw [le_div_iff hy]
    nlinarith [mul_nonneg (by linarith : (0:ℝ) ≤ d - y) (by linarith : (0:ℝ) ≤ a - lo * c),
      mul_nonneg (by linarith : (0:ℝ) ≤ y - c) (by linarith : (0:ℝ) ≤ a - lo * d)]
  · rw [div_le_iff hy]
    nlinarith [mul_nonneg (by linarith : (0:ℝ) ≤ d - y) (by linarith : (0:ℝ) ≤ hi * c - b),
      mul_nonneg (by linarith : (0:ℝ) ≤ y - c) (by linarith : (0:ℝ) ≤ hi * d - b)]

lemma sqrt_ivl (v lo hi : ℝ) (h1 : lo ^ 2 ≤ v) (h2 : v ≤ hi ^ 2) (h3 : 0 ≤ hi) :
    lo ≤ Real.sqrt v ∧ Real.sqrt v ≤ hi := by
  constructor
  · exact Real.le_sqrt_of_sq_le h1
  · calc Real.sqrt v ≤ Real.sqrt (hi ^ 2) := Real.sqrt_le_sqrt h2
      _ = hi := Real.sqrt_sq h3

/-- Square bounds over a nonnegative interval. -/
lemma sq_bounds_of_pos (s l u : ℝ) (h1 : l ≤ s) (h2 : s ≤ u) (h0 : 0 ≤ l) :
    l ^ 2 ≤ s ^ 2 ∧ s ^ 2 ≤ u ^ 2 := by
  constructor <;> nlinarith

/-- Square bounds over a nonpositive interval. -/
lemma sq_bounds_of_neg (s l u : ℝ) (h1 : l ≤ s) (h2 : s ≤ u) (h0 : u ≤ 0) :
    u ^ 2 ≤ s ^ 2 ∧ s ^ 2 ≤ l ^ 2 := by
  constructor <;> nlinarith

/-- `calcRA` with its `let`-bindings substituted, for rewriting. -/
lemma calcRA_def (lon : ℝ) (d : Date) (rise : Bool) :
    calcRA lon d rise =
      (_force_range ((1 / TO_RAD) * Real.arctan (0.91764 *
            Real.tan (TO_RAD * calcL lon d rise))) 360
        + (((⌊calcL lon d rise / 90⌋ : ℤ) : ℝ) * 90
          - ((⌊_force_range ((1 / TO_RAD) * Real.arctan (0.91764 *
              Real.tan (TO_RAD * calcL lon d rise))) 360 / 90⌋ : ℤ) : ℝ) * 90)) / 15 := rfl

/-! ### Inverse-trig bracketing by anchors -/

lemma arccos_bracket (v lo hi : ℝ) (hv1 : -1 ≤ v) (hv2 : v ≤ 1)
    (hlo : 0 ≤ lo) (hlh : lo ≤ hi) (hhi : hi ≤ π)
    (h1 : Real.cos hi ≤ v) (h2 : v ≤ Real.cos lo) :
    lo ≤ Real.arccos v ∧ Real.arccos v ≤ hi := by
  have hA1 := Real.arccos_nonneg v
  have hA2 := Real.arccos_le_pi v
  have hcv := Real.cos_arccos hv1 hv2
  constructor
  · by_contra hcon
    push_neg at hcon
    have := Real.strictAntiOn_cos ⟨hA1, hA2⟩ ⟨hlo, le_trans hlh hhi⟩ hcon
    rw [hcv] at this
    linarith
  · by_contra hcon
    push_neg at hcon
    have := Real.strictAntiOn_cos ⟨le_trans hlo hlh, hhi⟩ ⟨hA1, hA2⟩ hcon
    rw [hcv] at this
    linarith

lemma arctan_bracket (w lo hi : ℝ) (hlo : -(π / 2) < lo) (hlh : lo ≤ hi) (hhi : hi < π / 2)
    (h1 : Real.tan lo ≤ w) (h2 : w ≤ Real.tan hi) :
    lo ≤ Real.arctan w ∧ Real.arctan w ≤ hi := by
  constructor
  · have h := Real.arctan_strictMono.monotone h1
    rwa [Real.arctan_tan hlo (lt_of_le_of_lt hlh hhi)] at h
  · have h := Real.arctan_strictMono.monotone h2
    rwa [Real.arctan_tan (lt_of_lt_of_le hlo hlh) hhi] at h

lemma to_rad_nonneg (a : ℝ) (h : 0 ≤ a) : 0 ≤ TO_RAD * a := by
  unfold TO_RAD
  nlinarith [Real.pi_pos]

lemma to_rad_mono (a b : ℝ) (h : a ≤ b) : TO_RAD * a ≤ TO_RAD * b := by
  unfold TO_RAD
  nlinarith [Real.pi_pos]

lemma to_rad_le_pi (a : ℝ) (h : a ≤ 180) : TO_RAD * a ≤ π := by
  unfold TO_RAD
  nlinarith [Real.pi_pos]

lemma to_rad_gt_neg_half_pi (a : ℝ) (h : -90 < a) : -(π / 2) < TO_RAD * a := by
  unfold TO_RAD
  nlinarith [Real.pi_pos]

lemma to_rad_lt_half_pi (a : ℝ) (h : a < 90) : TO_RAD * a < π / 2 := by
  unfold TO_RAD
  nlinarith [Real.pi_pos]

lemma inv_to_rad_bounds (w a b : ℝ) (h1 : TO_RAD * a ≤ w) (h2 : w ≤ TO_RAD * b) :
    a ≤ (1 / TO_RAD) * w ∧ (1 / TO_RAD) * w ≤ b := by
  have hpos : 0 < TO_RAD := by
    unfold TO_RAD
    exact div_pos Real.pi_pos (by norm_num)
  have hrw : (1 / TO_RAD) * w = w / TO_RAD := by ring
  rw [hrw]
  exact ⟨(le_div_iff hpos).2 (by nlinarith), (div_le_iff hpos).2 (by nlinarith)⟩

/-! ### Floor, truncation and rounding determination -/

lemma floor_det (x : ℝ) (n : ℤ) (h1 : (n : ℝ) ≤ x) (h2 : x < (n : ℝ) + 1) : ⌊x⌋ = n := by
  rw [Int.floor_eq_iff]
  exact ⟨h1, by exact_mod_cast h2⟩

lemma pyint_det (x : ℝ) (n : ℤ) (hn : 0 ≤ n) (h1 : (n : ℝ) ≤ x) (h2 : x < (n : ℝ) + 1) :
    pyint x = n := by
  unfold pyint
  rw [if_pos (le_trans (by exact_mod_cast hn) h1), floor_det x n h1 h2]

lemma pyround_det (x : ℝ) (n : ℤ) (h1 : (n : ℝ) - 1 / 2 < x) (h2 : x < (n : ℝ) + 1 / 2) :
    pyround x = n := by
  unfold pyround
  by_cases hf : Int.fract x = 1 / 2
  · exfalso
    have hfl : ((⌊x⌋ : ℝ)) = x - 1 / 2 := by
      have h := Int.floor_add_fract x
      rw [hf] at h
      linarith
    have h3 : ((n : ℝ)) - 1 < (⌊x⌋ : ℝ) := by linarith
    have h4 : ((⌊x⌋ : ℝ)) < (n : ℝ) := by linarith
    have h5 : n - 1 < ⌊x⌋ := by exact_mod_cast h3
    have h6 : ⌊x⌋ < n := by exact_mod_cast h4
    omega
  · rw [if_neg hf]
    exact floor_det _ n (by linarith) (by linarith)

/-! ### `_force_range` branch evaluation -/

lemma forceRange_id (v mx : ℝ) (h1 : 0 ≤ v) (h2 : v < mx) : _force_range v mx = v := by
  unfold _force_range
  rw [if_neg (not_lt.2 h1), if_neg (not_le.2 h2)]

lemma forceRange_wrap (v mx : ℝ) (hm : 0 ≤ mx) (h1 : mx ≤ v) : _force_range v mx = v - mx := by
  unfold _force_range
  rw [if_neg (not_lt.2 (le_trans hm h1)), if_pos h1]

lemma forceRange_neg (v mx : ℝ) (h1 : v < 0) : _force_range v mx = v + mx := by
  unfold _force_range
  rw [if_pos h1]

/-! ### Branch evaluation of `_force_rangeZ`, `calcN`, and the calculator -/

lemma forceRange_mem (v mx : ℝ) (h1 : -mx ≤ v) (h2 : v < 2 * mx) :
    0 ≤ _force_range v mx ∧ _force_range v mx < mx := by
  unfold _force_range
  split_ifs with ha hb
  · constructor <;> linarith
  · constructor <;> linarith
  · constructor <;> linarith

lemma forceRangeZ_id (v mx : ℤ) (h1 : 0 ≤ v) (h2 : v < mx) : _force_rangeZ v mx = v := by
  unfold _force_rangeZ
  rw [if_neg (by omega), if_neg (by omega)]

lemma calcN_eval (y mo dy : ℤ) (n1 n2 q n3 : ℤ)
    (h1 : ⌊(275 * ((mo : ℤ) : ℝ)) / 9⌋ = n1)
    (h2 : ⌊(((mo : ℤ) : ℝ) + 9) / 12⌋ = n2)
    (h3 : ⌊((y : ℤ) : ℝ) / 4⌋ = q)
    (h4 : ⌊(((y : ℤ) : ℝ) - 4 * ((q : ℤ) : ℝ) + 2) / 3⌋ = n3) :
    calcN ⟨y, mo, dy⟩ = n1 - n2 * (1 + n3) + dy - 30 := by
  unfold calcN
  rw [h1, h2, h3, h4]

/-- The calculator result when the hour-angle test fails high (`cosH > 1`). -/
lemma calc_noEvent_hi (lat lon : ℝ) (d : Date) (rise : Bool) (zen : ℝ)
    (h : 1 < calcCosH lat lon d rise zen) :
    _calc_sun_time lat lon d rise zen = .noEvent := by
  unfold _calc_sun_time
  rw [if_pos h]

/-- The calculator result when the hour-angle test fails low (`cosH < -1`). -/
lemma calc_noEvent_lo (lat lon : ℝ) (d : Date) (rise : Bool) (zen : ℝ)
    (h : calcCosH lat lon d rise zen < -1) (h2 : calcCosH lat lon d rise zen ≤ 1) :
    _calc_sun_time lat lon d rise zen = .noEvent := by
  unfold _calc_sun_time
  rw [if_neg (not_lt.2 h2), if_pos h]

/-- Full evaluation of a successful call: the event exists, `UT` falls in hour
`k` with rounded minute `mn < 60`. -/
lemma calc_eval_ok (lat lon : ℝ) (d : Date) (rise : Bool) (zen : ℝ) (k mn : ℤ)
    (hH1 : -1 ≤ calcCosH lat lon d rise zen) (hH2 : calcCosH lat lon d rise zen ≤ 1)
    (hk0 : 0 ≤ k) (hk23 : k ≤ 23)
    (hUT1 : (k : ℝ) ≤ calcUT lat lon d rise zen)
    (hUT2 : calcUT lat lon d rise zen < (k : ℝ) + 1)
    (hmn1 : (mn : ℝ) - 1 / 2 < (calcUT lat lon d rise zen - (k : ℝ)) * 60)
    (hmn2 : (calcUT lat lon d rise zen - (k : ℝ)) * 60 < (mn : ℝ) + 1 / 2)
    (hmn0 : 0 ≤ mn) (hmn59 : mn ≤ 59)
    (hvalid : mkDatetime d.year d.month d.day k mn = some ⟨d.year, d.month, d.day, k, mn⟩) :
    _calc_sun_time lat lon d rise zen = .ok ⟨d.year, d.month, d.day, k, mn⟩ := by
  have hpy : pyint (calcUT lat lon d rise zen) = k := pyint_det _ k hk0 hUT1 hUT2
  have hrd : pyround ((calcUT lat lon d rise zen - (k : ℝ)) * 60) = mn :=
    pyround_det _ mn hmn1 hmn2
  unfold _calc_sun_time
  rw [if_neg (not_lt.2 hH2), if_neg (not_lt.2 hH1)]
  simp only [hpy]
  simp only [hrd]
  rw [forceRangeZ_id k 24 hk0 (by omega)]
  rw [if_neg (by omega : ¬ mn = 60), if_neg (by omega : ¬ mn = 60),
    if_neg (by omega : ¬ k = 24), if_neg (by omega : ¬ k = 24), hvalid]
  rfl

/-- Full evaluation of the month-end rollover: `UT` is in the last half minute
of the day, the minute rounds to 60, the hour rolls to 24, the day is
incremented past the end of the month and the `datetime` constructor raises. -/
lemma calc_eval_rollover (lat lon : ℝ) (d : Date) (rise : Bool) (zen : ℝ)
    (hH1 : -1 ≤ calcCosH lat lon d rise zen) (hH2 : calcCosH lat lon d rise zen ≤ 1)
    (hUT1 : (23 : ℝ) ≤ calcUT lat lon d rise zen)
    (hUT2 : calcUT lat lon d rise zen < 24)
    (hmn1 : (59.5 : ℝ) < (calcUT lat lon d rise zen - 23) * 60)
    (hinvalid : mkDatetime d.year d.month (d.day + 1) 0 0 = none) :
    _calc_sun_time lat lon d rise zen = .invalidDate := by
  have hpy : pyint (calcUT lat lon d rise zen) = 23 :=
    pyint_det _ 23 (by norm_num) (by exact_mod_cast hUT1) (by push_cast; linarith)
  have hrd : pyround ((calcUT lat lon d rise zen - ((23 : ℤ) : ℝ)) * 60) = 60 :=
    pyround_det _ 60 (by push_cast; linarith) (by push_cast; linarith)
  unfold _calc_sun_time
  rw [if_neg (not_lt.2 hH2), if_neg (not_lt.2 hH1)]
  simp only [hpy]
  simp only [hrd]
  rw [forceRangeZ_id 23 24 (by norm_num) (by norm_num)]
  norm_num [hinvalid]
  rfl

/-! ### Structural facts about the calculator -/

/-- The calculator reports no event exactly when the hour-angle cosine falls
outside `[-1, 1]` — on either side, for either operation. -/
lemma finishResult_ne_noEvent (o : Option Datetime) : finishResult o ≠ .noEvent := by
  cases o <;> simp [finishResult]

lemma finishResult_some (dt : Datetime) : finishResult (some dt) = .ok dt := rfl

lemma finishResult_none : finishResult none = .invalidDate := rfl

/-- The calculator reports no event exactly when the hour-angle cosine falls
outside `[-1, 1]` — on either side, for either operation. -/
lemma calc_noEvent_iff (lat lon : ℝ) (d : Date) (rise : Bool) (zen : ℝ) :
    _calc_sun_time lat lon d rise zen = .noEvent ↔
      (1 < calcCosH lat lon d rise zen ∨ calcCosH lat lon d rise zen < -1) := by
  by_cases h1 : 1 < calcCosH lat lon d rise zen
  · simp only [calc_noEvent_hi lat lon d rise zen h1]
    simp [h1]
  · by_cases h2 : calcCosH lat lon d rise zen < -1
    · simp only [calc_noEvent_lo lat lon d rise zen h2 (le_of_not_lt h1)]
      simp [h2]
    · have hne : _calc_sun_time lat lon d rise zen ≠ .noEvent := by
        unfold _calc_sun_time
        rw [if_neg h1, if_neg h2]
        exact finishResult_ne_noEvent _
      constructor
      · intro h
        exact absurd h hne
      · intro h
        rcases h with h | h
        · exact absurd h h1
        · exact absurd h h2

/-- Sunrise wrapper outcome determined by the calculator outcome. -/
lemma sunrise_match (lat lon : ℝ) (env : Env) (d : Date) (z : Option ℤ) :
    get_local_sunrise_time lat lon env (some d) z =
      match _calc_sun_time lat lon d true 90.8 with
      | .noEvent => .error (.sun .neverRises)
      | .invalidDate => .error .valueError
      | .ok dt => .ok (dt, z.getD env.importZone) := rfl

/-- Sunset wrapper outcome determined by the calculator outcome. -/
lemma sunset_match (lat lon : ℝ) (env : Env) (d : Date) (z : Option ℤ) :
    get_local_sunset_time lat lon env (some d) z =
      match _calc_sun_time lat lon d false 90.8 with
      | .noEvent => .error (.sun .neverSets)
      | .invalidDate => .error .valueError
      | .ok dt => .ok (dt, z.getD env.importZone) := rfl

/-! ### Bounds on the day-of-year formula -/

lemma N3_bounds (y : ℤ) :
    1 ≤ 1 + ⌊((y : ℝ) - 4 * ((⌊(y : ℝ) / 4⌋ : ℤ) : ℝ) + 2) / 3⌋ ∧
      1 + ⌊((y : ℝ) - 4 * ((⌊(y : ℝ) / 4⌋ : ℤ) : ℝ) + 2) / 3⌋ ≤ 2 := by
  have hq1 := Int.floor_le ((y : ℝ) / 4)
  have hq2 := Int.lt_floor_add_one ((y : ℝ) / 4)
  constructor
  · have h0 : (0 : ℤ) ≤ ⌊((y : ℝ) - 4 * ((⌊(y : ℝ) / 4⌋ : ℤ) : ℝ) + 2) / 3⌋ := by
      apply Int.le_floor.2
      push_cast
      nlinarith
    omega
  · have h1 : ⌊((y : ℝ) - 4 * ((⌊(y : ℝ) / 4⌋ : ℤ) : ℝ) + 2) / 3⌋ < 2 := by
      apply Int.floor_lt.2
      push_cast
      nlinarith
    omega

lemma daysInMonth_le (y m : ℤ) : daysInMonth y m ≤ 31 := by
  unfold daysInMonth
  split_ifs <;> omega

lemma daysInMonth_pos (y m : ℤ) : 1 ≤ daysInMonth y m := by
  unfold daysInMonth
  split_ifs <;> omega

/-- For every valid calendar date the day-of-year integer lands in `[1, 366]`. -/
lemma calcN_bounds (d : Date) (hd : d.Valid) : 1 ≤ calcN d ∧ calcN d ≤ 366 := by
  obtain ⟨y, m, dy⟩ := d
  obtain ⟨hy1, hy2, hm1, hm2, hd1, hd2⟩ := hd
  simp only at hy1 hy2 hm1 hm2 hd1 hd2
  have hd31 : dy ≤ 31 := le_trans hd2 (daysInMonth_le y m)
  have hm1r : (1 : ℝ) ≤ (m : ℝ) := by exact_mod_cast hm1
  have hm2r : ((m : ℝ)) ≤ 12 := by exact_mod_cast hm2
  unfold calcN
  simp only
  obtain ⟨h31, h32⟩ := N3_bounds y
  set N3 := 1 + ⌊((y : ℝ) - 4 * ((⌊(y : ℝ) / 4⌋ : ℤ) : ℝ) + 2) / 3⌋ with hN3
  rcases le_or_lt m 2 with hm | hm
  · -- January / February: N2 = 0
    have hmr : ((m : ℝ)) ≤ 2 := by exact_mod_cast hm
    have hn2 : ⌊((m : ℝ) + 9) / 12⌋ = 0 := by
      apply floor_det
      · push_cast
        nlinarith
      · push_cast
        nlinarith
    have hn1lo : (30 : ℤ) ≤ ⌊(275 * (m : ℝ)) / 9⌋ := by
      apply Int.le_floor.2
      push_cast
      nlinarith
    have hn1hi : ⌊(275 * (m : ℝ)) / 9⌋ < 62 := by
      apply Int.floor_lt.2
      push_cast
      nlinarith
    rw [hn2]
    omega
  · -- March..December: N2 = 1, N1 within [91, 366]
    have hmr : (3 : ℝ) ≤ (m : ℝ) := by exact_mod_cast hm
    have hn2 : ⌊((m : ℝ) + 9) / 12⌋ = 1 := by
      apply floor_det
      · push_cast
        nlinarith
      · push_cast
        nlinarith
    have hn1lo : (91 : ℤ) ≤ ⌊(275 * (m : ℝ)) / 9⌋ := by
      apply Int.le_floor.2
      push_cast
      nlinarith
    rcases le_or_lt m 11 with hm11 | hm12
    · have hm11r : ((m : ℝ)) ≤ 11 := by exact_mod_cast hm11
      have hn1hi : ⌊(275 * (m : ℝ)) / 9⌋ < 337 := by
        apply Int.floor_lt.2
        push_cast
        nlinarith
      rw [hn2]
      omega
    · have hmeq : m = 12 := by omega
      subst hmeq
      have hn1 : ⌊(275 * ((12 : ℤ) : ℝ)) / 9⌋ = 366 := by
        apply floor_det <;> norm_num
      rw [hn2, hn1]
      omega

/-- For valid dates and longitudes in `[-180, 180]`, the true longitude `L`
lands in `[0, 360)` after its single normalization step. -/
lemma calcL_mem (lon : ℝ) (d : Date) (rise : Bool) (hd : d.Valid)
    (hlon1 : -180 ≤ lon) (hlon2 : lon ≤ 180) :
    0 ≤ calcL lon d rise ∧ calcL lon d rise < 360 := by
  obtain ⟨hN1, hN2⟩ := calcN_bounds d hd
  have hN1r : (1 : ℝ) ≤ (calcN d : ℝ) := by exact_mod_cast hN1
  have hN2r : ((calcN d : ℝ)) ≤ 366 := by exact_mod_cast hN2
  have ht : 0.75 ≤ calcT lon d rise ∧ calcT lon d rise ≤ 367.25 := by
    unfold calcT calcLngHour
    cases rise
    · rw [if_neg (by simp)]
      constructor <;> nlinarith
    · rw [if_pos rfl]
      constructor <;> nlinarith
  have hM : -2.5498 ≤ calcM lon d rise ∧ calcM lon d rise ≤ 358.68 := by
    unfold calcM
    constructor <;> nlinarith [ht.1, ht.2]
  have hs1 := Real.neg_one_le_sin (TO_RAD * calcM lon d rise)
  have hs2 := Real.sin_le_one (TO_RAD * calcM lon d rise)
  have hs3 := Real.neg_one_le_sin (TO_RAD * 2 * calcM lon d rise)
  have hs4 := Real.sin_le_one (TO_RAD * 2 * calcM lon d rise)
  unfold calcL
  have hmem := forceRange_mem (calcM lon d rise
      + 1.916 * Real.sin (TO_RAD * calcM lon d rise)
      + 0.020 * Real.sin (TO_RAD * 2 * calcM lon d rise)
      + 282.634) 360 (by nlinarith [hM.1]) (by nlinarith [hM.2])
  exact hmem

lemma finishResult_ok_inv (o : Option Datetime) (dt : Datetime)
    (h : finishResult o = .ok dt) : o = some dt := by
  cases o with
  | none => exact absurd h (by simp [finishResult])
  | some d => 
    unfold finishResult at h
    simp only [CalcResult.ok.injEq] at h
    rw [h]

lemma mkDatetime_inv (y mo dy hr mn : ℤ) (dt : Datetime)
    (h : mkDatetime y mo dy hr mn = some dt) : dt = ⟨y, mo, dy, hr, mn⟩ := by
  unfold mkDatetime at h
  split_ifs at h
  · exact (Option.some_injective _ h).symm

/-- The frame property of the result date: year and month are passed through
unchanged, the day either stays or is incremented once, with no month or year
carry. -/
lemma calc_ok_frame (lat lon : ℝ) (d : Date) (rise : Bool) (zen : ℝ) (dt : Datetime)
    (h : _calc_sun_time lat lon d rise zen = .ok dt) :
    dt.year = d.year ∧ dt.month = d.month ∧ (dt.day = d.day ∨ dt.day = d.day + 1) := by
  unfold _calc_sun_time at h
  by_cases h1 : 1 < calcCosH lat lon d rise zen
  · rw [if_pos h1] at h
    exact absurd h (by simp)
  rw [if_neg h1] at h
  by_cases h2 : calcCosH lat lon d rise zen < -1
  · rw [if_pos h2] at h
    exact absurd h (by simp)
  rw [if_neg h2] at h
  have hdt := mkDatetime_inv _ _ _ _ _ _ (finishResult_ok_inv _ _ h)
  subst hdt
  refine ⟨rfl, rfl, ?_⟩
  dsimp only
  split_ifs <;> simp

lemma coszen_bounds : (-0.0139621827) ≤ Real.cos (TO_RAD * 90.8) ∧ Real.cos (TO_RAD * 90.8) ≤ (-0.0139621769) := by
  obtain ⟨g454_5c_x1, g454_5c_x2⟩ := to_rad_shift_bounds 90.8 1 0.0139626311 0.0139626356 (by norm_num)
  obtain ⟨g454_5c_s1, g454_5c_s2⟩ := sin_chain2 ((TO_RAD * 90.8 - 1 * (π / 2))) 0.0139626311 0.0139626356 0.0015514028 0.0015514034 0.0046541934 0.0046541953 0.0139621769 0.0139621827 g454_5c_x1 g454_5c_x2 (by norm_num [sinChainCond2])
  obtain ⟨g454_5c_1, g454_5c_2⟩ : (-0.0139621827) ≤ Real.cos (TO_RAD * 90.8) ∧ Real.cos (TO_RAD * 90.8) ≤ (-0.0139621769) := by rw [cos_red1 (TO_RAD * 90.8)]; constructor <;> linarith only [g454_5c_s1, g454_5c_s2]
  exact ⟨g454_5c_1, g454_5c_2⟩

lemma ang_257537_5000 : 0.7826873776 ≤ Real.sin (TO_RAD * 51.5074) ∧ Real.sin (TO_RAD * 51.5074) ≤ 0.7826897785 ∧ 0.6224018846 ≤ Real.cos (TO_RAD * 51.5074) ∧ Real.cos (TO_RAD * 51.5074) ≤ 0.6224248996 := by
  obtain ⟨g257537_5000s_x1, g257537_5000s_x2⟩ := to_rad_shift_bounds 51.5074 1 (-0.6718226818) (-0.6718224678) (by norm_num)
  obtain ⟨g257537_5000s_c1, g257537_5000s_c2⟩ := cos_chain2_neg ((TO_RAD * 51.5074 - 1 * (π / 2))) (-0.6718226818) (-0.6718224678) (-0.0373149179) (-0.0373147038) (-0.1117369241) (-0.1117362853) (-0.3296305677) (-0.3296287469) 0.7826873776 0.7826897785 g257537_5000s_x1 g257537_5000s_x2 (by norm_num [sinChainCond2])
  obtain ⟨g257537_5000s_1, g257537_5000s_2⟩ : 0.7826873776 ≤ Real.sin (TO_RAD * 51.5074) ∧ Real.sin (TO_RAD * 51.5074) ≤ 0.7826897785 := by rw [sin_red1 (TO_RAD * 51.5074)]; exact ⟨g257537_5000s_c1, g257537_5000s_c2⟩
  obtain ⟨g257537_5000c_x1, g257537_5000c_x2⟩ := to_rad_shift_bounds 51.5074 1 (-0.6718226818) (-0.6718224678) (by norm_num)
  obtain ⟨g257537_5000c_s1, g257537_5000c_s2⟩ := sin_chain2 ((TO_RAD * 51.5074 - 1 * (π / 2))) (-0.6718226818) (-0.6718224678) (-0.0745792576) (-0.0745759995) (-0.2220785139) (-0.222068957) (-0.6224248996) (-0.6224018846) g257537_5000c_x1 g257537_5000c_x2 (by norm_num [sinChainCond2])
  obtain ⟨g257537_5000c_1, g257537_5000c_2⟩ : 0.6224018846 ≤ Real.cos (TO_RAD * 51.5074) ∧ Real.cos (TO_RAD * 51.5074) ≤ 0.6224248996 := by rw [cos_red1 (TO_RAD * 51.5074)]; constructor <;> linarith only [g257537_5000c_s1, g257537_5000c_s2]
  exact ⟨g257537_5000s_1, g257537_5000s_2, g257537_5000c_1, g257537_5000c_2⟩

lemma ang_78 : 0.9781475921 ≤ Real.sin (TO_RAD * 78) ∧ Real.sin (TO_RAD * 78) ≤ 0.9781476135 ∧ 0.2079115121 ≤ Real.cos (TO_RAD * 78) ∧ Real.cos (TO_RAD * 78) ≤ 0.2079118481 := by
  obtain ⟨g78s_x1, g78s_x2⟩ := to_rad_shift_bounds 78 1 (-0.2094395334) (-0.2094394666) (by norm_num)
  obtain ⟨g78s_c1, g78s_c2⟩ := cos_chain2_neg ((TO_RAD * 78 - 1 * (π / 2))) (-0.2094395334) (-0.2094394666) (-0.0116352681) (-0.0116352624) (-0.0348995036) (-0.0348994865) (-0.1045284839) (-0.1045284328) 0.9781475921 0.9781476135 g78s_x1 g78s_x2 (by norm_num [sinChainCond2])
  obtain ⟨g78s_1, g78s_2⟩ : 0.9781475921 ≤ Real.sin (TO_RAD * 78) ∧ Real.sin (TO_RAD * 78) ≤ 0.9781476135 := by rw [sin_red1 (TO_RAD * 78)]; exact ⟨g78s_c1, g78s_c2⟩
  obtain ⟨g78c_x1, g78c_x2⟩ := to_rad_shift_bounds 78 1 (-0.2094395334) (-0.2094394666) (by norm_num)
  obtain ⟨g78c_s1, g78c_s2⟩ := sin_chain2 ((TO_RAD * 78 - 1 * (π / 2))) (-0.2094395334) (-0.2094394666) (-0.0232689742) (-0.0232689361) (-0.0697565272) (-0.069756413) (-0.2079118481) (-0.2079115121) g78c_x1 g78c_x2 (by norm_num [sinChainCond2])
  obtain ⟨g78c_1, g78c_2⟩ : 0.2079115121 ≤ Real.cos (TO_RAD * 78) ∧ Real.cos (TO_RAD * 78) ≤ 0.2079118481 := by rw [cos_red1 (TO_RAD * 78)]; constructor <;> linarith only [g78c_s1, g78c_s2]
  exact ⟨g78s_1, g78s_2, g78c_1, g78c_2⟩

lemma ang_105_2 : 0.7933523028 ≤ Real.sin (TO_RAD * 52.5) ∧ Real.sin (TO_RAD * 52.5) ≤ 0.7933544286 ∧ 0.6087507708 ≤ Real.cos (TO_RAD * 52.5) ∧ Real.cos (TO_RAD * 52.5) ≤ 0.6087717939 := by
  obtain ⟨g105_2s_x1, g105_2s_x2⟩ := to_rad_shift_bounds 52.5 1 (-0.6544985417) (-0.6544983333) (by norm_num)
  obtain ⟨g105_2s_c1, g105_2s_c2⟩ := cos_chain2_neg ((TO_RAD * 52.5 - 1 * (π / 2))) (-0.6544985417) (-0.6544983333) (-0.0363531089) (-0.0363529151) (-0.1088671572) (-0.1088665787) (-0.3214402722) (-0.3214386189) 0.7933523028 0.7933544286 g105_2s_x1 g105_2s_x2 (by norm_num [sinChainCond2])
  obtain ⟨g105_2s_1, g105_2s_2⟩ : 0.7933523028 ≤ Real.sin (TO_RAD * 52.5) ∧ Real.sin (TO_RAD * 52.5) ≤ 0.7933544286 := by rw [sin_red1 (TO_RAD * 52.5)]; exact ⟨g105_2s_c1, g105_2s_c2⟩
  obtain ⟨g105_2c_x1, g105_2c_x2⟩ := to_rad_shift_bounds 52.5 1 (-0.6544985417) (-0.6544983333) (by norm_num)
  obtain ⟨g105_2c_s1, g105_2c_s2⟩ := sin_chain2 ((TO_RAD * 52.5 - 1 * (π / 2))) (-0.6544985417) (-0.6544983333) (-0.0726594185) (-0.072656482) (-0.2164438656) (-0.216435242) (-0.6087717939) (-0.6087507708) g105_2c_x1 g105_2c_x2 (by norm_num [sinChainCond2])
  obtain ⟨g105_2c_1, g105_2c_2⟩ : 0.6087507708 ≤ Real.cos (TO_RAD * 52.5) ∧ Real.cos (TO_RAD * 52.5) ≤ 0.6087717939 := by rw [cos_red1 (TO_RAD * 52.5)]; constructor <;> linarith only [g105_2c_s1, g105_2c_s2]
  exact ⟨g105_2s_1, g105_2s_2, g105_2c_1, g105_2c_2⟩

lemma ang_899_10 : 0.9999984769 ≤ Real.sin (TO_RAD * 89.9) ∧ Real.sin (TO_RAD * 89.9) ≤ 0.999998477 ∧ 0.0017453275 ≤ Real.cos (TO_RAD * 89.9) ∧ Real.cos (TO_RAD * 89.9) ≤ 0.0017453288 := by
  obtain ⟨g899_10s_x1, g899_10s_x2⟩ := to_rad_shift_bounds 89.9 1 (-0.0017453295) (-0.0017453288) (by norm_num)
  obtain ⟨g899_10s_c1, g899_10s_c2⟩ := cos_chain2_neg ((TO_RAD * 89.9 - 1 * (π / 2))) (-0.0017453295) (-0.0017453288) (-0.0000969628) (-0.0000969627) (-0.0002908884) (-0.000290888) (-0.0008726652) (-0.0008726639) 0.9999984769 0.999998477 g899_10s_x1 g899_10s_x2 (by norm_num [sinChainCond2])
  obtain ⟨g899_10s_1, g899_10s_2⟩ : 0.9999984769 ≤ Real.sin (TO_RAD * 89.9) ∧ Real.sin (TO_RAD * 89.9) ≤ 0.999998477 := by rw [sin_red1 (TO_RAD * 89.9)]; exact ⟨g899_10s_c1, g899_10s_c2⟩
  obtain ⟨g899_10c_x1, g899_10c_x2⟩ := to_rad_shift_bounds 89.9 1 (-0.0017453295) (-0.0017453288) (by norm_num)
  obtain ⟨g899_10c_s1, g899_10c_s2⟩ := sin_chain2 ((TO_RAD * 89.9 - 1 * (π / 2))) (-0.0017453295) (-0.0017453288) (-0.0001939255) (-0.0001939254) (-0.0005817765) (-0.0005817761) (-0.0017453288) (-0.0017453275) g899_10c_x1 g899_10c_x2 (by norm_num [sinChainCond2])
  obtain ⟨g899_10c_1, g899_10c_2⟩ : 0.0017453275 ≤ Real.cos (TO_RAD * 89.9) ∧ Real.cos (TO_RAD * 89.9) ≤ 0.0017453288 := by rw [cos_red1 (TO_RAD * 89.9)]; constructor <;> linarith only [g899_10c_s1, g899_10c_s2]
  exact ⟨g899_10s_1, g899_10s_2, g899_10c_1, g899_10c_2⟩

lemma ang_21353_250 : 0.9967956526 ≤ Real.sin (TO_RAD * 85.412) ∧ Real.sin (TO_RAD * 85.412) ≤ 0.9967956549 ∧ 0.079990138 ≤ Real.cos (TO_RAD * 85.412) ∧ Real.cos (TO_RAD * 85.412) ≤ 0.0799901704 := by
  obtain ⟨g21353_250s_x1, g21353_250s_x2⟩ := to_rad_shift_bounds 85.412 1 (-0.080075715) (-0.0800756894) (by norm_num)
  obtain ⟨g21353_250s_c1, g21353_250s_c2⟩ := cos_chain2_neg ((TO_RAD * 85.412 - 1 * (π / 2))) (-0.080075715) (-0.0800756894) (-0.0044486362) (-0.0044486347) (-0.0133455565) (-0.0133455519) (-0.040027162) (-0.0400271481) 0.9967956526 0.9967956549 g21353_250s_x1 g21353_250s_x2 (by norm_num [sinChainCond2])
  obtain ⟨g21353_250s_1, g21353_250s_2⟩ : 0.9967956526 ≤ Real.sin (TO_RAD * 85.412) ∧ Real.sin (TO_RAD * 85.412) ≤ 0.9967956549 := by rw [sin_red1 (TO_RAD * 85.412)]; exact ⟨g21353_250s_c1, g21353_250s_c2⟩
  obtain ⟨g21353_250c_x1, g21353_250c_x2⟩ := to_rad_shift_bounds 85.412 1 (-0.080075715) (-0.0800756894) (by norm_num)
  obtain ⟨g21353_250c_s1, g21353_250c_s2⟩ := sin_chain2 ((TO_RAD * 85.412 - 1 * (π / 2))) (-0.080075715) (-0.0800756894) (-0.0088971847) (-0.0088971811) (-0.0266887369) (-0.0266887261) (-0.0799901704) (-0.079990138) g21353_250c_x1 g21353_250c_x2 (by norm_num [sinChainCond2])
  obtain ⟨g21353_250c_1, g21353_250c_2⟩ : 0.079990138 ≤ Real.cos (TO_RAD * 85.412) ∧ Real.cos (TO_RAD * 85.412) ≤ 0.0799901704 := by rw [cos_red1 (TO_RAD * 85.412)]; constructor <;> linarith only [g21353_250c_s1, g21353_250c_s2]
  exact ⟨g21353_250s_1, g21353_250s_2, g21353_250c_1, g21353_250c_2⟩

lemma S1_L : 280.5071535 ≤ calcL (-0.1278) ⟨2023, 1, 1⟩ true ∧ calcL (-0.1278) ⟨2023, 1, 1⟩ true ≤ 280.5071561 := by
  have hN : calcN ⟨2023, 1, 1⟩ = 1 := by
    have h := calcN_eval 2023 1 1 30 0 505 1
      (floor_det _ 30 (by norm_num) (by norm_num))
      (floor_det _ 0 (by norm_num) (by norm_num))
      (floor_det _ 505 (by norm_num) (by norm_num))
      (floor_det _ 1 (by norm_num) (by norm_num))
    norm_num at h
    exact h
  have hM : calcM (-0.1278) ⟨2023, 1, 1⟩ true = (-2.056650112) := by
    unfold calcM calcT calcLngHour
    rw [hN]
    norm_num
  obtain ⟨S1_sM_x1, S1_sM_x2⟩ := to_rad_val_bounds (-2.056650112) (-0.0358954) (-0.0358953) (by norm_num)
  obtain ⟨S1_sM_s1, S1_sM_s2⟩ := sin_chain2 (TO_RAD * (-2.056650112)) (-0.0358954) (-0.0358953) (-0.0039884) (-0.0039883) (-0.011965) (-0.0119646) (-0.0358882) (-0.0358869) S1_sM_x1 S1_sM_x2 (by norm_num [sinChainCond2])
  obtain ⟨S1_s2_x1, S1_s2_x2⟩ := to_rad_val_bounds (2 * (-2.056650112)) (-0.0717907) (-0.0717906) (by norm_num)
  obtain ⟨S1_s2_s1, S1_s2_s2⟩ := sin_chain2 (TO_RAD * (2 * (-2.056650112))) (-0.0717907) (-0.0717906) (-0.0079767) (-0.0079766) (-0.0239281) (-0.0239277) (-0.0717295) (-0.0717283) S1_s2_x1 S1_s2_x2 (by norm_num [sinChainCond2])
  unfold calcL
  rw [hM]
  rw [mul_assoc TO_RAD 2 (-2.056650112)]
  rw [forceRange_id ((-2.056650112) + 1.916 * Real.sin (TO_RAD * (-2.056650112)) + 0.020 * Real.sin (TO_RAD * (2 * (-2.056650112))) + 282.634) 360 (by linarith only [S1_sM_s1, S1_sM_s2, S1_s2_s1, S1_s2_s2]) (by linarith only [S1_sM_s1, S1_sM_s2, S1_s2_s1, S1_s2_s2])]
  constructor <;> linarith only [S1_sM_s1, S1_sM_s2, S1_s2_s1, S1_s2_s2]

lemma S1_cosH : 0.5100693 ≤ calcCosH 51.5074 (-0.1278) ⟨2023, 1, 1⟩ true 90.8 ∧ calcCosH 51.5074 (-0.1278) ⟨2023, 1, 1⟩ true 90.8 ≤ 0.5100907 := by
  obtain ⟨hL1, hL2⟩ := S1_L
  obtain ⟨S1_sL_x1, S1_sL_x2⟩ := to_rad_shift_bounds_of_le (calcL (-0.1278) ⟨2023, 1, 1⟩ true) 3 280.5071535 280.5071561 0.1833843 0.1833845 hL1 hL2 (by norm_num)
  obtain ⟨S1_sL_c1, S1_sL_c2⟩ := cos_chain2_pos ((TO_RAD * calcL (-0.1278) ⟨2023, 1, 1⟩ true - 3 * (π / 2))) 0.1833843 0.1833845 0.0101878 0.0101879 0.0305591 0.0305595 0.0915631 0.0915644 0.9832319 0.9832324 S1_sL_x1 S1_sL_x2 (by norm_num [sinChainCond2])
  obtain ⟨S1_sL_1, S1_sL_2⟩ : (-0.9832324) ≤ Real.sin (TO_RAD * calcL (-0.1278) ⟨2023, 1, 1⟩ true) ∧ Real.sin (TO_RAD * calcL (-0.1278) ⟨2023, 1, 1⟩ true) ≤ (-0.9832319) := by rw [sin_red3 (TO_RAD * calcL (-0.1278) ⟨2023, 1, 1⟩ true)]; constructor <;> linarith only [S1_sL_c1, S1_sL_c2]
  obtain ⟨ha1, ha2⟩ : (-0.3911496) ≤ calcSinDec (-0.1278) ⟨2023, 1, 1⟩ true ∧ calcSinDec (-0.1278) ⟨2023, 1, 1⟩ true ≤ (-0.3911493) := by
    unfold calcSinDec
    constructor <;> linarith only [S1_sL_1, S1_sL_2]
  obtain ⟨hq1, hq2⟩ := sq_bounds_of_neg (calcSinDec (-0.1278) ⟨2023, 1, 1⟩ true) (-0.3911496) (-0.3911493) ha1 ha2 (by norm_num)
  obtain ⟨hb1, hb2⟩ : 0.9203271 ≤ calcCosDec (-0.1278) ⟨2023, 1, 1⟩ true ∧ calcCosDec (-0.1278) ⟨2023, 1, 1⟩ true ≤ 0.9203273 := by
    unfold calcCosDec
    rw [Real.cos_arcsin]
    exact sqrt_ivl _ 0.9203271 0.9203273 (by nlinarith [hq1, hq2]) (by nlinarith [hq1, hq2]) (by norm_num)
  obtain ⟨hc1, hc2⟩ := coszen_bounds
  obtain ⟨hd1, hd2, he1, he2⟩ := ang_257537_5000
  unfold calcCosH
  obtain ⟨hm1, hm2⟩ := mul_ivl_negpos (calcSinDec (-0.1278) ⟨2023, 1, 1⟩ true) (Real.sin (TO_RAD * 51.5074)) (-0.3911496) (-0.3911493) 0.7826873776 0.7826897785 ha1 ha2 hd1 hd2 (by linarith only [ha2]) (by norm_num)
  obtain ⟨hn1, hn2⟩ := mul_ivl_pos (calcCosDec (-0.1278) ⟨2023, 1, 1⟩ true) (Real.cos (TO_RAD * 51.5074)) 0.9203271 0.9203273 0.6224018846 0.6224248996 hb1 hb2 he1 he2 (by norm_num) (by norm_num)
  exact div_ivl _ _ 0.2921854 0.2921867 0.5728133 0.5728347 0.5100693 0.5100907 (by linarith only [hc1, hm1, hm2]) (by linarith only [hc2, hm1, hm2]) (by linarith only [hn1]) (by linarith only [hn2]) (by norm_num)

lemma S1_H : 20.0444772 ≤ calcH 51.5074 (-0.1278) ⟨2023, 1, 1⟩ true 90.8 ∧ calcH 51.5074 (-0.1278) ⟨2023, 1, 1⟩ true 90.8 ≤ 20.044744 := by
  obtain ⟨h1, h2⟩ := S1_cosH
  obtain ⟨S1_aA_x1, S1_aA_x2⟩ := to_rad_shift_bounds 59.328841 1 (-0.5353128) (-0.5353125) (by norm_num)
  obtain ⟨S1_aA_s1, S1_aA_s2⟩ := sin_chain2 ((TO_RAD * 59.328841 - 1 * (π / 2))) (-0.5353128) (-0.5353125) (-0.0594448) (-0.0594434) (-0.1774942) (-0.17749) (-0.5101154) (-0.5101043) S1_aA_x1 S1_aA_x2 (by norm_num [sinChainCond2])
  obtain ⟨S1_aA_1, S1_aA_2⟩ : 0.5101043 ≤ Real.cos (TO_RAD * 59.328841) ∧ Real.cos (TO_RAD * 59.328841) ≤ 0.5101154 := by rw [cos_red1 (TO_RAD * 59.328841)]; constructor <;> linarith only [S1_aA_s1, S1_aA_s2]
  obtain ⟨S1_aB_x1, S1_aB_x2⟩ := to_rad_shift_bounds 59.332842 1 (-0.535243) (-0.5352427) (by norm_num)
  obtain ⟨S1_aB_s1, S1_aB_s2⟩ := sin_chain2 ((TO_RAD * 59.332842 - 1 * (π / 2))) (-0.535243) (-0.5352427) (-0.0594371) (-0.0594357) (-0.1774714) (-0.1774672) (-0.5100556) (-0.5100445) S1_aB_x1 S1_aB_x2 (by norm_num [sinChainCond2])
  obtain ⟨S1_aB_1, S1_aB_2⟩ : 0.5100445 ≤ Real.cos (TO_RAD * 59.332842) ∧ Real.cos (TO_RAD * 59.332842) ≤ 0.5100556 := by rw [cos_red1 (TO_RAD * 59.332842)]; constructor <;> linarith only [S1_aB_s1, S1_aB_s2]
  have hbr := arccos_bracket (calcCosH 51.5074 (-0.1278) ⟨2023, 1, 1⟩ true 90.8) (TO_RAD * 59.328841) (TO_RAD * 59.332842) (by linarith only [h1]) (by linarith only [h2])
    (to_rad_nonneg _ (by norm_num)) (to_rad_mono _ _ (by norm_num)) (to_rad_le_pi _ (by norm_num))
    (by linarith only [S1_aB_2, h1]) (by linarith only [S1_aA_1, h2])
  obtain ⟨hk1, hk2⟩ := inv_to_rad_bounds (Real.arccos (calcCosH 51.5074 (-0.1278) ⟨2023, 1, 1⟩ true 90.8)) 59.328841 59.332842 hbr.1 hbr.2
  unfold calcH
  rw [if_pos rfl]
  constructor <;> linarith only [hk1, hk2]

lemma S1_RA : 18.7616247 ≤ calcRA (-0.1278) ⟨2023, 1, 1⟩ true ∧ calcRA (-0.1278) ⟨2023, 1, 1⟩ true ≤ 18.7618915 := by
  obtain ⟨hL1, hL2⟩ := S1_L
  obtain ⟨hy1, hy2⟩ := to_rad_shift_bounds_of_le (calcL (-0.1278) ⟨2023, 1, 1⟩ true) 3 280.5071535 280.5071561 0.1833843 0.1833845 hL1 hL2 (by norm_num)
  obtain ⟨S1_rs_s1, S1_rs_s2⟩ := sin_chain2 ((TO_RAD * calcL (-0.1278) ⟨2023, 1, 1⟩ true - 3 * (π / 2))) 0.1833843 0.1833845 0.0203746 0.0203747 0.0610899 0.0610903 0.1823577 0.182359 hy1 hy2 (by norm_num [sinChainCond2])
  obtain ⟨S1_rc_c1, S1_rc_c2⟩ := cos_chain2_pos ((TO_RAD * calcL (-0.1278) ⟨2023, 1, 1⟩ true - 3 * (π / 2))) 0.1833843 0.1833845 0.0101878 0.0101879 0.0305591 0.0305595 0.0915631 0.0915644 0.9832319 0.9832324 hy1 hy2 (by norm_num [sinChainCond2])
  have htan : Real.tan (TO_RAD * calcL (-0.1278) ⟨2023, 1, 1⟩ true) = -(Real.cos (TO_RAD * calcL (-0.1278) ⟨2023, 1, 1⟩ true - 3 * (π / 2)) / Real.sin (TO_RAD * calcL (-0.1278) ⟨2023, 1, 1⟩ true - 3 * (π / 2))) := by
    conv_lhs => rw [show TO_RAD * calcL (-0.1278) ⟨2023, 1, 1⟩ true = (TO_RAD * calcL (-0.1278) ⟨2023, 1, 1⟩ true - 3 * (π / 2)) + 3 * (π / 2) by ring]
    rw [tan_shift3, Real.tan_eq_sin_div_cos, inv_div]
  obtain ⟨hq1, hq2⟩ := div_ivl (Real.cos (TO_RAD * calcL (-0.1278) ⟨2023, 1, 1⟩ true - 3 * (π / 2))) (Real.sin (TO_RAD * calcL (-0.1278) ⟨2023, 1, 1⟩ true - 3 * (π / 2))) 0.9832319 0.9832324 0.1823577 0.182359 5.3917377 5.391779 S1_rc_c1 S1_rc_c2 S1_rs_s1 S1_rs_s2 (by norm_num)
  have hw1 : (-4.9477121) ≤ 0.91764 * Real.tan (TO_RAD * calcL (-0.1278) ⟨2023, 1, 1⟩ true) := by rw [htan]; linarith only [hq1, hq2]
  have hw2 : 0.91764 * Real.tan (TO_RAD * calcL (-0.1278) ⟨2023, 1, 1⟩ true) ≤ (-4.9476741) := by rw [htan]; linarith only [hq1, hq2]
  obtain ⟨S1_as_x1, S1_as_x2⟩ := to_rad_shift_bounds (-78.575629) (-1) 0.1993928 0.199393 (by norm_num)
  obtain ⟨S1_as_c1, S1_as_c2⟩ := cos_chain2_pos ((TO_RAD * (-78.575629) - (-1) * (π / 2))) 0.1993928 0.199393 0.0110771 0.0110772 0.0332258 0.0332262 0.0995306 0.0995319 0.9801868 0.9801874 S1_as_x1 S1_as_x2 (by norm_num [sinChainCond2])
  obtain ⟨S1_as_1, S1_as_2⟩ : (-0.9801874) ≤ Real.sin (TO_RAD * (-78.575629)) ∧ Real.sin (TO_RAD * (-78.575629)) ≤ (-0.9801868) := by rw [sin_red_m1 (TO_RAD * (-78.575629))]; constructor <;> linarith only [S1_as_c1, S1_as_c2]
  obtain ⟨S1_ac_x1, S1_ac_x2⟩ := to_rad_shift_bounds (-78.575629) (-1) 0.1993928 0.199393 (by norm_num)
  obtain ⟨S1_ac_s1, S1_ac_s2⟩ := sin_chain2 ((TO_RAD * (-78.575629) - (-1) * (π / 2))) 0.1993928 0.199393 0.0221529 0.022153 0.0664152 0.0664156 0.1980737 0.198075 S1_ac_x1 S1_ac_x2 (by norm_num [sinChainCond2])
  obtain ⟨S1_ac_1, S1_ac_2⟩ : 0.1980737 ≤ Real.cos (TO_RAD * (-78.575629)) ∧ Real.cos (TO_RAD * (-78.575629)) ≤ 0.198075 := by rw [cos_red_m1 (TO_RAD * (-78.575629))]; exact ⟨S1_ac_s1, S1_ac_s2⟩
  obtain ⟨S1_bs_x1, S1_bs_x2⟩ := to_rad_shift_bounds (-78.571628) (-1) 0.1994626 0.1994628 (by norm_num)
  obtain ⟨S1_bs_c1, S1_bs_c2⟩ := cos_chain2_pos ((TO_RAD * (-78.571628) - (-1) * (π / 2))) 0.1994626 0.1994628 0.011081 0.0110811 0.0332375 0.0332379 0.0995656 0.0995669 0.9801728 0.9801734 S1_bs_x1 S1_bs_x2 (by norm_num [sinChainCond2])
  obtain ⟨S1_bs_1, S1_bs_2⟩ : (-0.9801734) ≤ Real.sin (TO_RAD * (-78.571628)) ∧ Real.sin (TO_RAD * (-78.571628)) ≤ (-0.9801728) := by rw [sin_red_m1 (TO_RAD * (-78.571628))]; constructor <;> linarith only [S1_bs_c1, S1_bs_c2]
  obtain ⟨S1_bc_x1, S1_bc_x2⟩ := to_rad_shift_bounds (-78.571628) (-1) 0.1994626 0.1994628 (by norm_num)
  obtain ⟨S1_bc_s1, S1_bc_s2⟩ := sin_chain2 ((TO_RAD * (-78.571628) - (-1) * (π / 2))) 0.1994626 0.1994628 0.0221606 0.0221608 0.0664382 0.0664389 0.1981415 0.1981437 S1_bc_x1 S1_bc_x2 (by norm_num [sinChainCond2])
  obtain ⟨S1_bc_1, S1_bc_2⟩ : 0.1981415 ≤ Real.cos (TO_RAD * (-78.571628)) ∧ Real.cos (TO_RAD * (-78.571628)) ≤ 0.1981437 := by rw [cos_red_m1 (TO_RAD * (-78.571628))]; exact ⟨S1_bc_s1, S1_bc_s2⟩
  have hta : Real.tan (TO_RAD * (-78.575629)) ≤ (-4.9485639) := by
    rw [Real.tan_eq_sin_div_cos]
    exact (div_ivl (Real.sin (TO_RAD * (-78.575629))) (Real.cos (TO_RAD * (-78.575629))) (-0.9801874) (-0.9801868) 0.1980737 0.198075 (-4.9485995) (-4.9485639) S1_as_1 S1_as_2 S1_ac_1 S1_ac_2 (by norm_num)).2
  have htb : (-4.9468355) ≤ Real.tan (TO_RAD * (-78.571628)) := by
    rw [Real.tan_eq_sin_div_cos]
    exact (div_ivl (Real.sin (TO_RAD * (-78.571628))) (Real.cos (TO_RAD * (-78.571628))) (-0.9801734) (-0.9801728) 0.1981415 0.1981437 (-4.9468355) (-4.9467775) S1_bs_1 S1_bs_2 S1_bc_1 S1_bc_2 (by norm_num)).1
  have hbr := arctan_bracket (0.91764 * Real.tan (TO_RAD * calcL (-0.1278) ⟨2023, 1, 1⟩ true)) (TO_RAD * (-78.575629)) (TO_RAD * (-78.571628))
    (to_rad_gt_neg_half_pi _ (by norm_num)) (to_rad_mono _ _ (by norm_num)) (to_rad_lt_half_pi _ (by norm_num))
    (by linarith only [hta, hw1]) (by linarith only [htb, hw2])
  obtain ⟨hr1, hr2⟩ := inv_to_rad_bounds (Real.arctan (0.91764 * Real.tan (TO_RAD * calcL (-0.1278) ⟨2023, 1, 1⟩ true))) (-78.575629) (-78.571628) hbr.1 hbr.2
  have hfr : _force_range ((1 / TO_RAD) * Real.arctan (0.91764 * Real.tan (TO_RAD * calcL (-0.1278) ⟨2023, 1, 1⟩ true))) 360 = (1 / TO_RAD) * Real.arctan (0.91764 * Real.tan (TO_RAD * calcL (-0.1278) ⟨2023, 1, 1⟩ true)) + 360 := forceRange_neg _ 360 (by linarith only [hr2])
  have hLq : ⌊(calcL (-0.1278) ⟨2023, 1, 1⟩ true) / 90⌋ = 3 := floor_det _ 3 (by push_cast; linarith only [hL1]) (by push_cast; linarith only [hL2])
  have hRq : ⌊((1 / TO_RAD) * Real.arctan (0.91764 * Real.tan (TO_RAD * calcL (-0.1278) ⟨2023, 1, 1⟩ true)) + 360) / 90⌋ = 3 := floor_det _ 3 (by push_cast; linarith only [hr1]) (by push_cast; linarith only [hr2])
  rw [calcRA_def, hfr, hLq, hRq]
  constructor <;> (push_cast; linarith only [hr1, hr2])

lemma S1_UT : 8.110461 ≤ calcUT 51.5074 (-0.1278) ⟨2023, 1, 1⟩ true 90.8 ∧ calcUT 51.5074 (-0.1278) ⟨2023, 1, 1⟩ true 90.8 ≤ 8.1109947 := by
  have hN : calcN ⟨2023, 1, 1⟩ = 1 := by
    have h := calcN_eval 2023 1 1 30 0 505 1
      (floor_det _ 30 (by norm_num) (by norm_num))
      (floor_det _ 0 (by norm_num) (by norm_num))
      (floor_det _ 505 (by norm_num) (by norm_num))
      (floor_det _ 1 (by norm_num) (by norm_num))
    norm_num at h
    exact h
  have ht : calcT (-0.1278) ⟨2023, 1, 1⟩ true = 1.250355 := by
    unfold calcT calcLngHour
    rw [hN]
    norm_num
  have hlng : calcLngHour (-0.1278) = (-0.00852) := by
    unfold calcLngHour
    norm_num
  obtain ⟨h1, h2⟩ := S1_H
  obtain ⟨h3, h4⟩ := S1_RA
  unfold calcUT
  rw [ht, hlng]
  rw [forceRange_wrap (calcH 51.5074 (-0.1278) ⟨2023, 1, 1⟩ true 90.8 + calcRA (-0.1278) ⟨2023, 1, 1⟩ true - 0.06571 * 1.250355 - 6.622 - (-0.00852)) 24 (by norm_num) (by linarith only [h1, h2, h3, h4])]
  constructor <;> linarith only [h1, h2, h3, h4]

lemma S1_result : _calc_sun_time 51.5074 (-0.1278) ⟨2023, 1, 1⟩ true 90.8 = .ok ⟨2023, 1, 1, 8, 7⟩ := by
  obtain ⟨h1, h2⟩ := S1_cosH
  obtain ⟨h3, h4⟩ := S1_UT
  exact calc_eval_ok _ _ _ _ _ 8 7 (by linarith only [h1]) (by linarith only [h2]) (by norm_num) (by norm_num)
    (by push_cast; linarith only [h3]) (by push_cast; linarith only [h4]) (by push_cast; linarith only [h3]) (by push_cast; linarith only [h4])
    (by norm_num) (by norm_num) (by decide)

lemma S2_L : 281.0167673 ≤ calcL (-0.1278) ⟨2023, 1, 1⟩ false ∧ calcL (-0.1278) ⟨2023, 1, 1⟩ false ≤ 281.0167717 := by
  have hN : calcN ⟨2023, 1, 1⟩ = 1 := by
    have h := calcN_eval 2023 1 1 30 0 505 1
      (floor_det _ 30 (by norm_num) (by norm_num))
      (floor_det _ 0 (by norm_num) (by norm_num))
      (floor_det _ 505 (by norm_num) (by norm_num))
      (floor_det _ 1 (by norm_num) (by norm_num))
    norm_num at h
    exact h
  have hM : calcM (-0.1278) ⟨2023, 1, 1⟩ false = (-1.563850112) := by
    unfold calcM calcT calcLngHour
    rw [hN]
    norm_num
  obtain ⟨S2_sM_x1, S2_sM_x2⟩ := to_rad_val_bounds (-1.563850112) (-0.0272944) (-0.0272943) (by norm_num)
  obtain ⟨S2_sM_s1, S2_sM_s2⟩ := sin_chain2 (TO_RAD * (-1.563850112)) (-0.0272944) (-0.0272943) (-0.0030328) (-0.0030326) (-0.0090983) (-0.0090976) (-0.0272919) (-0.0272897) S2_sM_x1 S2_sM_x2 (by norm_num [sinChainCond2])
  obtain ⟨S2_s2_x1, S2_s2_x2⟩ := to_rad_val_bounds (2 * (-1.563850112)) (-0.0545887) (-0.0545886) (by norm_num)
  obtain ⟨S2_s2_s1, S2_s2_s2⟩ := sin_chain2 (TO_RAD * (2 * (-1.563850112))) (-0.0545887) (-0.0545886) (-0.0060654) (-0.0060653) (-0.0181954) (-0.018195) (-0.0545622) (-0.0545609) S2_s2_x1 S2_s2_x2 (by norm_num [sinChainCond2])
  unfold calcL
  rw [hM]
  rw [mul_assoc TO_RAD 2 (-1.563850112)]
  rw [forceRange_id ((-1.563850112) + 1.916 * Real.sin (TO_RAD * (-1.563850112)) + 0.020 * Real.sin (TO_RAD * (2 * (-1.563850112))) + 282.634) 360 (by linarith only [S2_sM_s1, S2_sM_s2, S2_s2_s1, S2_s2_s2]) (by linarith only [S2_sM_s1, S2_sM_s2, S2_s2_s1, S2_s2_s2])]
  constructor <;> linarith only [S2_sM_s1, S2_sM_s2, S2_s2_s1, S2_s2_s2]

lemma S2_cosH : 0.5090112 ≤ calcCosH 51.5074 (-0.1278) ⟨2023, 1, 1⟩ false 90.8 ∧ calcCosH 51.5074 (-0.1278) ⟨2023, 1, 1⟩ false 90.8 ≤ 0.5090326 := by
  obtain ⟨hL1, hL2⟩ := S2_L
  obtain ⟨S2_sL_x1, S2_sL_x2⟩ := to_rad_shift_bounds_of_le (calcL (-0.1278) ⟨2023, 1, 1⟩ false) 3 281.0167673 281.0167717 0.1922788 0.192279 hL1 hL2 (by norm_num)
  obtain ⟨S2_sL_c1, S2_sL_c2⟩ := cos_chain2_pos ((TO_RAD * calcL (-0.1278) ⟨2023, 1, 1⟩ false - 3 * (π / 2))) 0.1922788 0.192279 0.0106819 0.010682 0.0320408 0.0320412 0.0959908 0.0959921 0.981571 0.9815716 S2_sL_x1 S2_sL_x2 (by norm_num [sinChainCond2])
  obtain ⟨S2_sL_1, S2_sL_2⟩ : (-0.9815716) ≤ Real.sin (TO_RAD * calcL (-0.1278) ⟨2023, 1, 1⟩ false) ∧ Real.sin (TO_RAD * calcL (-0.1278) ⟨2023, 1, 1⟩ false) ≤ (-0.981571) := by rw [sin_red3 (TO_RAD * calcL (-0.1278) ⟨2023, 1, 1⟩ false)]; constructor <;> linarith only [S2_sL_c1, S2_sL_c2]
  obtain ⟨ha1, ha2⟩ : (-0.3904889) ≤ calcSinDec (-0.1278) ⟨2023, 1, 1⟩ false ∧ calcSinDec (-0.1278) ⟨2023, 1, 1⟩ false ≤ (-0.3904885) := by
    unfold calcSinDec
    constructor <;> linarith only [S2_sL_1, S2_sL_2]
  obtain ⟨hq1, hq2⟩ := sq_bounds_of_neg (calcSinDec (-0.1278) ⟨2023, 1, 1⟩ false) (-0.3904889) (-0.3904885) ha1 ha2 (by norm_num)
  obtain ⟨hb1, hb2⟩ : 0.9206076 ≤ calcCosDec (-0.1278) ⟨2023, 1, 1⟩ false ∧ calcCosDec (-0.1278) ⟨2023, 1, 1⟩ false ≤ 0.9206079 := by
    unfold calcCosDec
    rw [Real.cos_arcsin]
    exact sqrt_ivl _ 0.9206076 0.9206079 (by nlinarith [hq1, hq2]) (by nlinarith [hq1, hq2]) (by norm_num)
  obtain ⟨hc1, hc2⟩ := coszen_bounds
  obtain ⟨hd1, hd2, he1, he2⟩ := ang_257537_5000
  unfold calcCosH
  obtain ⟨hm1, hm2⟩ := mul_ivl_negpos (calcSinDec (-0.1278) ⟨2023, 1, 1⟩ false) (Real.sin (TO_RAD * 51.5074)) (-0.3904889) (-0.3904885) 0.7826873776 0.7826897785 ha1 ha2 hd1 hd2 (by linarith only [ha2]) (by norm_num)
  obtain ⟨hn1, hn2⟩ := mul_ivl_pos (calcCosDec (-0.1278) ⟨2023, 1, 1⟩ false) (Real.cos (TO_RAD * 51.5074)) 0.9206076 0.9206079 0.6224018846 0.6224248996 hb1 hb2 he1 he2 (by norm_num) (by norm_num)
  exact div_ivl _ _ 0.2916682 0.2916695 0.5729879 0.5730093 0.5090112 0.5090326 (by linarith only [hc1, hm1, hm2]) (by linarith only [hc2, hm1, hm2]) (by linarith only [hn1]) (by linarith only [hn2]) (by norm_num)

lemma S2_H : 3.9599532 ≤ calcH 51.5074 (-0.1278) ⟨2023, 1, 1⟩ false 90.8 ∧ calcH 51.5074 (-0.1278) ⟨2023, 1, 1⟩ false 90.8 ≤ 3.96022 := by
  obtain ⟨h1, h2⟩ := S2_cosH
  obtain ⟨S2_aA_x1, S2_aA_x2⟩ := to_rad_shift_bounds 59.399299 1 (-0.5340831) (-0.5340828) (by norm_num)
  obtain ⟨S2_aA_s1, S2_aA_s2⟩ := sin_chain2 ((TO_RAD * 59.399299 - 1 * (π / 2))) (-0.5340831) (-0.5340828) (-0.0593084) (-0.059307) (-0.1770908) (-0.1770865) (-0.5090574) (-0.509046) S2_aA_x1 S2_aA_x2 (by norm_num [sinChainCond2])
  obtain ⟨S2_aA_1, S2_aA_2⟩ : 0.509046 ≤ Real.cos (TO_RAD * 59.399299) ∧ Real.cos (TO_RAD * 59.399299) ≤ 0.5090574 := by rw [cos_red1 (TO_RAD * 59.399299)]; constructor <;> linarith only [S2_aA_s1, S2_aA_s2]
  obtain ⟨S2_aB_x1, S2_aB_x2⟩ := to_rad_shift_bounds 59.4033 1 (-0.5340133) (-0.534013) (by norm_num)
  obtain ⟨S2_aB_s1, S2_aB_s2⟩ := sin_chain2 ((TO_RAD * 59.4033 - 1 * (π / 2))) (-0.5340133) (-0.534013) (-0.0593007) (-0.0592993) (-0.177068) (-0.1770638) (-0.5089975) (-0.5089864) S2_aB_x1 S2_aB_x2 (by norm_num [sinChainCond2])
  obtain ⟨S2_aB_1, S2_aB_2⟩ : 0.5089864 ≤ Real.cos (TO_RAD * 59.4033) ∧ Real.cos (TO_RAD * 59.4033) ≤ 0.5089975 := by rw [cos_red1 (TO_RAD * 59.4033)]; constructor <;> linarith only [S2_aB_s1, S2_aB_s2]
  have hbr := arccos_bracket (calcCosH 51.5074 (-0.1278) ⟨2023, 1, 1⟩ false 90.8) (TO_RAD * 59.399299) (TO_RAD * 59.4033) (by linarith only [h1]) (by linarith only [h2])
    (to_rad_nonneg _ (by norm_num)) (to_rad_mono _ _ (by norm_num)) (to_rad_le_pi _ (by norm_num))
    (by linarith only [S2_aB_2, h1]) (by linarith only [S2_aA_1, h2])
  obtain ⟨hk1, hk2⟩ := inv_to_rad_bounds (Real.arccos (calcCosH 51.5074 (-0.1278) ⟨2023, 1, 1⟩ false 90.8)) 59.399299 59.4033 hbr.1 hbr.2
  unfold calcH
  rw [if_neg Bool.false_ne_true]
  constructor <;> linarith only [hk1, hk2]

lemma S2_RA : 18.7984082 ≤ calcRA (-0.1278) ⟨2023, 1, 1⟩ false ∧ calcRA (-0.1278) ⟨2023, 1, 1⟩ false ≤ 18.798675 := by
  obtain ⟨hL1, hL2⟩ := S2_L
  obtain ⟨hy1, hy2⟩ := to_rad_shift_bounds_of_le (calcL (-0.1278) ⟨2023, 1, 1⟩ false) 3 281.0167673 281.0167717 0.1922788 0.192279 hL1 hL2 (by norm_num)
  obtain ⟨S2_rs_s1, S2_rs_s2⟩ := sin_chain2 ((TO_RAD * calcL (-0.1278) ⟨2023, 1, 1⟩ false - 3 * (π / 2))) 0.1922788 0.192279 0.0213626 0.0213628 0.0640488 0.0640495 0.1910954 0.1910975 hy1 hy2 (by norm_num [sinChainCond2])
  obtain ⟨S2_rc_c1, S2_rc_c2⟩ := cos_chain2_pos ((TO_RAD * calcL (-0.1278) ⟨2023, 1, 1⟩ false - 3 * (π / 2))) 0.1922788 0.192279 0.0106819 0.010682 0.0320408 0.0320412 0.0959908 0.0959921 0.981571 0.9815716 hy1 hy2 (by norm_num [sinChainCond2])
  have htan : Real.tan (TO_RAD * calcL (-0.1278) ⟨2023, 1, 1⟩ false) = -(Real.cos (TO_RAD * calcL (-0.1278) ⟨2023, 1, 1⟩ false - 3 * (π / 2)) / Real.sin (TO_RAD * calcL (-0.1278) ⟨2023, 1, 1⟩ false - 3 * (π / 2))) := by
    conv_lhs => rw [show TO_RAD * calcL (-0.1278) ⟨2023, 1, 1⟩ false = (TO_RAD * calcL (-0.1278) ⟨2023, 1, 1⟩ false - 3 * (π / 2)) + 3 * (π / 2) by ring]
    rw [tan_shift3, Real.tan_eq_sin_div_cos, inv_div]
  obtain ⟨hq1, hq2⟩ := div_ivl (Real.cos (TO_RAD * calcL (-0.1278) ⟨2023, 1, 1⟩ false - 3 * (π / 2))) (Real.sin (TO_RAD * calcL (-0.1278) ⟨2023, 1, 1⟩ false - 3 * (π / 2))) 0.981571 0.9815716 0.1910954 0.1910975 5.1364931 5.1365528 S2_rc_c1 S2_rc_c2 S2_rs_s1 S2_rs_s2 (by norm_num)
  have hw1 : (-4.7135064) ≤ 0.91764 * Real.tan (TO_RAD * calcL (-0.1278) ⟨2023, 1, 1⟩ false) := by rw [htan]; linarith only [hq1, hq2]
  have hw2 : 0.91764 * Real.tan (TO_RAD * calcL (-0.1278) ⟨2023, 1, 1⟩ false) ≤ (-4.7134515) := by rw [htan]; linarith only [hq1, hq2]
  obtain ⟨S2_as_x1, S2_as_x2⟩ := to_rad_shift_bounds (-78.023877) (-1) 0.2090227 0.2090229 (by norm_num)
  obtain ⟨S2_as_c1, S2_as_c2⟩ := cos_chain2_pos ((TO_RAD * (-78.023877) - (-1) * (π / 2))) 0.2090227 0.2090229 0.0116121 0.0116122 0.03483 0.0348304 0.1043209 0.1043222 0.9782337 0.9782343 S2_as_x1 S2_as_x2 (by norm_num [sinChainCond2])
  obtain ⟨S2_as_1, S2_as_2⟩ : (-0.9782343) ≤ Real.sin (TO_RAD * (-78.023877)) ∧ Real.sin (TO_RAD * (-78.023877)) ≤ (-0.9782337) := by rw [sin_red_m1 (TO_RAD * (-78.023877))]; constructor <;> linarith only [S2_as_c1, S2_as_c2]
  obtain ⟨S2_ac_x1, S2_ac_x2⟩ := to_rad_shift_bounds (-78.023877) (-1) 0.2090227 0.2090229 (by norm_num)
  obtain ⟨S2_ac_s1, S2_ac_s2⟩ := sin_chain2 ((TO_RAD * (-78.023877) - (-1) * (π / 2))) 0.2090227 0.2090229 0.0232226 0.0232227 0.0696177 0.0696181 0.2075034 0.2075047 S2_ac_x1 S2_ac_x2 (by norm_num [sinChainCond2])
  obtain ⟨S2_ac_1, S2_ac_2⟩ : 0.2075034 ≤ Real.cos (TO_RAD * (-78.023877)) ∧ Real.cos (TO_RAD * (-78.023877)) ≤ 0.2075047 := by rw [cos_red_m1 (TO_RAD * (-78.023877))]; exact ⟨S2_ac_s1, S2_ac_s2⟩
  obtain ⟨S2_bs_x1, S2_bs_x2⟩ := to_rad_shift_bounds (-78.019876) (-1) 0.2090925 0.2090927 (by norm_num)
  obtain ⟨S2_bs_c1, S2_bs_c2⟩ := cos_chain2_pos ((TO_RAD * (-78.019876) - (-1) * (π / 2))) 0.2090925 0.2090927 0.0116159 0.0116161 0.0348414 0.0348421 0.104355 0.1043572 0.9782191 0.9782201 S2_bs_x1 S2_bs_x2 (by norm_num [sinChainCond2])
  obtain ⟨S2_bs_1, S2_bs_2⟩ : (-0.9782201) ≤ Real.sin (TO_RAD * (-78.019876)) ∧ Real.sin (TO_RAD * (-78.019876)) ≤ (-0.9782191) := by rw [sin_red_m1 (TO_RAD * (-78.019876))]; constructor <;> linarith only [S2_bs_c1, S2_bs_c2]
  obtain ⟨S2_bc_x1, S2_bc_x2⟩ := to_rad_shift_bounds (-78.019876) (-1) 0.2090925 0.2090927 (by norm_num)
  obtain ⟨S2_bc_s1, S2_bc_s2⟩ := sin_chain2 ((TO_RAD * (-78.019876) - (-1) * (π / 2))) 0.2090925 0.2090927 0.0232303 0.0232305 0.0696407 0.0696414 0.2075711 0.2075732 S2_bc_x1 S2_bc_x2 (by norm_num [sinChainCond2])
  obtain ⟨S2_bc_1, S2_bc_2⟩ : 0.2075711 ≤ Real.cos (TO_RAD * (-78.019876)) ∧ Real.cos (TO_RAD * (-78.019876)) ≤ 0.2075732 := by rw [cos_red_m1 (TO_RAD * (-78.019876))]; exact ⟨S2_bc_s1, S2_bc_s2⟩
  have hta : Real.tan (TO_RAD * (-78.023877)) ≤ (-4.7142724) := by
    rw [Real.tan_eq_sin_div_cos]
    exact (div_ivl (Real.sin (TO_RAD * (-78.023877))) (Real.cos (TO_RAD * (-78.023877))) (-0.9782343) (-0.9782337) 0.2075034 0.2075047 (-4.714305) (-4.7142724) S2_as_1 S2_as_2 S2_ac_1 S2_ac_2 (by norm_num)).2
  have htb : (-4.712699) ≤ Real.tan (TO_RAD * (-78.019876)) := by
    rw [Real.tan_eq_sin_div_cos]
    exact (div_ivl (Real.sin (TO_RAD * (-78.019876))) (Real.cos (TO_RAD * (-78.019876))) (-0.9782201) (-0.9782191) 0.2075711 0.2075732 (-4.712699) (-4.7126464) S2_bs_1 S2_bs_2 S2_bc_1 S2_bc_2 (by norm_num)).1
  have hbr := arctan_bracket (0.91764 * Real.tan (TO_RAD * calcL (-0.1278) ⟨2023, 1, 1⟩ false)) (TO_RAD * (-78.023877)) (TO_RAD * (-78.019876))
    (to_rad_gt_neg_half_pi _ (by norm_num)) (to_rad_mono _ _ (by norm_num)) (to_rad_lt_half_pi _ (by norm_num))
    (by linarith only [hta, hw1]) (by linarith only [htb, hw2])
  obtain ⟨hr1, hr2⟩ := inv_to_rad_bounds (Real.arctan (0.91764 * Real.tan (TO_RAD * calcL (-0.1278) ⟨2023, 1, 1⟩ false))) (-78.023877) (-78.019876) hbr.1 hbr.2
  have hfr : _force_range ((1 / TO_RAD) * Real.arctan (0.91764 * Real.tan (TO_RAD * calcL (-0.1278) ⟨2023, 1, 1⟩ false))) 360 = (1 / TO_RAD) * Real.arctan (0.91764 * Real.tan (TO_RAD * calcL (-0.1278) ⟨2023, 1, 1⟩ false)) + 360 := forceRange_neg _ 360 (by linarith only [hr2])
  have hLq : ⌊(calcL (-0.1278) ⟨2023, 1, 1⟩ false) / 90⌋ = 3 := floor_det _ 3 (by push_cast; linarith only [hL1]) (by push_cast; linarith only [hL2])
  have hRq : ⌊((1 / TO_RAD) * Real.arctan (0.91764 * Real.tan (TO_RAD * calcL (-0.1278) ⟨2023, 1, 1⟩ false)) + 360) / 90⌋ = 3 := floor_det _ 3 (by push_cast; linarith only [hr1]) (by push_cast; linarith only [hr2])
  rw [calcRA_def, hfr, hLq, hRq]
  constructor <;> (push_cast; linarith only [hr1, hr2])

lemma S2_UT : 16.0298655 ≤ calcUT 51.5074 (-0.1278) ⟨2023, 1, 1⟩ false 90.8 ∧ calcUT 51.5074 (-0.1278) ⟨2023, 1, 1⟩ false 90.8 ≤ 16.0303992 := by
  have hN : calcN ⟨2023, 1, 1⟩ = 1 := by
    have h := calcN_eval 2023 1 1 30 0 505 1
      (floor_det _ 30 (by norm_num) (by norm_num))
      (floor_det _ 0 (by norm_num) (by norm_num))
      (floor_det _ 505 (by norm_num) (by norm_num))
      (floor_det _ 1 (by norm_num) (by norm_num))
    norm_num at h
    exact h
  have ht : calcT (-0.1278) ⟨2023, 1, 1⟩ false = 1.750355 := by
    unfold calcT calcLngHour
    rw [hN]
    norm_num
  have hlng : calcLngHour (-0.1278) = (-0.00852) := by
    unfold calcLngHour
    norm_num
  obtain ⟨h1, h2⟩ := S2_H
  obtain ⟨h3, h4⟩ := S2_RA
  unfold calcUT
  rw [ht, hlng]
  rw [forceRange_id (calcH 51.5074 (-0.1278) ⟨2023, 1, 1⟩ false 90.8 + calcRA (-0.1278) ⟨2023, 1, 1⟩ false - 0.06571 * 1.750355 - 6.622 - (-0.00852)) 24 (by linarith only [h1, h2, h3, h4]) (by linarith only [h1, h2, h3, h4])]
  constructor <;> linarith only [h1, h2, h3, h4]

lemma S2_result : _calc_sun_time 51.5074 (-0.1278) ⟨2023, 1, 1⟩ false 90.8 = .ok ⟨2023, 1, 1, 16, 2⟩ := by
  obtain ⟨h1, h2⟩ := S2_cosH
  obtain ⟨h3, h4⟩ := S2_UT
  exact calc_eval_ok _ _ _ _ _ 16 2 (by linarith only [h1]) (by linarith only [h2]) (by norm_num) (by norm_num)
    (by push_cast; linarith only [h3]) (by push_cast; linarith only [h4]) (by push_cast; linarith only [h3]) (by push_cast; linarith only [h4])
    (by norm_num) (by norm_num) (by decide)

lemma S3_L : 89.5136497 ≤ calcL 15 ⟨2023, 6, 21⟩ true ∧ calcL 15 ⟨2023, 6, 21⟩ true ≤ 89.5136769 := by
  have hN : calcN ⟨2023, 6, 21⟩ = 172 := by
    have h := calcN_eval 2023 6 21 183 1 505 1
      (floor_det _ 183 (by norm_num) (by norm_num))
      (floor_det _ 1 (by norm_num) (by norm_num))
      (floor_det _ 505 (by norm_num) (by norm_num))
      (floor_det _ 1 (by norm_num) (by norm_num))
    norm_num at h
    exact h
  have hM : calcM 15 ⟨2023, 6, 21⟩ true = (2496593 / 15000) := by
    unfold calcM calcT calcLngHour
    rw [hN]
    norm_num
  obtain ⟨S3_sM_x1, S3_sM_x2⟩ := to_rad_shift_bounds (2496593 / 15000) 2 (-0.2366749) (-0.2366747) (by norm_num)
  obtain ⟨S3_sM_s1, S3_sM_s2⟩ := sin_chain1 ((TO_RAD * (2496593 / 15000) - 2 * (π / 2))) (-0.2366749) (-0.2366747) (-0.0788119) (-0.0788077) (-0.2344776) (-0.2344653) S3_sM_x1 S3_sM_x2 (by norm_num [sinChainCond1])
  obtain ⟨S3_sM_1, S3_sM_2⟩ : 0.2344653 ≤ Real.sin (TO_RAD * (2496593 / 15000)) ∧ Real.sin (TO_RAD * (2496593 / 15000)) ≤ 0.2344776 := by rw [sin_red2 (TO_RAD * (2496593 / 15000))]; constructor <;> linarith only [S3_sM_s1, S3_sM_s2]
  obtain ⟨S3_s2_x1, S3_s2_x2⟩ := to_rad_shift_bounds (2 * (2496593 / 15000)) 4 (-0.4733497) (-0.4733494) (by norm_num)
  obtain ⟨S3_s2_s1, S3_s2_s2⟩ := sin_chain1 ((TO_RAD * (2 * (2496593 / 15000)) - 4 * (π / 2))) (-0.4733497) (-0.4733494) (-0.1571609) (-0.1570961) (-0.4559555) (-0.4557802) S3_s2_x1 S3_s2_x2 (by norm_num [sinChainCond1])
  obtain ⟨S3_s2_1, S3_s2_2⟩ : (-0.4559555) ≤ Real.sin (TO_RAD * (2 * (2496593 / 15000))) ∧ Real.sin (TO_RAD * (2 * (2496593 / 15000))) ≤ (-0.4557802) := by rw [sin_red4 (TO_RAD * (2 * (2496593 / 15000)))]; exact ⟨S3_s2_s1, S3_s2_s2⟩
  unfold calcL
  rw [hM]
  rw [mul_assoc TO_RAD 2 (2496593 / 15000)]
  rw [forceRange_wrap ((2496593 / 15000) + 1.916 * Real.sin (TO_RAD * (2496593 / 15000)) + 0.020 * Real.sin (TO_RAD * (2 * (2496593 / 15000))) + 282.634) 360 (by norm_num) (by linarith only [S3_sM_1, S3_sM_2, S3_s2_1, S3_s2_2])]
  constructor <;> linarith only [S3_sM_1, S3_sM_2, S3_s2_1, S3_s2_2]

lemma S3_cosH : (-2.1130791) ≤ calcCosH 78 15 ⟨2023, 6, 21⟩ true 90.8 ∧ calcCosH 78 15 ⟨2023, 6, 21⟩ true 90.8 ≤ (-2.1130724) := by
  obtain ⟨hL1, hL2⟩ := S3_L
  obtain ⟨S3_sL_x1, S3_sL_x2⟩ := to_rad_shift_bounds_of_le (calcL 15 ⟨2023, 6, 21⟩ true) 1 89.5136497 89.5136769 (-0.0084885) (-0.0084879) hL1 hL2 (by norm_num)
  obtain ⟨S3_sL_c1, S3_sL_c2⟩ := cos_chain1_neg ((TO_RAD * calcL 15 ⟨2023, 6, 21⟩ true - 1 * (π / 2))) (-0.0084885) (-0.0084879) (-0.0014148) (-0.0014146) (-0.0042444) (-0.0042437) 0.9999639 0.999964 S3_sL_x1 S3_sL_x2 (by norm_num [sinChainCond1])
  obtain ⟨S3_sL_1, S3_sL_2⟩ : 0.9999639 ≤ Real.sin (TO_RAD * calcL 15 ⟨2023, 6, 21⟩ true) ∧ Real.sin (TO_RAD * calcL 15 ⟨2023, 6, 21⟩ true) ≤ 0.999964 := by rw [sin_red1 (TO_RAD * calcL 15 ⟨2023, 6, 21⟩ true)]; exact ⟨S3_sL_c1, S3_sL_c2⟩
  obtain ⟨ha1, ha2⟩ : 0.3978056 ≤ calcSinDec 15 ⟨2023, 6, 21⟩ true ∧ calcSinDec 15 ⟨2023, 6, 21⟩ true ≤ 0.3978057 := by
    unfold calcSinDec
    constructor <;> linarith only [S3_sL_1, S3_sL_2]
  obtain ⟨hq1, hq2⟩ := sq_bounds_of_pos (calcSinDec 15 ⟨2023, 6, 21⟩ true) 0.3978056 0.3978057 ha1 ha2 (by norm_num)
  obtain ⟨hb1, hb2⟩ : 0.9174696 ≤ calcCosDec 15 ⟨2023, 6, 21⟩ true ∧ calcCosDec 15 ⟨2023, 6, 21⟩ true ≤ 0.9174698 := by
    unfold calcCosDec
    rw [Real.cos_arcsin]
    exact sqrt_ivl _ 0.9174696 0.9174698 (by nlinarith [hq1, hq2]) (by nlinarith [hq1, hq2]) (by norm_num)
  obtain ⟨hc1, hc2⟩ := coszen_bounds
  obtain ⟨hd1, hd2, he1, he2⟩ := ang_78
  unfold calcCosH
  obtain ⟨hm1, hm2⟩ := mul_ivl_pos (calcSinDec 15 ⟨2023, 6, 21⟩ true) (Real.sin (TO_RAD * 78)) 0.3978056 0.3978057 0.9781475921 0.9781476135 ha1 ha2 hd1 hd2 (by norm_num) (by norm_num)
  obtain ⟨hn1, hn2⟩ := mul_ivl_pos (calcCosDec 15 ⟨2023, 6, 21⟩ true) (Real.cos (TO_RAD * 78)) 0.9174696 0.9174698 0.2079115121 0.2079118481 hb1 hb2 he1 he2 (by norm_num) (by norm_num)
  exact div_ivl _ _ (-0.4030749) (-0.4030747) 0.1907524 0.1907529 (-2.1130791) (-2.1130724) (by linarith only [hc1, hm1, hm2]) (by linarith only [hc2, hm1, hm2]) (by linarith only [hn1]) (by linarith only [hn2]) (by norm_num)

lemma S3_result : _calc_sun_time 78 15 ⟨2023, 6, 21⟩ true 90.8 = .noEvent :=
  calc_noEvent_lo _ _ _ _ _ (by linarith only [S3_cosH.2]) (by linarith only [S3_cosH.2])

lemma S4_L : 89.9907219 ≤ calcL 15 ⟨2023, 6, 21⟩ false ∧ calcL 15 ⟨2023, 6, 21⟩ false ≤ 89.9907461 := by
  have hN : calcN ⟨2023, 6, 21⟩ = 172 := by
    have h := calcN_eval 2023 6 21 183 1 505 1
      (floor_det _ 183 (by norm_num) (by norm_num))
      (floor_det _ 1 (by norm_num) (by norm_num))
      (floor_det _ 505 (by norm_num) (by norm_num))
      (floor_det _ 1 (by norm_num) (by norm_num))
    norm_num at h
    exact h
  have hM : calcM 15 ⟨2023, 6, 21⟩ false = (500797 / 3000) := by
    unfold calcM calcT calcLngHour
    rw [hN]
    norm_num
  obtain ⟨S4_sM_x1, S4_sM_x2⟩ := to_rad_shift_bounds (500797 / 3000) 2 (-0.2280739) (-0.2280737) (by norm_num)
  obtain ⟨S4_sM_s1, S4_sM_s2⟩ := sin_chain1 ((TO_RAD * (500797 / 3000) - 2 * (π / 2))) (-0.2280739) (-0.2280737) (-0.0759532) (-0.0759495) (-0.226107) (-0.226096) S4_sM_x1 S4_sM_x2 (by norm_num [sinChainCond1])
  obtain ⟨S4_sM_1, S4_sM_2⟩ : 0.226096 ≤ Real.sin (TO_RAD * (500797 / 3000)) ∧ Real.sin (TO_RAD * (500797 / 3000)) ≤ 0.226107 := by rw [sin_red2 (TO_RAD * (500797 / 3000))]; constructor <;> linarith only [S4_sM_s1, S4_sM_s2]
  obtain ⟨S4_s2_x1, S4_s2_x2⟩ := to_rad_shift_bounds (2 * (500797 / 3000)) 4 (-0.4561477) (-0.4561475) (by norm_num)
  obtain ⟨S4_s2_s1, S4_s2_s2⟩ := sin_chain1 ((TO_RAD * (2 * (500797 / 3000)) - 4 * (π / 2))) (-0.4561477) (-0.4561475) (-0.1514913) (-0.1514354) (-0.4405673) (-0.4404149) S4_s2_x1 S4_s2_x2 (by norm_num [sinChainCond1])
  obtain ⟨S4_s2_1, S4_s2_2⟩ : (-0.4405673) ≤ Real.sin (TO_RAD * (2 * (500797 / 3000))) ∧ Real.sin (TO_RAD * (2 * (500797 / 3000))) ≤ (-0.4404149) := by rw [sin_red4 (TO_RAD * (2 * (500797 / 3000)))]; exact ⟨S4_s2_s1, S4_s2_s2⟩
  unfold calcL
  rw [hM]
  rw [mul_assoc TO_RAD 2 (500797 / 3000)]
  rw [forceRange_wrap ((500797 / 3000) + 1.916 * Real.sin (TO_RAD * (500797 / 3000)) + 0.020 * Real.sin (TO_RAD * (2 * (500797 / 3000))) + 282.634) 360 (by norm_num) (by linarith only [S4_sM_1, S4_sM_2, S4_s2_1, S4_s2_2])]
  constructor <;> linarith only [S4_sM_1, S4_sM_2, S4_s2_1, S4_s2_2]

lemma S4_cosH : (-2.1131658) ≤ calcCosH 78 15 ⟨2023, 6, 21⟩ false 90.8 ∧ calcCosH 78 15 ⟨2023, 6, 21⟩ false 90.8 ≤ (-2.1131602) := by
  obtain ⟨hL1, hL2⟩ := S4_L
  obtain ⟨S4_sL_x1, S4_sL_x2⟩ := to_rad_shift_bounds_of_le (calcL 15 ⟨2023, 6, 21⟩ false) 1 89.9907219 89.9907461 (-0.000162) (-0.0001615) hL1 hL2 (by norm_num)
  obtain ⟨S4_sL_c1, S4_sL_c2⟩ := cos_chain1_neg ((TO_RAD * calcL 15 ⟨2023, 6, 21⟩ false - 1 * (π / 2))) (-0.000162) (-0.0001615) (-0.000027) (-0.0000269) (-0.000081) (-0.0000806) 0.9999999 1 S4_sL_x1 S4_sL_x2 (by norm_num [sinChainCond1])
  obtain ⟨S4_sL_1, S4_sL_2⟩ : 0.9999999 ≤ Real.sin (TO_RAD * calcL 15 ⟨2023, 6, 21⟩ false) ∧ Real.sin (TO_RAD * calcL 15 ⟨2023, 6, 21⟩ false) ≤ 1 := by rw [sin_red1 (TO_RAD * calcL 15 ⟨2023, 6, 21⟩ false)]; exact ⟨S4_sL_c1, S4_sL_c2⟩
  obtain ⟨ha1, ha2⟩ : 0.3978199 ≤ calcSinDec 15 ⟨2023, 6, 21⟩ false ∧ calcSinDec 15 ⟨2023, 6, 21⟩ false ≤ 0.39782 := by
    unfold calcSinDec
    constructor <;> linarith only [S4_sL_1, S4_sL_2]
  obtain ⟨hq1, hq2⟩ := sq_bounds_of_pos (calcSinDec 15 ⟨2023, 6, 21⟩ false) 0.3978199 0.39782 ha1 ha2 (by norm_num)
  obtain ⟨hb1, hb2⟩ : 0.9174634 ≤ calcCosDec 15 ⟨2023, 6, 21⟩ false ∧ calcCosDec 15 ⟨2023, 6, 21⟩ false ≤ 0.9174636 := by
    unfold calcCosDec
    rw [Real.cos_arcsin]
    exact sqrt_ivl _ 0.9174634 0.9174636 (by nlinarith [hq1, hq2]) (by nlinarith [hq1, hq2]) (by norm_num)
  obtain ⟨hc1, hc2⟩ := coszen_bounds
  obtain ⟨hd1, hd2, he1, he2⟩ := ang_78
  unfold calcCosH
  obtain ⟨hm1, hm2⟩ := mul_ivl_pos (calcSinDec 15 ⟨2023, 6, 21⟩ false) (Real.sin (TO_RAD * 78)) 0.3978199 0.39782 0.9781475921 0.9781476135 ha1 ha2 hd1 hd2 (by norm_num) (by norm_num)
  obtain ⟨hn1, hn2⟩ := mul_ivl_pos (calcCosDec 15 ⟨2023, 6, 21⟩ false) (Real.cos (TO_RAD * 78)) 0.9174634 0.9174636 0.2079115121 0.2079118481 hb1 hb2 he1 he2 (by norm_num) (by norm_num)
  exact div_ivl _ _ (-0.4030889) (-0.4030887) 0.1907512 0.1907516 (-2.1131658) (-2.1131602) (by linarith only [hc1, hm1, hm2]) (by linarith only [hc2, hm1, hm2]) (by linarith only [hn1]) (by linarith only [hn2]) (by norm_num)

lemma S4_result : _calc_sun_time 78 15 ⟨2023, 6, 21⟩ false 90.8 = .noEvent :=
  calc_noEvent_lo _ _ _ _ _ (by linarith only [S4_cosH.2]) (by linarith only [S4_cosH.2])

lemma S5_L : 268.9920517 ≤ calcL 15 ⟨2023, 12, 21⟩ true ∧ calcL 15 ⟨2023, 12, 21⟩ true ≤ 268.9920766 := by
  have hN : calcN ⟨2023, 12, 21⟩ = 355 := by
    have h := calcN_eval 2023 12 21 366 1 505 1
      (floor_det _ 366 (by norm_num) (by norm_num))
      (floor_det _ 1 (by norm_num) (by norm_num))
      (floor_det _ 505 (by norm_num) (by norm_num))
      (floor_det _ 1 (by norm_num) (by norm_num))
    norm_num at h
    exact h
  have hM : calcM 15 ⟨2023, 12, 21⟩ true = (1040413 / 3000) := by
    unfold calcM calcT calcLngHour
    rw [hN]
    norm_num
  obtain ⟨S5_sM_x1, S5_sM_x2⟩ := to_rad_shift_bounds (1040413 / 3000) 4 (-0.2303079) (-0.2303077) (by norm_num)
  obtain ⟨S5_sM_s1, S5_sM_s2⟩ := sin_chain1 ((TO_RAD * (1040413 / 3000) - 4 * (π / 2))) (-0.2303079) (-0.2303077) (-0.0766958) (-0.076692) (-0.2282829) (-0.2282716) S5_sM_x1 S5_sM_x2 (by norm_num [sinChainCond1])
  obtain ⟨S5_sM_1, S5_sM_2⟩ : (-0.2282829) ≤ Real.sin (TO_RAD * (1040413 / 3000)) ∧ Real.sin (TO_RAD * (1040413 / 3000)) ≤ (-0.2282716) := by rw [sin_red4 (TO_RAD * (1040413 / 3000))]; exact ⟨S5_sM_s1, S5_sM_s2⟩
  obtain ⟨S5_s2_x1, S5_s2_x2⟩ := to_rad_shift_bounds (2 * (1040413 / 3000)) 8 (-0.4606158) (-0.4606155) (by norm_num)
  obtain ⟨S5_s2_s1, S5_s2_s2⟩ := sin_chain1 ((TO_RAD * (2 * (1040413 / 3000)) - 8 * (π / 2))) (-0.4606158) (-0.4606155) (-0.1529643) (-0.1529063) (-0.4445767) (-0.4444188) S5_s2_x1 S5_s2_x2 (by norm_num [sinChainCond1])
  obtain ⟨S5_s2_1, S5_s2_2⟩ : (-0.4445767) ≤ Real.sin (TO_RAD * (2 * (1040413 / 3000))) ∧ Real.sin (TO_RAD * (2 * (1040413 / 3000))) ≤ (-0.4444188) := by rw [sin_red8 (TO_RAD * (2 * (1040413 / 3000)))]; exact ⟨S5_s2_s1, S5_s2_s2⟩
  unfold calcL
  rw [hM]
  rw [mul_assoc TO_RAD 2 (1040413 / 3000)]
  rw [forceRange_wrap ((1040413 / 3000) + 1.916 * Real.sin (TO_RAD * (1040413 / 3000)) + 0.020 * Real.sin (TO_RAD * (2 * (1040413 / 3000))) + 282.634) 360 (by norm_num) (by linarith only [S5_sM_1, S5_sM_2, S5_s2_1, S5_s2_2])]
  constructor <;> linarith only [S5_sM_1, S5_sM_2, S5_s2_1, S5_s2_2]

lemma S5_cosH : 1.966397 ≤ calcCosH 78 15 ⟨2023, 12, 21⟩ true 90.8 ∧ calcCosH 78 15 ⟨2023, 12, 21⟩ true 90.8 ≤ 1.9664023 := by
  obtain ⟨hL1, hL2⟩ := S5_L
  obtain ⟨S5_sL_x1, S5_sL_x2⟩ := to_rad_shift_bounds_of_le (calcL 15 ⟨2023, 12, 21⟩ true) 3 268.9920517 268.9920766 (-0.0175921) (-0.0175915) hL1 hL2 (by norm_num)
  obtain ⟨S5_sL_c1, S5_sL_c2⟩ := cos_chain1_neg ((TO_RAD * calcL 15 ⟨2023, 12, 21⟩ true - 3 * (π / 2))) (-0.0175921) (-0.0175915) (-0.0029321) (-0.0029319) (-0.0087962) (-0.0087955) 0.9998452 0.9998453 S5_sL_x1 S5_sL_x2 (by norm_num [sinChainCond1])
  obtain ⟨S5_sL_1, S5_sL_2⟩ : (-0.9998453) ≤ Real.sin (TO_RAD * calcL 15 ⟨2023, 12, 21⟩ true) ∧ Real.sin (TO_RAD * calcL 15 ⟨2023, 12, 21⟩ true) ≤ (-0.9998452) := by rw [sin_red3 (TO_RAD * calcL 15 ⟨2023, 12, 21⟩ true)]; constructor <;> linarith only [S5_sL_c1, S5_sL_c2]
  obtain ⟨ha1, ha2⟩ : (-0.3977585) ≤ calcSinDec 15 ⟨2023, 12, 21⟩ true ∧ calcSinDec 15 ⟨2023, 12, 21⟩ true ≤ (-0.3977584) := by
    unfold calcSinDec
    constructor <;> linarith only [S5_sL_1, S5_sL_2]
  obtain ⟨hq1, hq2⟩ := sq_bounds_of_neg (calcSinDec 15 ⟨2023, 12, 21⟩ true) (-0.3977585) (-0.3977584) ha1 ha2 (by norm_num)
  obtain ⟨hb1, hb2⟩ : 0.9174901 ≤ calcCosDec 15 ⟨2023, 12, 21⟩ true ∧ calcCosDec 15 ⟨2023, 12, 21⟩ true ≤ 0.9174902 := by
    unfold calcCosDec
    rw [Real.cos_arcsin]
    exact sqrt_ivl _ 0.9174901 0.9174902 (by nlinarith [hq1, hq2]) (by nlinarith [hq1, hq2]) (by norm_num)
  obtain ⟨hc1, hc2⟩ := coszen_bounds
  obtain ⟨hd1, hd2, he1, he2⟩ := ang_78
  unfold calcCosH
  obtain ⟨hm1, hm2⟩ := mul_ivl_negpos (calcSinDec 15 ⟨2023, 12, 21⟩ true) (Real.sin (TO_RAD * 78)) (-0.3977585) (-0.3977584) 0.9781475921 0.9781476135 ha1 ha2 hd1 hd2 (by linarith only [ha2]) (by norm_num)
  obtain ⟨hn1, hn2⟩ := mul_ivl_pos (calcCosDec 15 ⟨2023, 12, 21⟩ true) (Real.cos (TO_RAD * 78)) 0.9174901 0.9174902 0.2079115121 0.2079118481 hb1 hb2 he1 he2 (by norm_num) (by norm_num)
  exact div_ivl _ _ 0.3751042 0.3751044 0.1907567 0.1907571 1.966397 1.9664023 (by linarith only [hc1, hm1, hm2]) (by linarith only [hc2, hm1, hm2]) (by linarith only [hn1]) (by linarith only [hn2]) (by norm_num)

lemma S5_result : _calc_sun_time 78 15 ⟨2023, 12, 21⟩ true 90.8 = .noEvent :=
  calc_noEvent_hi _ _ _ _ _ (by linarith only [S5_cosH.1])

lemma S6_L : 90.4720144 ≤ calcL 13.4 ⟨2024, 6, 21⟩ true ∧ calcL 13.4 ⟨2024, 6, 21⟩ true ≤ 90.4720171 := by
  have hN : calcN ⟨2024, 6, 21⟩ = 173 := by
    have h := calcN_eval 2024 6 21 183 1 506 0
      (floor_det _ 183 (by norm_num) (by norm_num))
      (floor_det _ 1 (by norm_num) (by norm_num))
      (floor_det _ 506 (by norm_num) (by norm_num))
      (floor_det _ 0 (by norm_num) (by norm_num))
    norm_num at h
    exact h
  have hM : calcM 13.4 ⟨2024, 6, 21⟩ true = (188358203 / 1125000) := by
    unfold calcM calcT calcLngHour
    rw [hN]
    norm_num
  obtain ⟨S6_sM_x1, S6_sM_x2⟩ := to_rad_shift_bounds (188358203 / 1125000) 2 (-0.2193964) (-0.2193963) (by norm_num)
  obtain ⟨S6_sM_s1, S6_sM_s2⟩ := sin_chain2 ((TO_RAD * (188358203 / 1125000) - 2 * (π / 2))) (-0.2193964) (-0.2193963) (-0.024375) (-0.0243749) (-0.0730671) (-0.0730667) (-0.217641) (-0.2176397) S6_sM_x1 S6_sM_x2 (by norm_num [sinChainCond2])
  obtain ⟨S6_sM_1, S6_sM_2⟩ : 0.2176397 ≤ Real.sin (TO_RAD * (188358203 / 1125000)) ∧ Real.sin (TO_RAD * (188358203 / 1125000)) ≤ 0.217641 := by rw [sin_red2 (TO_RAD * (188358203 / 1125000))]; constructor <;> linarith only [S6_sM_s1, S6_sM_s2]
  obtain ⟨S6_s2_x1, S6_s2_x2⟩ := to_rad_shift_bounds (2 * (188358203 / 1125000)) 4 (-0.4387928) (-0.4387926) (by norm_num)
  obtain ⟨S6_s2_s1, S6_s2_s2⟩ := sin_chain2 ((TO_RAD * (2 * (188358203 / 1125000)) - 4 * (π / 2))) (-0.4387928) (-0.4387926) (-0.0487358) (-0.0487351) (-0.1457444) (-0.1457422) (-0.42485) (-0.4248438) S6_s2_x1 S6_s2_x2 (by norm_num [sinChainCond2])
  obtain ⟨S6_s2_1, S6_s2_2⟩ : (-0.42485) ≤ Real.sin (TO_RAD * (2 * (188358203 / 1125000))) ∧ Real.sin (TO_RAD * (2 * (188358203 / 1125000))) ≤ (-0.4248438) := by rw [sin_red4 (TO_RAD * (2 * (188358203 / 1125000)))]; exact ⟨S6_s2_s1, S6_s2_s2⟩
  unfold calcL
  rw [hM]
  rw [mul_assoc TO_RAD 2 (188358203 / 1125000)]
  rw [forceRange_wrap ((188358203 / 1125000) + 1.916 * Real.sin (TO_RAD * (188358203 / 1125000)) + 0.020 * Real.sin (TO_RAD * (2 * (188358203 / 1125000))) + 282.634) 360 (by norm_num) (by linarith only [S6_sM_1, S6_sM_2, S6_s2_1, S6_s2_2])]
  constructor <;> linarith only [S6_sM_1, S6_sM_2, S6_s2_1, S6_s2_2]

lemma S6_cosH : (-0.590077) ≤ calcCosH 52.5 13.4 ⟨2024, 6, 21⟩ true 90.8 ∧ calcCosH 52.5 13.4 ⟨2024, 6, 21⟩ true 90.8 ≤ (-0.5900544) := by
  obtain ⟨hL1, hL2⟩ := S6_L
  obtain ⟨S6_sL_x1, S6_sL_x2⟩ := to_rad_shift_bounds_of_le (calcL 13.4 ⟨2024, 6, 21⟩ true) 1 90.4720144 90.4720171 0.0082382 0.0082383 hL1 hL2 (by norm_num)
  obtain ⟨S6_sL_c1, S6_sL_c2⟩ := cos_chain2_pos ((TO_RAD * calcL 13.4 ⟨2024, 6, 21⟩ true - 1 * (π / 2))) 0.0082382 0.0082383 0.0004576 0.0004577 0.0013727 0.0013731 0.004118 0.0041193 0.999966 0.9999661 S6_sL_x1 S6_sL_x2 (by norm_num [sinChainCond2])
  obtain ⟨S6_sL_1, S6_sL_2⟩ : 0.999966 ≤ Real.sin (TO_RAD * calcL 13.4 ⟨2024, 6, 21⟩ true) ∧ Real.sin (TO_RAD * calcL 13.4 ⟨2024, 6, 21⟩ true) ≤ 0.9999661 := by rw [sin_red1 (TO_RAD * calcL 13.4 ⟨2024, 6, 21⟩ true)]; exact ⟨S6_sL_c1, S6_sL_c2⟩
  obtain ⟨ha1, ha2⟩ : 0.3978064 ≤ calcSinDec 13.4 ⟨2024, 6, 21⟩ true ∧ calcSinDec 13.4 ⟨2024, 6, 21⟩ true ≤ 0.3978066 := by
    unfold calcSinDec
    constructor <;> linarith only [S6_sL_1, S6_sL_2]
  obtain ⟨hq1, hq2⟩ := sq_bounds_of_pos (calcSinDec 13.4 ⟨2024, 6, 21⟩ true) 0.3978064 0.3978066 ha1 ha2 (by norm_num)
  obtain ⟨hb1, hb2⟩ : 0.9174692 ≤ calcCosDec 13.4 ⟨2024, 6, 21⟩ true ∧ calcCosDec 13.4 ⟨2024, 6, 21⟩ true ≤ 0.9174694 := by
    unfold calcCosDec
    rw [Real.cos_arcsin]
    exact sqrt_ivl _ 0.9174692 0.9174694 (by nlinarith [hq1, hq2]) (by nlinarith [hq1, hq2]) (by norm_num)
  obtain ⟨hc1, hc2⟩ := coszen_bounds
  obtain ⟨hd1, hd2, he1, he2⟩ := ang_105_2
  unfold calcCosH
  obtain ⟨hm1, hm2⟩ := mul_ivl_pos (calcSinDec 13.4 ⟨2024, 6, 21⟩ true) (Real.sin (TO_RAD * 52.5)) 0.3978064 0.3978066 0.7933523028 0.7933544286 ha1 ha2 hd1 hd2 (by norm_num) (by norm_num)
  obtain ⟨hn1, hn2⟩ := mul_ivl_pos (calcCosDec 13.4 ⟨2024, 6, 21⟩ true) (Real.cos (TO_RAD * 52.5)) 0.9174692 0.9174694 0.6087507708 0.6087717939 hb1 hb2 he1 he2 (by norm_num) (by norm_num)
  exact div_ivl _ _ (-0.3295639) (-0.3295628) 0.55851 0.5585295 (-0.590077) (-0.5900544) (by linarith only [hc1, hm1, hm2]) (by linarith only [hc2, hm1, hm2]) (by linarith only [hn1]) (by linarith only [hn2]) (by norm_num)

lemma S6_H : 15.5890886 ≤ calcH 52.5 13.4 ⟨2024, 6, 21⟩ true 90.8 ∧ calcH 52.5 13.4 ⟨2024, 6, 21⟩ true 90.8 ≤ 15.5893554 := by
  obtain ⟨h1, h2⟩ := S6_cosH
  obtain ⟨S6_aA_x1, S6_aA_x2⟩ := to_rad_shift_bounds 126.15967 1 0.6311051 0.6311054 (by norm_num)
  obtain ⟨S6_aA_s1, S6_aA_s2⟩ := sin_chain2 ((TO_RAD * 126.15967 - 1 * (π / 2))) 0.6311051 0.6311054 0.070064 0.0700667 0.2088162 0.2088242 0.5900275 0.5900474 S6_aA_x1 S6_aA_x2 (by norm_num [sinChainCond2])
  obtain ⟨S6_aA_1, S6_aA_2⟩ : (-0.5900474) ≤ Real.cos (TO_RAD * 126.15967) ∧ Real.cos (TO_RAD * 126.15967) ≤ (-0.5900275) := by rw [cos_red1 (TO_RAD * 126.15967)]; constructor <;> linarith only [S6_aA_s1, S6_aA_s2]
  obtain ⟨S6_aB_x1, S6_aB_x2⟩ := to_rad_shift_bounds 126.163671 1 0.6311749 0.6311752 (by norm_num)
  obtain ⟨S6_aB_s1, S6_aB_s2⟩ := sin_chain2 ((TO_RAD * 126.163671 - 1 * (π / 2))) 0.6311749 0.6311752 0.0700717 0.0700744 0.2088388 0.2088469 0.5900835 0.5901036 S6_aB_x1 S6_aB_x2 (by norm_num [sinChainCond2])
  obtain ⟨S6_aB_1, S6_aB_2⟩ : (-0.5901036) ≤ Real.cos (TO_RAD * 126.163671) ∧ Real.cos (TO_RAD * 126.163671) ≤ (-0.5900835) := by rw [cos_red1 (TO_RAD * 126.163671)]; constructor <;> linarith only [S6_aB_s1, S6_aB_s2]
  have hbr := arccos_bracket (calcCosH 52.5 13.4 ⟨2024, 6, 21⟩ true 90.8) (TO_RAD * 126.15967) (TO_RAD * 126.163671) (by linarith only [h1]) (by linarith only [h2])
    (to_rad_nonneg _ (by norm_num)) (to_rad_mono _ _ (by norm_num)) (to_rad_le_pi _ (by norm_num))
    (by linarith only [S6_aB_2, h1]) (by linarith only [S6_aA_1, h2])
  obtain ⟨hk1, hk2⟩ := inv_to_rad_bounds (Real.arccos (calcCosH 52.5 13.4 ⟨2024, 6, 21⟩ true 90.8)) 126.15967 126.163671 hbr.1 hbr.2
  unfold calcH
  rw [if_pos rfl]
  constructor <;> linarith only [hk1, hk2]

lemma S6_RA : 6.0341577 ≤ calcRA 13.4 ⟨2024, 6, 21⟩ true ∧ calcRA 13.4 ⟨2024, 6, 21⟩ true ≤ 6.0344245 := by
  obtain ⟨hL1, hL2⟩ := S6_L
  obtain ⟨hy1, hy2⟩ := to_rad_shift_bounds_of_le (calcL 13.4 ⟨2024, 6, 21⟩ true) 1 90.4720144 90.4720171 0.0082382 0.0082383 hL1 hL2 (by norm_num)
  obtain ⟨S6_rs_s1, S6_rs_s2⟩ := sin_chain2 ((TO_RAD * calcL 13.4 ⟨2024, 6, 21⟩ true - 1 * (π / 2))) 0.0082382 0.0082383 0.0009153 0.0009154 0.0027458 0.0027462 0.0082373 0.0082386 hy1 hy2 (by norm_num [sinChainCond2])
  obtain ⟨S6_rc_c1, S6_rc_c2⟩ := cos_chain2_pos ((TO_RAD * calcL 13.4 ⟨2024, 6, 21⟩ true - 1 * (π / 2))) 0.0082382 0.0082383 0.0004576 0.0004577 0.0013727 0.0013731 0.004118 0.0041193 0.999966 0.9999661 hy1 hy2 (by norm_num [sinChainCond2])
  have htan : Real.tan (TO_RAD * calcL 13.4 ⟨2024, 6, 21⟩ true) = -(Real.cos (TO_RAD * calcL 13.4 ⟨2024, 6, 21⟩ true - 1 * (π / 2)) / Real.sin (TO_RAD * calcL 13.4 ⟨2024, 6, 21⟩ true - 1 * (π / 2))) := by
    conv_lhs => rw [show TO_RAD * calcL 13.4 ⟨2024, 6, 21⟩ true = (TO_RAD * calcL 13.4 ⟨2024, 6, 21⟩ true - 1 * (π / 2)) + π / 2 by ring]
    rw [tan_shift1, Real.tan_eq_sin_div_cos, inv_div]
  obtain ⟨hq1, hq2⟩ := div_ivl (Real.cos (TO_RAD * calcL 13.4 ⟨2024, 6, 21⟩ true - 1 * (π / 2))) (Real.sin (TO_RAD * calcL 13.4 ⟨2024, 6, 21⟩ true - 1 * (π / 2))) 0.999966 0.9999661 0.0082373 0.0082386 121.3757191 121.3948867 S6_rc_c1 S6_rc_c2 S6_rs_s1 S6_rs_s2 (by norm_num)
  have hw1 : (-111.3968039) ≤ 0.91764 * Real.tan (TO_RAD * calcL 13.4 ⟨2024, 6, 21⟩ true) := by rw [htan]; linarith only [hq1, hq2]
  have hw2 : 0.91764 * Real.tan (TO_RAD * calcL 13.4 ⟨2024, 6, 21⟩ true) ≤ (-111.3792148) := by rw [htan]; linarith only [hq1, hq2]
  obtain ⟨S6_as_x1, S6_as_x2⟩ := to_rad_shift_bounds (-89.487634) (-1) 0.0089424 0.0089425 (by norm_num)
  obtain ⟨S6_as_c1, S6_as_c2⟩ := cos_chain2_pos ((TO_RAD * (-89.487634) - (-1) * (π / 2))) 0.0089424 0.0089425 0.0004967 0.0004969 0.00149 0.0014907 0.0044699 0.0044721 0.99996 0.9999601 S6_as_x1 S6_as_x2 (by norm_num [sinChainCond2])
  obtain ⟨S6_as_1, S6_as_2⟩ : (-0.9999601) ≤ Real.sin (TO_RAD * (-89.487634)) ∧ Real.sin (TO_RAD * (-89.487634)) ≤ (-0.99996) := by rw [sin_red_m1 (TO_RAD * (-89.487634))]; constructor <;> linarith only [S6_as_c1, S6_as_c2]
  obtain ⟨S6_ac_x1, S6_ac_x2⟩ := to_rad_shift_bounds (-89.487634) (-1) 0.0089424 0.0089425 (by norm_num)
  obtain ⟨S6_ac_s1, S6_ac_s2⟩ := sin_chain2 ((TO_RAD * (-89.487634) - (-1) * (π / 2))) 0.0089424 0.0089425 0.0009935 0.0009937 0.0029804 0.0029811 0.008941 0.0089432 S6_ac_x1 S6_ac_x2 (by norm_num [sinChainCond2])
  obtain ⟨S6_ac_1, S6_ac_2⟩ : 0.008941 ≤ Real.cos (TO_RAD * (-89.487634)) ∧ Real.cos (TO_RAD * (-89.487634)) ≤ 0.0089432 := by rw [cos_red_m1 (TO_RAD * (-89.487634))]; exact ⟨S6_ac_s1, S6_ac_s2⟩
  obtain ⟨S6_bs_x1, S6_bs_x2⟩ := to_rad_shift_bounds (-89.483633) (-1) 0.0090123 0.0090124 (by norm_num)
  obtain ⟨S6_bs_c1, S6_bs_c2⟩ := cos_chain2_pos ((TO_RAD * (-89.483633) - (-1) * (π / 2))) 0.0090123 0.0090124 0.0005006 0.0005007 0.0015017 0.0015021 0.004505 0.0045063 0.9999593 0.9999595 S6_bs_x1 S6_bs_x2 (by norm_num [sinChainCond2])
  obtain ⟨S6_bs_1, S6_bs_2⟩ : (-0.9999595) ≤ Real.sin (TO_RAD * (-89.483633)) ∧ Real.sin (TO_RAD * (-89.483633)) ≤ (-0.9999593) := by rw [sin_red_m1 (TO_RAD * (-89.483633))]; constructor <;> linarith only [S6_bs_c1, S6_bs_c2]
  obtain ⟨S6_bc_x1, S6_bc_x2⟩ := to_rad_shift_bounds (-89.483633) (-1) 0.0090123 0.0090124 (by norm_num)
  obtain ⟨S6_bc_s1, S6_bc_s2⟩ := sin_chain2 ((TO_RAD * (-89.483633) - (-1) * (π / 2))) 0.0090123 0.0090124 0.0010013 0.0010014 0.0030038 0.0030042 0.0090112 0.0090125 S6_bc_x1 S6_bc_x2 (by norm_num [sinChainCond2])
  obtain ⟨S6_bc_1, S6_bc_2⟩ : 0.0090112 ≤ Real.cos (TO_RAD * (-89.483633)) ∧ Real.cos (TO_RAD * (-89.483633)) ≤ 0.0090125 := by rw [cos_red_m1 (TO_RAD * (-89.483633))]; exact ⟨S6_bc_s1, S6_bc_s2⟩
  have hta : Real.tan (TO_RAD * (-89.487634)) ≤ (-111.8123266) := by
    rw [Real.tan_eq_sin_div_cos]
    exact (div_ivl (Real.sin (TO_RAD * (-89.487634))) (Real.cos (TO_RAD * (-89.487634))) (-0.9999601) (-0.99996) 0.008941 0.0089432 (-111.8398502) (-111.8123266) S6_as_1 S6_as_2 S6_ac_1 S6_ac_2 (by norm_num)).2
  have htb : (-110.968517) ≤ Real.tan (TO_RAD * (-89.483633)) := by
    rw [Real.tan_eq_sin_div_cos]
    exact (div_ivl (Real.sin (TO_RAD * (-89.483633))) (Real.cos (TO_RAD * (-89.483633))) (-0.9999595) (-0.9999593) 0.0090112 0.0090125 (-110.968517) (-110.9524882) S6_bs_1 S6_bs_2 S6_bc_1 S6_bc_2 (by norm_num)).1
  have hbr := arctan_bracket (0.91764 * Real.tan (TO_RAD * calcL 13.4 ⟨2024, 6, 21⟩ true)) (TO_RAD * (-89.487634)) (TO_RAD * (-89.483633))
    (to_rad_gt_neg_half_pi _ (by norm_num)) (to_rad_mono _ _ (by norm_num)) (to_rad_lt_half_pi _ (by norm_num))
    (by linarith only [hta, hw1]) (by linarith only [htb, hw2])
  obtain ⟨hr1, hr2⟩ := inv_to_rad_bounds (Real.arctan (0.91764 * Real.tan (TO_RAD * calcL 13.4 ⟨2024, 6, 21⟩ true))) (-89.487634) (-89.483633) hbr.1 hbr.2
  have hfr : _force_range ((1 / TO_RAD) * Real.arctan (0.91764 * Real.tan (TO_RAD * calcL 13.4 ⟨2024, 6, 21⟩ true))) 360 = (1 / TO_RAD) * Real.arctan (0.91764 * Real.tan (TO_RAD * calcL 13.4 ⟨2024, 6, 21⟩ true)) + 360 := forceRange_neg _ 360 (by linarith only [hr2])
  have hLq : ⌊(calcL 13.4 ⟨2024, 6, 21⟩ true) / 90⌋ = 1 := floor_det _ 1 (by push_cast; linarith only [hL1]) (by push_cast; linarith only [hL2])
  have hRq : ⌊((1 / TO_RAD) * Real.arctan (0.91764 * Real.tan (TO_RAD * calcL 13.4 ⟨2024, 6, 21⟩ true)) + 360) / 90⌋ = 3 := floor_det _ 3 (by push_cast; linarith only [hr1]) (by push_cast; linarith only [hr2])
  rw [calcRA_def, hfr, hLq, hRq]
  constructor <;> (push_cast; linarith only [hr1, hr2])

lemma S6_UT : 2.7261013 ≤ calcUT 52.5 13.4 ⟨2024, 6, 21⟩ true 90.8 ∧ calcUT 52.5 13.4 ⟨2024, 6, 21⟩ true 90.8 ≤ 2.726635 := by
  have hN : calcN ⟨2024, 6, 21⟩ = 173 := by
    have h := calcN_eval 2024 6 21 183 1 506 0
      (floor_det _ 183 (by norm_num) (by norm_num))
      (floor_det _ 1 (by norm_num) (by norm_num))
      (floor_det _ 506 (by norm_num) (by norm_num))
      (floor_det _ 0 (by norm_num) (by norm_num))
    norm_num at h
    exact h
  have ht : calcT 13.4 ⟨2024, 6, 21⟩ true = (311783 / 1800) := by
    unfold calcT calcLngHour
    rw [hN]
    norm_num
  have hlng : calcLngHour 13.4 = (67 / 75) := by
    unfold calcLngHour
    norm_num
  obtain ⟨h1, h2⟩ := S6_H
  obtain ⟨h3, h4⟩ := S6_RA
  unfold calcUT
  rw [ht, hlng]
  rw [forceRange_id (calcH 52.5 13.4 ⟨2024, 6, 21⟩ true 90.8 + calcRA 13.4 ⟨2024, 6, 21⟩ true - 0.06571 * (311783 / 1800) - 6.622 - (67 / 75)) 24 (by linarith only [h1, h2, h3, h4]) (by linarith only [h1, h2, h3, h4])]
  constructor <;> linarith only [h1, h2, h3, h4]

lemma S6_result : _calc_sun_time 52.5 13.4 ⟨2024, 6, 21⟩ true 90.8 = .ok ⟨2024, 6, 21, 2, 44⟩ := by
  obtain ⟨h1, h2⟩ := S6_cosH
  obtain ⟨h3, h4⟩ := S6_UT
  exact calc_eval_ok _ _ _ _ _ 2 44 (by linarith only [h1]) (by linarith only [h2]) (by norm_num) (by norm_num)
    (by push_cast; linarith only [h3]) (by push_cast; linarith only [h4]) (by push_cast; linarith only [h3]) (by push_cast; linarith only [h4])
    (by norm_num) (by norm_num) (by decide)

lemma S7_L : 90.9490275 ≤ calcL 13.4 ⟨2024, 6, 21⟩ false ∧ calcL 13.4 ⟨2024, 6, 21⟩ false ≤ 90.9490302 := by
  have hN : calcN ⟨2024, 6, 21⟩ = 173 := by
    have h := calcN_eval 2024 6 21 183 1 506 0
      (floor_det _ 183 (by norm_num) (by norm_num))
      (floor_det _ 1 (by norm_num) (by norm_num))
      (floor_det _ 506 (by norm_num) (by norm_num))
      (floor_det _ 0 (by norm_num) (by norm_num))
    norm_num at h
    exact h
  have hM : calcM 13.4 ⟨2024, 6, 21⟩ false = (188912603 / 1125000) := by
    unfold calcM calcT calcLngHour
    rw [hN]
    norm_num
  obtain ⟨S7_sM_x1, S7_sM_x2⟩ := to_rad_shift_bounds (188912603 / 1125000) 2 (-0.2107955) (-0.2107953) (by norm_num)
  obtain ⟨S7_sM_s1, S7_sM_s2⟩ := sin_chain2 ((TO_RAD * (188912603 / 1125000) - 2 * (π / 2))) (-0.2107955) (-0.2107953) (-0.0234196) (-0.0234195) (-0.0702075) (-0.0702071) (-0.2092383) (-0.209237) S7_sM_x1 S7_sM_x2 (by norm_num [sinChainCond2])
  obtain ⟨S7_sM_1, S7_sM_2⟩ : 0.209237 ≤ Real.sin (TO_RAD * (188912603 / 1125000)) ∧ Real.sin (TO_RAD * (188912603 / 1125000)) ≤ 0.2092383 := by rw [sin_red2 (TO_RAD * (188912603 / 1125000))]; constructor <;> linarith only [S7_sM_s1, S7_sM_s2]
  obtain ⟨S7_s2_x1, S7_s2_x2⟩ := to_rad_shift_bounds (2 * (188912603 / 1125000)) 4 (-0.4215909) (-0.4215906) (by norm_num)
  obtain ⟨S7_s2_s1, S7_s2_s2⟩ := sin_chain2 ((TO_RAD * (2 * (188912603 / 1125000)) - 4 * (π / 2))) (-0.4215909) (-0.4215906) (-0.0468266) (-0.046826) (-0.1400691) (-0.1400673) (-0.4092151) (-0.40921) S7_s2_x1 S7_s2_x2 (by norm_num [sinChainCond2])
  obtain ⟨S7_s2_1, S7_s2_2⟩ : (-0.4092151) ≤ Real.sin (TO_RAD * (2 * (188912603 / 1125000))) ∧ Real.sin (TO_RAD * (2 * (188912603 / 1125000))) ≤ (-0.40921) := by rw [sin_red4 (TO_RAD * (2 * (188912603 / 1125000)))]; exact ⟨S7_s2_s1, S7_s2_s2⟩
  unfold calcL
  rw [hM]
  rw [mul_assoc TO_RAD 2 (188912603 / 1125000)]
  rw [forceRange_wrap ((188912603 / 1125000) + 1.916 * Real.sin (TO_RAD * (188912603 / 1125000)) + 0.020 * Real.sin (TO_RAD * (2 * (188912603 / 1125000))) + 282.634) 360 (by norm_num) (by linarith only [S7_sM_1, S7_sM_2, S7_s2_1, S7_s2_2])]
  constructor <;> linarith only [S7_sM_1, S7_sM_2, S7_s2_1, S7_s2_2]

lemma S7_cosH : (-0.5900072) ≤ calcCosH 52.5 13.4 ⟨2024, 6, 21⟩ false 90.8 ∧ calcCosH 52.5 13.4 ⟨2024, 6, 21⟩ false 90.8 ≤ (-0.5899843) := by
  obtain ⟨hL1, hL2⟩ := S7_L
  obtain ⟨S7_sL_x1, S7_sL_x2⟩ := to_rad_shift_bounds_of_le (calcL 13.4 ⟨2024, 6, 21⟩ false) 1 90.9490275 90.9490302 0.0165636 0.0165638 hL1 hL2 (by norm_num)
  obtain ⟨S7_sL_c1, S7_sL_c2⟩ := cos_chain2_pos ((TO_RAD * calcL 13.4 ⟨2024, 6, 21⟩ false - 1 * (π / 2))) 0.0165636 0.0165638 0.0009201 0.0009203 0.0027602 0.0027609 0.0082805 0.0082827 0.9998627 0.9998629 S7_sL_x1 S7_sL_x2 (by norm_num [sinChainCond2])
  obtain ⟨S7_sL_1, S7_sL_2⟩ : 0.9998627 ≤ Real.sin (TO_RAD * calcL 13.4 ⟨2024, 6, 21⟩ false) ∧ Real.sin (TO_RAD * calcL 13.4 ⟨2024, 6, 21⟩ false) ≤ 0.9998629 := by rw [sin_red1 (TO_RAD * calcL 13.4 ⟨2024, 6, 21⟩ false)]; exact ⟨S7_sL_c1, S7_sL_c2⟩
  obtain ⟨ha1, ha2⟩ : 0.3977653 ≤ calcSinDec 13.4 ⟨2024, 6, 21⟩ false ∧ calcSinDec 13.4 ⟨2024, 6, 21⟩ false ≤ 0.3977655 := by
    unfold calcSinDec
    constructor <;> linarith only [S7_sL_1, S7_sL_2]
  obtain ⟨hq1, hq2⟩ := sq_bounds_of_pos (calcSinDec 13.4 ⟨2024, 6, 21⟩ false) 0.3977653 0.3977655 ha1 ha2 (by norm_num)
  obtain ⟨hb1, hb2⟩ : 0.9174871 ≤ calcCosDec 13.4 ⟨2024, 6, 21⟩ false ∧ calcCosDec 13.4 ⟨2024, 6, 21⟩ false ≤ 0.9174873 := by
    unfold calcCosDec
    rw [Real.cos_arcsin]
    exact sqrt_ivl _ 0.9174871 0.9174873 (by nlinarith [hq1, hq2]) (by nlinarith [hq1, hq2]) (by norm_num)
  obtain ⟨hc1, hc2⟩ := coszen_bounds
  obtain ⟨hd1, hd2, he1, he2⟩ := ang_105_2
  unfold calcCosH
  obtain ⟨hm1, hm2⟩ := mul_ivl_pos (calcSinDec 13.4 ⟨2024, 6, 21⟩ false) (Real.sin (TO_RAD * 52.5)) 0.3977653 0.3977655 0.7933523028 0.7933544286 ha1 ha2 hd1 hd2 (by norm_num) (by norm_num)
  obtain ⟨hn1, hn2⟩ := mul_ivl_pos (calcCosDec 13.4 ⟨2024, 6, 21⟩ false) (Real.cos (TO_RAD * 52.5)) 0.9174871 0.9174873 0.6087507708 0.6087717939 hb1 hb2 he1 he2 (by norm_num) (by norm_num)
  exact div_ivl _ _ (-0.3295313) (-0.3295301) 0.5585209 0.5585404 (-0.5900072) (-0.5899843) (by linarith only [hc1, hm1, hm2]) (by linarith only [hc2, hm1, hm2]) (by linarith only [hn1]) (by linarith only [hn2]) (by norm_num)

lemma S7_H : 8.4103137 ≤ calcH 52.5 13.4 ⟨2024, 6, 21⟩ false 90.8 ∧ calcH 52.5 13.4 ⟨2024, 6, 21⟩ false 90.8 ≤ 8.4105805 := by
  obtain ⟨h1, h2⟩ := S7_cosH
  obtain ⟨S7_aA_x1, S7_aA_x2⟩ := to_rad_shift_bounds 126.154706 1 0.6310185 0.6310188 (by norm_num)
  obtain ⟨S7_aA_s1, S7_aA_s2⟩ := sin_chain2 ((TO_RAD * 126.154706 - 1 * (π / 2))) 0.6310185 0.6310188 0.0700544 0.0700571 0.2087879 0.208796 0.5899574 0.5899776 S7_aA_x1 S7_aA_x2 (by norm_num [sinChainCond2])
  obtain ⟨S7_aA_1, S7_aA_2⟩ : (-0.5899776) ≤ Real.cos (TO_RAD * 126.154706) ∧ Real.cos (TO_RAD * 126.154706) ≤ (-0.5899574) := by rw [cos_red1 (TO_RAD * 126.154706)]; constructor <;> linarith only [S7_aA_s1, S7_aA_s2]
  obtain ⟨S7_aB_x1, S7_aB_x2⟩ := to_rad_shift_bounds 126.158707 1 0.6310883 0.6310886 (by norm_num)
  obtain ⟨S7_aB_s1, S7_aB_s2⟩ := sin_chain2 ((TO_RAD * 126.158707 - 1 * (π / 2))) 0.6310883 0.6310886 0.0700621 0.0700648 0.2088106 0.2088186 0.5900136 0.5900335 S7_aB_x1 S7_aB_x2 (by norm_num [sinChainCond2])
  obtain ⟨S7_aB_1, S7_aB_2⟩ : (-0.5900335) ≤ Real.cos (TO_RAD * 126.158707) ∧ Real.cos (TO_RAD * 126.158707) ≤ (-0.5900136) := by rw [cos_red1 (TO_RAD * 126.158707)]; constructor <;> linarith only [S7_aB_s1, S7_aB_s2]
  have hbr := arccos_bracket (calcCosH 52.5 13.4 ⟨2024, 6, 21⟩ false 90.8) (TO_RAD * 126.154706) (TO_RAD * 126.158707) (by linarith only [h1]) (by linarith only [h2])
    (to_rad_nonneg _ (by norm_num)) (to_rad_mono _ _ (by norm_num)) (to_rad_le_pi _ (by norm_num))
    (by linarith only [S7_aB_2, h1]) (by linarith only [S7_aA_1, h2])
  obtain ⟨hk1, hk2⟩ := inv_to_rad_bounds (Real.arccos (calcCosH 52.5 13.4 ⟨2024, 6, 21⟩ false 90.8)) 126.154706 126.158707 hbr.1 hbr.2
  unfold calcH
  rw [if_neg Bool.false_ne_true]
  constructor <;> linarith only [hk1, hk2]

lemma S7_RA : 6.068812 ≤ calcRA 13.4 ⟨2024, 6, 21⟩ false ∧ calcRA 13.4 ⟨2024, 6, 21⟩ false ≤ 6.0690788 := by
  obtain ⟨hL1, hL2⟩ := S7_L
  obtain ⟨hy1, hy2⟩ := to_rad_shift_bounds_of_le (calcL 13.4 ⟨2024, 6, 21⟩ false) 1 90.9490275 90.9490302 0.0165636 0.0165638 hL1 hL2 (by norm_num)
  obtain ⟨S7_rs_s1, S7_rs_s2⟩ := sin_chain2 ((TO_RAD * calcL 13.4 ⟨2024, 6, 21⟩ false - 1 * (π / 2))) 0.0165636 0.0165638 0.0018403 0.0018405 0.0055208 0.0055215 0.0165617 0.0165639 hy1 hy2 (by norm_num [sinChainCond2])
  obtain ⟨S7_rc_c1, S7_rc_c2⟩ := cos_chain2_pos ((TO_RAD * calcL 13.4 ⟨2024, 6, 21⟩ false - 1 * (π / 2))) 0.0165636 0.0165638 0.0009201 0.0009203 0.0027602 0.0027609 0.0082805 0.0082827 0.9998627 0.9998629 hy1 hy2 (by norm_num [sinChainCond2])
  have htan : Real.tan (TO_RAD * calcL 13.4 ⟨2024, 6, 21⟩ false) = -(Real.cos (TO_RAD * calcL 13.4 ⟨2024, 6, 21⟩ false - 1 * (π / 2)) / Real.sin (TO_RAD * calcL 13.4 ⟨2024, 6, 21⟩ false - 1 * (π / 2))) := by
    conv_lhs => rw [show TO_RAD * calcL 13.4 ⟨2024, 6, 21⟩ false = (TO_RAD * calcL 13.4 ⟨2024, 6, 21⟩ false - 1 * (π / 2)) + π / 2 by ring]
    rw [tan_shift1, Real.tan_eq_sin_div_cos, inv_div]
  obtain ⟨hq1, hq2⟩ := div_ivl (Real.cos (TO_RAD * calcL 13.4 ⟨2024, 6, 21⟩ false - 1 * (π / 2))) (Real.sin (TO_RAD * calcL 13.4 ⟨2024, 6, 21⟩ false - 1 * (π / 2))) 0.9998627 0.9998629 0.0165617 0.0165639 60.3639662 60.3719969 S7_rc_c1 S7_rc_c2 S7_rs_s1 S7_rs_s2 (by norm_num)
  have hw1 : (-55.3997593) ≤ 0.91764 * Real.tan (TO_RAD * calcL 13.4 ⟨2024, 6, 21⟩ false) := by rw [htan]; linarith only [hq1, hq2]
  have hw2 : 0.91764 * Real.tan (TO_RAD * calcL 13.4 ⟨2024, 6, 21⟩ false) ≤ (-55.3923899) := by rw [htan]; linarith only [hq1, hq2]
  obtain ⟨S7_as_x1, S7_as_x2⟩ := to_rad_shift_bounds (-88.96782) (-1) 0.0180149 0.018015 (by norm_num)
  obtain ⟨S7_as_c1, S7_as_c2⟩ := cos_chain2_pos ((TO_RAD * (-88.96782) - (-1) * (π / 2))) 0.0180149 0.018015 0.0010008 0.0010009 0.0030023 0.0030027 0.0090067 0.009008 0.9998377 0.9998378 S7_as_x1 S7_as_x2 (by norm_num [sinChainCond2])
  obtain ⟨S7_as_1, S7_as_2⟩ : (-0.9998378) ≤ Real.sin (TO_RAD * (-88.96782)) ∧ Real.sin (TO_RAD * (-88.96782)) ≤ (-0.9998377) := by rw [sin_red_m1 (TO_RAD * (-88.96782))]; constructor <;> linarith only [S7_as_c1, S7_as_c2]
  obtain ⟨S7_ac_x1, S7_ac_x2⟩ := to_rad_shift_bounds (-88.96782) (-1) 0.0180149 0.018015 (by norm_num)
  obtain ⟨S7_ac_s1, S7_ac_s2⟩ := sin_chain2 ((TO_RAD * (-88.96782) - (-1) * (π / 2))) 0.0180149 0.018015 0.0020016 0.0020017 0.0060047 0.0060051 0.0180132 0.0180145 S7_ac_x1 S7_ac_x2 (by norm_num [sinChainCond2])
  obtain ⟨S7_ac_1, S7_ac_2⟩ : 0.0180132 ≤ Real.cos (TO_RAD * (-88.96782)) ∧ Real.cos (TO_RAD * (-88.96782)) ≤ 0.0180145 := by rw [cos_red_m1 (TO_RAD * (-88.96782))]; exact ⟨S7_ac_s1, S7_ac_s2⟩
  obtain ⟨S7_bs_x1, S7_bs_x2⟩ := to_rad_shift_bounds (-88.963819) (-1) 0.0180847 0.0180848 (by norm_num)
  obtain ⟨S7_bs_c1, S7_bs_c2⟩ := cos_chain2_pos ((TO_RAD * (-88.963819) - (-1) * (π / 2))) 0.0180847 0.0180848 0.0010047 0.0010048 0.003014 0.0030144 0.0090418 0.0090431 0.9998364 0.9998365 S7_bs_x1 S7_bs_x2 (by norm_num [sinChainCond2])
  obtain ⟨S7_bs_1, S7_bs_2⟩ : (-0.9998365) ≤ Real.sin (TO_RAD * (-88.963819)) ∧ Real.sin (TO_RAD * (-88.963819)) ≤ (-0.9998364) := by rw [sin_red_m1 (TO_RAD * (-88.963819))]; constructor <;> linarith only [S7_bs_c1, S7_bs_c2]
  obtain ⟨S7_bc_x1, S7_bc_x2⟩ := to_rad_shift_bounds (-88.963819) (-1) 0.0180847 0.0180848 (by norm_num)
  obtain ⟨S7_bc_s1, S7_bc_s2⟩ := sin_chain2 ((TO_RAD * (-88.963819) - (-1) * (π / 2))) 0.0180847 0.0180848 0.0020094 0.0020095 0.0060281 0.0060285 0.0180834 0.0180847 S7_bc_x1 S7_bc_x2 (by norm_num [sinChainCond2])
  obtain ⟨S7_bc_1, S7_bc_2⟩ : 0.0180834 ≤ Real.cos (TO_RAD * (-88.963819)) ∧ Real.cos (TO_RAD * (-88.963819)) ≤ 0.0180847 := by rw [cos_red_m1 (TO_RAD * (-88.963819))]; exact ⟨S7_bc_s1, S7_bc_s2⟩
  have hta : Real.tan (TO_RAD * (-88.96782)) ≤ (-55.501829) := by
    rw [Real.tan_eq_sin_div_cos]
    exact (div_ivl (Real.sin (TO_RAD * (-88.96782))) (Real.cos (TO_RAD * (-88.96782))) (-0.9998378) (-0.9998377) 0.0180132 0.0180145 (-55.5058402) (-55.501829) S7_as_1 S7_as_2 S7_ac_1 S7_ac_2 (by norm_num)).2
  have htb : (-55.2902939) ≤ Real.tan (TO_RAD * (-88.963819)) := by
    rw [Real.tan_eq_sin_div_cos]
    exact (div_ivl (Real.sin (TO_RAD * (-88.963819))) (Real.cos (TO_RAD * (-88.963819))) (-0.9998365) (-0.9998364) 0.0180834 0.0180847 (-55.2902939) (-55.2863138) S7_bs_1 S7_bs_2 S7_bc_1 S7_bc_2 (by norm_num)).1
  have hbr := arctan_bracket (0.91764 * Real.tan (TO_RAD * calcL 13.4 ⟨2024, 6, 21⟩ false)) (TO_RAD * (-88.96782)) (TO_RAD * (-88.963819))
    (to_rad_gt_neg_half_pi _ (by norm_num)) (to_rad_mono _ _ (by norm_num)) (to_rad_lt_half_pi _ (by norm_num))
    (by linarith only [hta, hw1]) (by linarith only [htb, hw2])
  obtain ⟨hr1, hr2⟩ := inv_to_rad_bounds (Real.arctan (0.91764 * Real.tan (TO_RAD * calcL 13.4 ⟨2024, 6, 21⟩ false))) (-88.96782) (-88.963819) hbr.1 hbr.2
  have hfr : _force_range ((1 / TO_RAD) * Real.arctan (0.91764 * Real.tan (TO_RAD * calcL 13.4 ⟨2024, 6, 21⟩ false))) 360 = (1 / TO_RAD) * Real.arctan (0.91764 * Real.tan (TO_RAD * calcL 13.4 ⟨2024, 6, 21⟩ false)) + 360 := forceRange_neg _ 360 (by linarith only [hr2])
  have hLq : ⌊(calcL 13.4 ⟨2024, 6, 21⟩ false) / 90⌋ = 1 := floor_det _ 1 (by push_cast; linarith only [hL1]) (by push_cast; linarith only [hL2])
  have hRq : ⌊((1 / TO_RAD) * Real.arctan (0.91764 * Real.tan (TO_RAD * calcL 13.4 ⟨2024, 6, 21⟩ false)) + 360) / 90⌋ = 3 := floor_det _ 3 (by push_cast; linarith only [hr1]) (by push_cast; linarith only [hr2])
  rw [calcRA_def, hfr, hLq, hRq]
  constructor <;> (push_cast; linarith only [hr1, hr2])

lemma S7_UT : 19.5491257 ≤ calcUT 52.5 13.4 ⟨2024, 6, 21⟩ false 90.8 ∧ calcUT 52.5 13.4 ⟨2024, 6, 21⟩ false 90.8 ≤ 19.5496594 := by
  have hN : calcN ⟨2024, 6, 21⟩ = 173 := by
    have h := calcN_eval 2024 6 21 183 1 506 0
      (floor_det _ 183 (by norm_num) (by norm_num))
      (floor_det _ 1 (by norm_num) (by norm_num))
      (floor_det _ 506 (by norm_num) (by norm_num))
      (floor_det _ 0 (by norm_num) (by norm_num))
    norm_num at h
    exact h
  have ht : calcT 13.4 ⟨2024, 6, 21⟩ false = (312683 / 1800) := by
    unfold calcT calcLngHour
    rw [hN]
    norm_num
  have hlng : calcLngHour 13.4 = (67 / 75) := by
    unfold calcLngHour
    norm_num
  obtain ⟨h1, h2⟩ := S7_H
  obtain ⟨h3, h4⟩ := S7_RA
  unfold calcUT
  rw [ht, hlng]
  rw [forceRange_neg (calcH 52.5 13.4 ⟨2024, 6, 21⟩ false 90.8 + calcRA 13.4 ⟨2024, 6, 21⟩ false - 0.06571 * (312683 / 1800) - 6.622 - (67 / 75)) 24 (by linarith only [h1, h2, h3, h4])]
  constructor <;> linarith only [h1, h2, h3, h4]

lemma S7_result : _calc_sun_time 52.5 13.4 ⟨2024, 6, 21⟩ false 90.8 = .ok ⟨2024, 6, 21, 19, 33⟩ := by
  obtain ⟨h1, h2⟩ := S7_cosH
  obtain ⟨h3, h4⟩ := S7_UT
  exact calc_eval_ok _ _ _ _ _ 19 33 (by linarith only [h1]) (by linarith only [h2]) (by norm_num) (by norm_num)
    (by push_cast; linarith only [h3]) (by push_cast; linarith only [h4]) (by push_cast; linarith only [h3]) (by push_cast; linarith only [h4])
    (by norm_num) (by norm_num) (by decide)

lemma S8_L : 90.0304866 ≤ calcL 180 ⟨2024, 6, 21⟩ true ∧ calcL 180 ⟨2024, 6, 21⟩ true ≤ 90.0304908 := by
  have hN : calcN ⟨2024, 6, 21⟩ = 173 := by
    have h := calcN_eval 2024 6 21 183 1 506 0
      (floor_det _ 183 (by norm_num) (by norm_num))
      (floor_det _ 1 (by norm_num) (by norm_num))
      (floor_det _ 506 (by norm_num) (by norm_num))
      (floor_det _ 0 (by norm_num) (by norm_num))
    norm_num at h
    exact h
  have hM : calcM 180 ⟨2024, 6, 21⟩ true = 166.9734 := by
    unfold calcM calcT calcLngHour
    rw [hN]
    norm_num
  obtain ⟨S8_sM_x1, S8_sM_x2⟩ := to_rad_shift_bounds 166.9734 2 (-0.2273571) (-0.227357) (by norm_num)
  obtain ⟨S8_sM_s1, S8_sM_s2⟩ := sin_chain2 ((TO_RAD * 166.9734 - 2 * (π / 2))) (-0.2273571) (-0.227357) (-0.0252593) (-0.0252591) (-0.0757135) (-0.0757128) (-0.2254044) (-0.2254023) S8_sM_x1 S8_sM_x2 (by norm_num [sinChainCond2])
  obtain ⟨S8_sM_1, S8_sM_2⟩ : 0.2254023 ≤ Real.sin (TO_RAD * 166.9734) ∧ Real.sin (TO_RAD * 166.9734) ≤ 0.2254044 := by rw [sin_red2 (TO_RAD * 166.9734)]; constructor <;> linarith only [S8_sM_s1, S8_sM_s2]
  obtain ⟨S8_s2_x1, S8_s2_x2⟩ := to_rad_shift_bounds (2 * 166.9734) 4 (-0.4547142) (-0.454714) (by norm_num)
  obtain ⟨S8_s2_s1, S8_s2_s2⟩ := sin_chain2 ((TO_RAD * (2 * 166.9734) - 4 * (π / 2))) (-0.4547142) (-0.454714) (-0.0505027) (-0.0505019) (-0.1509929) (-0.1509904) (-0.4392089) (-0.439202) S8_s2_x1 S8_s2_x2 (by norm_num [sinChainCond2])
  obtain ⟨S8_s2_1, S8_s2_2⟩ : (-0.4392089) ≤ Real.sin (TO_RAD * (2 * 166.9734)) ∧ Real.sin (TO_RAD * (2 * 166.9734)) ≤ (-0.439202) := by rw [sin_red4 (TO_RAD * (2 * 166.9734))]; exact ⟨S8_s2_s1, S8_s2_s2⟩
  unfold calcL
  rw [hM]
  rw [mul_assoc TO_RAD 2 166.9734]
  rw [forceRange_wrap (166.9734 + 1.916 * Real.sin (TO_RAD * 166.9734) + 0.020 * Real.sin (TO_RAD * (2 * 166.9734)) + 282.634) 360 (by norm_num) (by linarith only [S8_sM_1, S8_sM_2, S8_s2_1, S8_s2_2])]
  constructor <;> linarith only [S8_sM_1, S8_sM_2, S8_s2_1, S8_s2_2]

lemma S8_cosH : (-0.5900997) ≤ calcCosH 52.5 180 ⟨2024, 6, 21⟩ true 90.8 ∧ calcCosH 52.5 180 ⟨2024, 6, 21⟩ true 90.8 ≤ (-0.5900772) := by
  obtain ⟨hL1, hL2⟩ := S8_L
  obtain ⟨S8_sL_x1, S8_sL_x2⟩ := to_rad_shift_bounds_of_le (calcL 180 ⟨2024, 6, 21⟩ true) 1 90.0304866 90.0304908 0.000532 0.0005322 hL1 hL2 (by norm_num)
  obtain ⟨S8_sL_c1, S8_sL_c2⟩ := cos_chain2_pos ((TO_RAD * calcL 180 ⟨2024, 6, 21⟩ true - 1 * (π / 2))) 0.000532 0.0005322 0.0000295 0.0000296 0.0000884 0.0000888 0.0002651 0.0002664 0.9999998 0.9999999 S8_sL_x1 S8_sL_x2 (by norm_num [sinChainCond2])
  obtain ⟨S8_sL_1, S8_sL_2⟩ : 0.9999998 ≤ Real.sin (TO_RAD * calcL 180 ⟨2024, 6, 21⟩ true) ∧ Real.sin (TO_RAD * calcL 180 ⟨2024, 6, 21⟩ true) ≤ 0.9999999 := by rw [sin_red1 (TO_RAD * calcL 180 ⟨2024, 6, 21⟩ true)]; exact ⟨S8_sL_c1, S8_sL_c2⟩
  obtain ⟨ha1, ha2⟩ : 0.3978199 ≤ calcSinDec 180 ⟨2024, 6, 21⟩ true ∧ calcSinDec 180 ⟨2024, 6, 21⟩ true ≤ 0.39782 := by
    unfold calcSinDec
    constructor <;> linarith only [S8_sL_1, S8_sL_2]
  obtain ⟨hq1, hq2⟩ := sq_bounds_of_pos (calcSinDec 180 ⟨2024, 6, 21⟩ true) 0.3978199 0.39782 ha1 ha2 (by norm_num)
  obtain ⟨hb1, hb2⟩ : 0.9174634 ≤ calcCosDec 180 ⟨2024, 6, 21⟩ true ∧ calcCosDec 180 ⟨2024, 6, 21⟩ true ≤ 0.9174636 := by
    unfold calcCosDec
    rw [Real.cos_arcsin]
    exact sqrt_ivl _ 0.9174634 0.9174636 (by nlinarith [hq1, hq2]) (by nlinarith [hq1, hq2]) (by norm_num)
  obtain ⟨hc1, hc2⟩ := coszen_bounds
  obtain ⟨hd1, hd2, he1, he2⟩ := ang_105_2
  unfold calcCosH
  obtain ⟨hm1, hm2⟩ := mul_ivl_pos (calcSinDec 180 ⟨2024, 6, 21⟩ true) (Real.sin (TO_RAD * 52.5)) 0.3978199 0.39782 0.7933523028 0.7933544286 ha1 ha2 hd1 hd2 (by norm_num) (by norm_num)
  obtain ⟨hn1, hn2⟩ := mul_ivl_pos (calcCosDec 180 ⟨2024, 6, 21⟩ true) (Real.cos (TO_RAD * 52.5)) 0.9174634 0.9174636 0.6087507708 0.6087717939 hb1 hb2 he1 he2 (by norm_num) (by norm_num)
  exact div_ivl _ _ (-0.3295745) (-0.3295735) 0.5585065 0.558526 (-0.5900997) (-0.5900772) (by linarith only [hc1, hm1, hm2]) (by linarith only [hc2, hm1, hm2]) (by linarith only [hn1]) (by linarith only [hn2]) (by norm_num)

lemma S8_H : 15.5889809 ≤ calcH 52.5 180 ⟨2024, 6, 21⟩ true 90.8 ∧ calcH 52.5 180 ⟨2024, 6, 21⟩ true 90.8 ≤ 15.5892477 := by
  obtain ⟨h1, h2⟩ := S8_cosH
  obtain ⟨S8_aA_x1, S8_aA_x2⟩ := to_rad_shift_bounds 126.161285 1 0.6311333 0.6311336 (by norm_num)
  obtain ⟨S8_aA_s1, S8_aA_s2⟩ := sin_chain2 ((TO_RAD * 126.161285 - 1 * (π / 2))) 0.6311333 0.6311336 0.0700671 0.0700698 0.2088253 0.2088333 0.59005 0.5900699 S8_aA_x1 S8_aA_x2 (by norm_num [sinChainCond2])
  obtain ⟨S8_aA_1, S8_aA_2⟩ : (-0.5900699) ≤ Real.cos (TO_RAD * 126.161285) ∧ Real.cos (TO_RAD * 126.161285) ≤ (-0.59005) := by rw [cos_red1 (TO_RAD * 126.161285)]; constructor <;> linarith only [S8_aA_s1, S8_aA_s2]
  obtain ⟨S8_aB_x1, S8_aB_x2⟩ := to_rad_shift_bounds 126.165286 1 0.6312031 0.6312034 (by norm_num)
  obtain ⟨S8_aB_s1, S8_aB_s2⟩ := sin_chain2 ((TO_RAD * 126.165286 - 1 * (π / 2))) 0.6312031 0.6312034 0.0700749 0.0700775 0.2088482 0.208856 0.5901067 0.5901262 S8_aB_x1 S8_aB_x2 (by norm_num [sinChainCond2])
  obtain ⟨S8_aB_1, S8_aB_2⟩ : (-0.5901262) ≤ Real.cos (TO_RAD * 126.165286) ∧ Real.cos (TO_RAD * 126.165286) ≤ (-0.5901067) := by rw [cos_red1 (TO_RAD * 126.165286)]; constructor <;> linarith only [S8_aB_s1, S8_aB_s2]
  have hbr := arccos_bracket (calcCosH 52.5 180 ⟨2024, 6, 21⟩ true 90.8) (TO_RAD * 126.161285) (TO_RAD * 126.165286) (by linarith only [h1]) (by linarith only [h2])
    (to_rad_nonneg _ (by norm_num)) (to_rad_mono _ _ (by norm_num)) (to_rad_le_pi _ (by norm_num))
    (by linarith only [S8_aB_2, h1]) (by linarith only [S8_aA_1, h2])
  obtain ⟨hk1, hk2⟩ := inv_to_rad_bounds (Real.arccos (calcCosH 52.5 180 ⟨2024, 6, 21⟩ true 90.8)) 126.161285 126.165286 hbr.1 hbr.2
  unfold calcH
  rw [if_pos rfl]
  constructor <;> linarith only [hk1, hk2]

lemma S8_RA : 6.0020817 ≤ calcRA 180 ⟨2024, 6, 21⟩ true ∧ calcRA 180 ⟨2024, 6, 21⟩ true ≤ 6.0023485 := by
  obtain ⟨hL1, hL2⟩ := S8_L
  obtain ⟨hy1, hy2⟩ := to_rad_shift_bounds_of_le (calcL 180 ⟨2024, 6, 21⟩ true) 1 90.0304866 90.0304908 0.000532 0.0005322 hL1 hL2 (by norm_num)
  obtain ⟨S8_rs_s1, S8_rs_s2⟩ := sin_chain2 ((TO_RAD * calcL 180 ⟨2024, 6, 21⟩ true - 1 * (π / 2))) 0.000532 0.0005322 0.0000591 0.0000592 0.0001772 0.0001776 0.0005315 0.0005328 hy1 hy2 (by norm_num [sinChainCond2])
  obtain ⟨S8_rc_c1, S8_rc_c2⟩ := cos_chain2_pos ((TO_RAD * calcL 180 ⟨2024, 6, 21⟩ true - 1 * (π / 2))) 0.000532 0.0005322 0.0000295 0.0000296 0.0000884 0.0000888 0.0002651 0.0002664 0.9999998 0.9999999 hy1 hy2 (by norm_num [sinChainCond2])
  have htan : Real.tan (TO_RAD * calcL 180 ⟨2024, 6, 21⟩ true) = -(Real.cos (TO_RAD * calcL 180 ⟨2024, 6, 21⟩ true - 1 * (π / 2)) / Real.sin (TO_RAD * calcL 180 ⟨2024, 6, 21⟩ true - 1 * (π / 2))) := by
    conv_lhs => rw [show TO_RAD * calcL 180 ⟨2024, 6, 21⟩ true = (TO_RAD * calcL 180 ⟨2024, 6, 21⟩ true - 1 * (π / 2)) + π / 2 by ring]
    rw [tan_shift1, Real.tan_eq_sin_div_cos, inv_div]
  obtain ⟨hq1, hq2⟩ := div_ivl (Real.cos (TO_RAD * calcL 180 ⟨2024, 6, 21⟩ true - 1 * (π / 2))) (Real.sin (TO_RAD * calcL 180 ⟨2024, 6, 21⟩ true - 1 * (π / 2))) 0.9999998 0.9999999 0.0005315 0.0005328 1876.8765015 1881.4673566 S8_rc_c1 S8_rc_c2 S8_rs_s1 S8_rs_s2 (by norm_num)
  have hw1 : (-1726.5097052) ≤ 0.91764 * Real.tan (TO_RAD * calcL 180 ⟨2024, 6, 21⟩ true) := by rw [htan]; linarith only [hq1, hq2]
  have hw2 : 0.91764 * Real.tan (TO_RAD * calcL 180 ⟨2024, 6, 21⟩ true) ≤ (-1722.2969528) := by rw [htan]; linarith only [hq1, hq2]
  obtain ⟨S8_as_x1, S8_as_x2⟩ := to_rad_shift_bounds (-89.968774) (-1) 0.0005449 0.000545 (by norm_num)
  obtain ⟨S8_as_c1, S8_as_c2⟩ := cos_chain2_pos ((TO_RAD * (-89.968774) - (-1) * (π / 2))) 0.0005449 0.000545 0.0000302 0.0000303 0.0000905 0.0000909 0.0002714 0.0002727 0.9999998 0.9999999 S8_as_x1 S8_as_x2 (by norm_num [sinChainCond2])
  obtain ⟨S8_as_1, S8_as_2⟩ : (-0.9999999) ≤ Real.sin (TO_RAD * (-89.968774)) ∧ Real.sin (TO_RAD * (-89.968774)) ≤ (-0.9999998) := by rw [sin_red_m1 (TO_RAD * (-89.968774))]; constructor <;> linarith only [S8_as_c1, S8_as_c2]
  obtain ⟨S8_ac_x1, S8_ac_x2⟩ := to_rad_shift_bounds (-89.968774) (-1) 0.0005449 0.000545 (by norm_num)
  obtain ⟨S8_ac_s1, S8_ac_s2⟩ := sin_chain2 ((TO_RAD * (-89.968774) - (-1) * (π / 2))) 0.0005449 0.000545 0.0000605 0.0000606 0.0001814 0.0001818 0.0005441 0.0005454 S8_ac_x1 S8_ac_x2 (by norm_num [sinChainCond2])
  obtain ⟨S8_ac_1, S8_ac_2⟩ : 0.0005441 ≤ Real.cos (TO_RAD * (-89.968774)) ∧ Real.cos (TO_RAD * (-89.968774)) ≤ 0.0005454 := by rw [cos_red_m1 (TO_RAD * (-89.968774))]; exact ⟨S8_ac_s1, S8_ac_s2⟩
  obtain ⟨S8_bs_x1, S8_bs_x2⟩ := to_rad_shift_bounds (-89.964773) (-1) 0.0006148 0.0006149 (by norm_num)
  obtain ⟨S8_bs_c1, S8_bs_c2⟩ := cos_chain2_pos ((TO_RAD * (-89.964773) - (-1) * (π / 2))) 0.0006148 0.0006149 0.0000341 0.0000342 0.0001022 0.0001026 0.0003065 0.0003078 0.9999998 0.9999999 S8_bs_x1 S8_bs_x2 (by norm_num [sinChainCond2])
  obtain ⟨S8_bs_1, S8_bs_2⟩ : (-0.9999999) ≤ Real.sin (TO_RAD * (-89.964773)) ∧ Real.sin (TO_RAD * (-89.964773)) ≤ (-0.9999998) := by rw [sin_red_m1 (TO_RAD * (-89.964773))]; constructor <;> linarith only [S8_bs_c1, S8_bs_c2]
  obtain ⟨S8_bc_x1, S8_bc_x2⟩ := to_rad_shift_bounds (-89.964773) (-1) 0.0006148 0.0006149 (by norm_num)
  obtain ⟨S8_bc_s1, S8_bc_s2⟩ := sin_chain2 ((TO_RAD * (-89.964773) - (-1) * (π / 2))) 0.0006148 0.0006149 0.0000683 0.0000684 0.0002048 0.0002052 0.0006143 0.0006156 S8_bc_x1 S8_bc_x2 (by norm_num [sinChainCond2])
  obtain ⟨S8_bc_1, S8_bc_2⟩ : 0.0006143 ≤ Real.cos (TO_RAD * (-89.964773)) ∧ Real.cos (TO_RAD * (-89.964773)) ≤ 0.0006156 := by rw [cos_red_m1 (TO_RAD * (-89.964773))]; exact ⟨S8_bc_s1, S8_bc_s2⟩
  have hta : Real.tan (TO_RAD * (-89.968774)) ≤ (-1833.5163182) := by
    rw [Real.tan_eq_sin_div_cos]
    exact (div_ivl (Real.sin (TO_RAD * (-89.968774))) (Real.cos (TO_RAD * (-89.968774))) (-0.9999999) (-0.9999998) 0.0005441 0.0005454 (-1837.8972616) (-1833.5163182) S8_as_1 S8_as_2 S8_ac_1 S8_ac_2 (by norm_num)).2
  have htb : (-1627.8689566) ≤ Real.tan (TO_RAD * (-89.964773)) := by
    rw [Real.tan_eq_sin_div_cos]
    exact (div_ivl (Real.sin (TO_RAD * (-89.964773))) (Real.cos (TO_RAD * (-89.964773))) (-0.9999999) (-0.9999998) 0.0006143 0.0006156 (-1627.8689566) (-1624.4311241) S8_bs_1 S8_bs_2 S8_bc_1 S8_bc_2 (by norm_num)).1
  have hbr := arctan_bracket (0.91764 * Real.tan (TO_RAD * calcL 180 ⟨2024, 6, 21⟩ true)) (TO_RAD * (-89.968774)) (TO_RAD * (-89.964773))
    (to_rad_gt_neg_half_pi _ (by norm_num)) (to_rad_mono _ _ (by norm_num)) (to_rad_lt_half_pi _ (by norm_num))
    (by linarith only [hta, hw1]) (by linarith only [htb, hw2])
  obtain ⟨hr1, hr2⟩ := inv_to_rad_bounds (Real.arctan (0.91764 * Real.tan (TO_RAD * calcL 180 ⟨2024, 6, 21⟩ true))) (-89.968774) (-89.964773) hbr.1 hbr.2
  have hfr : _force_range ((1 / TO_RAD) * Real.arctan (0.91764 * Real.tan (TO_RAD * calcL 180 ⟨2024, 6, 21⟩ true))) 360 = (1 / TO_RAD) * Real.arctan (0.91764 * Real.tan (TO_RAD * calcL 180 ⟨2024, 6, 21⟩ true)) + 360 := forceRange_neg _ 360 (by linarith only [hr2])
  have hLq : ⌊(calcL 180 ⟨2024, 6, 21⟩ true) / 90⌋ = 1 := floor_det _ 1 (by push_cast; linarith only [hL1]) (by push_cast; linarith only [hL2])
  have hRq : ⌊((1 / TO_RAD) * Real.arctan (0.91764 * Real.tan (TO_RAD * calcL 180 ⟨2024, 6, 21⟩ true)) + 360) / 90⌋ = 3 := floor_det _ 3 (by push_cast; linarith only [hr1]) (by push_cast; linarith only [hr2])
  rw [calcRA_def, hfr, hLq, hRq]
  constructor <;> (push_cast; linarith only [hr1, hr2])

lemma S8_UT : 15.6176601 ≤ calcUT 52.5 180 ⟨2024, 6, 21⟩ true 90.8 ∧ calcUT 52.5 180 ⟨2024, 6, 21⟩ true 90.8 ≤ 15.6181937 := by
  have hN : calcN ⟨2024, 6, 21⟩ = 173 := by
    have h := calcN_eval 2024 6 21 183 1 506 0
      (floor_det _ 183 (by norm_num) (by norm_num))
      (floor_det _ 1 (by norm_num) (by norm_num))
      (floor_det _ 506 (by norm_num) (by norm_num))
      (floor_det _ 0 (by norm_num) (by norm_num))
    norm_num at h
    exact h
  have ht : calcT 180 ⟨2024, 6, 21⟩ true = 172.75 := by
    unfold calcT calcLngHour
    rw [hN]
    norm_num
  have hlng : calcLngHour 180 = 12 := by
    unfold calcLngHour
    norm_num
  obtain ⟨h1, h2⟩ := S8_H
  obtain ⟨h3, h4⟩ := S8_RA
  unfold calcUT
  rw [ht, hlng]
  rw [forceRange_neg (calcH 52.5 180 ⟨2024, 6, 21⟩ true 90.8 + calcRA 180 ⟨2024, 6, 21⟩ true - 0.06571 * 172.75 - 6.622 - 12) 24 (by linarith only [h1, h2, h3, h4])]
  constructor <;> linarith only [h1, h2, h3, h4]

lemma S8_result : _calc_sun_time 52.5 180 ⟨2024, 6, 21⟩ true 90.8 = .ok ⟨2024, 6, 21, 15, 37⟩ := by
  obtain ⟨h1, h2⟩ := S8_cosH
  obtain ⟨h3, h4⟩ := S8_UT
  exact calc_eval_ok _ _ _ _ _ 15 37 (by linarith only [h1]) (by linarith only [h2]) (by norm_num) (by norm_num)
    (by push_cast; linarith only [h3]) (by push_cast; linarith only [h4]) (by push_cast; linarith only [h3]) (by push_cast; linarith only [h4])
    (by norm_num) (by norm_num) (by decide)

lemma S9_L : 90.5075267 ≤ calcL 180 ⟨2024, 6, 21⟩ false ∧ calcL 180 ⟨2024, 6, 21⟩ false ≤ 90.5075294 := by
  have hN : calcN ⟨2024, 6, 21⟩ = 173 := by
    have h := calcN_eval 2024 6 21 183 1 506 0
      (floor_det _ 183 (by norm_num) (by norm_num))
      (floor_det _ 1 (by norm_num) (by norm_num))
      (floor_det _ 506 (by norm_num) (by norm_num))
      (floor_det _ 0 (by norm_num) (by norm_num))
    norm_num at h
    exact h
  have hM : calcM 180 ⟨2024, 6, 21⟩ false = 167.4662 := by
    unfold calcM calcT calcLngHour
    rw [hN]
    norm_num
  obtain ⟨S9_sM_x1, S9_sM_x2⟩ := to_rad_shift_bounds 167.4662 2 (-0.2187562) (-0.218756) (by norm_num)
  obtain ⟨S9_sM_s1, S9_sM_s2⟩ := sin_chain2 ((TO_RAD * 167.4662 - 2 * (π / 2))) (-0.2187562) (-0.218756) (-0.0243039) (-0.0243038) (-0.0728543) (-0.0728539) (-0.2170162) (-0.2170149) S9_sM_x1 S9_sM_x2 (by norm_num [sinChainCond2])
  obtain ⟨S9_sM_1, S9_sM_2⟩ : 0.2170149 ≤ Real.sin (TO_RAD * 167.4662) ∧ Real.sin (TO_RAD * 167.4662) ≤ 0.2170162 := by rw [sin_red2 (TO_RAD * 167.4662)]; constructor <;> linarith only [S9_sM_s1, S9_sM_s2]
  obtain ⟨S9_s2_x1, S9_s2_x2⟩ := to_rad_shift_bounds (2 * 167.4662) 4 (-0.4375123) (-0.437512) (by norm_num)
  obtain ⟨S9_s2_s1, S9_s2_s2⟩ := sin_chain2 ((TO_RAD * (2 * 167.4662) - 4 * (π / 2))) (-0.4375123) (-0.437512) (-0.0485937) (-0.048593) (-0.1453222) (-0.14532) (-0.4236907) (-0.4236845) S9_s2_x1 S9_s2_x2 (by norm_num [sinChainCond2])
  obtain ⟨S9_s2_1, S9_s2_2⟩ : (-0.4236907) ≤ Real.sin (TO_RAD * (2 * 167.4662)) ∧ Real.sin (TO_RAD * (2 * 167.4662)) ≤ (-0.4236845) := by rw [sin_red4 (TO_RAD * (2 * 167.4662))]; exact ⟨S9_s2_s1, S9_s2_s2⟩
  unfold calcL
  rw [hM]
  rw [mul_assoc TO_RAD 2 167.4662]
  rw [forceRange_wrap (167.4662 + 1.916 * Real.sin (TO_RAD * 167.4662) + 0.020 * Real.sin (TO_RAD * (2 * 167.4662)) + 282.634) 360 (by norm_num) (by linarith only [S9_sM_1, S9_sM_2, S9_s2_1, S9_s2_2])]
  constructor <;> linarith only [S9_sM_1, S9_sM_2, S9_s2_1, S9_s2_2]

lemma S9_cosH : (-0.5900734) ≤ calcCosH 52.5 180 ⟨2024, 6, 21⟩ false 90.8 ∧ calcCosH 52.5 180 ⟨2024, 6, 21⟩ false 90.8 ≤ (-0.5900507) := by
  obtain ⟨hL1, hL2⟩ := S9_L
  obtain ⟨S9_sL_x1, S9_sL_x2⟩ := to_rad_shift_bounds_of_le (calcL 180 ⟨2024, 6, 21⟩ false) 1 90.5075267 90.5075294 0.008858 0.0088581 hL1 hL2 (by norm_num)
  obtain ⟨S9_sL_c1, S9_sL_c2⟩ := cos_chain2_pos ((TO_RAD * calcL 180 ⟨2024, 6, 21⟩ false - 1 * (π / 2))) 0.008858 0.0088581 0.0004921 0.0004922 0.0014762 0.0014766 0.0044285 0.0044298 0.9999607 0.9999608 S9_sL_x1 S9_sL_x2 (by norm_num [sinChainCond2])
  obtain ⟨S9_sL_1, S9_sL_2⟩ : 0.9999607 ≤ Real.sin (TO_RAD * calcL 180 ⟨2024, 6, 21⟩ false) ∧ Real.sin (TO_RAD * calcL 180 ⟨2024, 6, 21⟩ false) ≤ 0.9999608 := by rw [sin_red1 (TO_RAD * calcL 180 ⟨2024, 6, 21⟩ false)]; exact ⟨S9_sL_c1, S9_sL_c2⟩
  obtain ⟨ha1, ha2⟩ : 0.3978043 ≤ calcSinDec 180 ⟨2024, 6, 21⟩ false ∧ calcSinDec 180 ⟨2024, 6, 21⟩ false ≤ 0.3978045 := by
    unfold calcSinDec
    constructor <;> linarith only [S9_sL_1, S9_sL_2]
  obtain ⟨hq1, hq2⟩ := sq_bounds_of_pos (calcSinDec 180 ⟨2024, 6, 21⟩ false) 0.3978043 0.3978045 ha1 ha2 (by norm_num)
  obtain ⟨hb1, hb2⟩ : 0.9174702 ≤ calcCosDec 180 ⟨2024, 6, 21⟩ false ∧ calcCosDec 180 ⟨2024, 6, 21⟩ false ≤ 0.9174703 := by
    unfold calcCosDec
    rw [Real.cos_arcsin]
    exact sqrt_ivl _ 0.9174702 0.9174703 (by nlinarith [hq1, hq2]) (by nlinarith [hq1, hq2]) (by norm_num)
  obtain ⟨hc1, hc2⟩ := coszen_bounds
  obtain ⟨hd1, hd2, he1, he2⟩ := ang_105_2
  unfold calcCosH
  obtain ⟨hm1, hm2⟩ := mul_ivl_pos (calcSinDec 180 ⟨2024, 6, 21⟩ false) (Real.sin (TO_RAD * 52.5)) 0.3978043 0.3978045 0.7933523028 0.7933544286 ha1 ha2 hd1 hd2 (by norm_num) (by norm_num)
  obtain ⟨hn1, hn2⟩ := mul_ivl_pos (calcCosDec 180 ⟨2024, 6, 21⟩ false) (Real.cos (TO_RAD * 52.5)) 0.9174702 0.9174703 0.6087507708 0.6087717939 hb1 hb2 he1 he2 (by norm_num) (by norm_num)
  exact div_ivl _ _ (-0.3295622) (-0.3295611) 0.5585106 0.5585301 (-0.5900734) (-0.5900507) (by linarith only [hc1, hm1, hm2]) (by linarith only [hc2, hm1, hm2]) (by linarith only [hn1]) (by linarith only [hn2]) (by norm_num)

lemma S9_H : 8.4106274 ≤ calcH 52.5 180 ⟨2024, 6, 21⟩ false 90.8 ∧ calcH 52.5 180 ⟨2024, 6, 21⟩ false 90.8 ≤ 8.4108942 := by
  obtain ⟨h1, h2⟩ := S9_cosH
  obtain ⟨S9_aA_x1, S9_aA_x2⟩ := to_rad_shift_bounds 126.159411 1 0.6311006 0.6311009 (by norm_num)
  obtain ⟨S9_aA_s1, S9_aA_s2⟩ := sin_chain2 ((TO_RAD * 126.159411 - 1 * (π / 2))) 0.6311006 0.6311009 0.0700635 0.0700662 0.2088147 0.2088228 0.5900238 0.5900439 S9_aA_x1 S9_aA_x2 (by norm_num [sinChainCond2])
  obtain ⟨S9_aA_1, S9_aA_2⟩ : (-0.5900439) ≤ Real.cos (TO_RAD * 126.159411) ∧ Real.cos (TO_RAD * 126.159411) ≤ (-0.5900238) := by rw [cos_red1 (TO_RAD * 126.159411)]; constructor <;> linarith only [S9_aA_s1, S9_aA_s2]
  obtain ⟨S9_aB_x1, S9_aB_x2⟩ := to_rad_shift_bounds 126.163412 1 0.6311704 0.6311707 (by norm_num)
  obtain ⟨S9_aB_s1, S9_aB_s2⟩ := sin_chain2 ((TO_RAD * 126.163412 - 1 * (π / 2))) 0.6311704 0.6311707 0.0700712 0.0700739 0.2088374 0.2088454 0.59008 0.5900999 S9_aB_x1 S9_aB_x2 (by norm_num [sinChainCond2])
  obtain ⟨S9_aB_1, S9_aB_2⟩ : (-0.5900999) ≤ Real.cos (TO_RAD * 126.163412) ∧ Real.cos (TO_RAD * 126.163412) ≤ (-0.59008) := by rw [cos_red1 (TO_RAD * 126.163412)]; constructor <;> linarith only [S9_aB_s1, S9_aB_s2]
  have hbr := arccos_bracket (calcCosH 52.5 180 ⟨2024, 6, 21⟩ false 90.8) (TO_RAD * 126.159411) (TO_RAD * 126.163412) (by linarith only [h1]) (by linarith only [h2])
    (to_rad_nonneg _ (by norm_num)) (to_rad_mono _ _ (by norm_num)) (to_rad_le_pi _ (by norm_num))
    (by linarith only [S9_aB_2, h1]) (by linarith only [S9_aA_1, h2])
  obtain ⟨hk1, hk2⟩ := inv_to_rad_bounds (Real.arccos (calcCosH 52.5 180 ⟨2024, 6, 21⟩ false 90.8)) 126.159411 126.163412 hbr.1 hbr.2
  unfold calcH
  rw [if_neg Bool.false_ne_true]
  constructor <;> linarith only [hk1, hk2]

lemma S9_RA : 6.0367385 ≤ calcRA 180 ⟨2024, 6, 21⟩ false ∧ calcRA 180 ⟨2024, 6, 21⟩ false ≤ 6.0370053 := by
  obtain ⟨hL1, hL2⟩ := S9_L
  obtain ⟨hy1, hy2⟩ := to_rad_shift_bounds_of_le (calcL 180 ⟨2024, 6, 21⟩ false) 1 90.5075267 90.5075294 0.008858 0.0088581 hL1 hL2 (by norm_num)
  obtain ⟨S9_rs_s1, S9_rs_s2⟩ := sin_chain2 ((TO_RAD * calcL 180 ⟨2024, 6, 21⟩ false - 1 * (π / 2))) 0.008858 0.0088581 0.0009842 0.0009843 0.0029525 0.0029529 0.0088573 0.0088586 hy1 hy2 (by norm_num [sinChainCond2])
  obtain ⟨S9_rc_c1, S9_rc_c2⟩ := cos_chain2_pos ((TO_RAD * calcL 180 ⟨2024, 6, 21⟩ false - 1 * (π / 2))) 0.008858 0.0088581 0.0004921 0.0004922 0.0014762 0.0014766 0.0044285 0.0044298 0.9999607 0.9999608 hy1 hy2 (by norm_num [sinChainCond2])
  have htan : Real.tan (TO_RAD * calcL 180 ⟨2024, 6, 21⟩ false) = -(Real.cos (TO_RAD * calcL 180 ⟨2024, 6, 21⟩ false - 1 * (π / 2)) / Real.sin (TO_RAD * calcL 180 ⟨2024, 6, 21⟩ false - 1 * (π / 2))) := by
    conv_lhs => rw [show TO_RAD * calcL 180 ⟨2024, 6, 21⟩ false = (TO_RAD * calcL 180 ⟨2024, 6, 21⟩ false - 1 * (π / 2)) + π / 2 by ring]
    rw [tan_shift1, Real.tan_eq_sin_div_cos, inv_div]
  obtain ⟨hq1, hq2⟩ := div_ivl (Real.cos (TO_RAD * calcL 180 ⟨2024, 6, 21⟩ false - 1 * (π / 2))) (Real.sin (TO_RAD * calcL 180 ⟨2024, 6, 21⟩ false - 1 * (π / 2))) 0.9999607 0.9999608 0.0088573 0.0088586 112.880218 112.896797 S9_rc_c1 S9_rc_c2 S9_rs_s1 S9_rs_s2 (by norm_num)
  have hw1 : (-103.5986168) ≤ 0.91764 * Real.tan (TO_RAD * calcL 180 ⟨2024, 6, 21⟩ false) := by rw [htan]; linarith only [hq1, hq2]
  have hw2 : 0.91764 * Real.tan (TO_RAD * calcL 180 ⟨2024, 6, 21⟩ false) ≤ (-103.5834032) := by rw [htan]; linarith only [hq1, hq2]
  obtain ⟨S9_as_x1, S9_as_x2⟩ := to_rad_shift_bounds (-89.448922) (-1) 0.0096181 0.0096182 (by norm_num)
  obtain ⟨S9_as_c1, S9_as_c2⟩ := cos_chain2_pos ((TO_RAD * (-89.448922) - (-1) * (π / 2))) 0.0096181 0.0096182 0.0005343 0.0005344 0.0016028 0.0016032 0.0048083 0.0048096 0.9999537 0.9999538 S9_as_x1 S9_as_x2 (by norm_num [sinChainCond2])
  obtain ⟨S9_as_1, S9_as_2⟩ : (-0.9999538) ≤ Real.sin (TO_RAD * (-89.448922)) ∧ Real.sin (TO_RAD * (-89.448922)) ≤ (-0.9999537) := by rw [sin_red_m1 (TO_RAD * (-89.448922))]; constructor <;> linarith only [S9_as_c1, S9_as_c2]
  obtain ⟨S9_ac_x1, S9_ac_x2⟩ := to_rad_shift_bounds (-89.448922) (-1) 0.0096181 0.0096182 (by norm_num)
  obtain ⟨S9_ac_s1, S9_ac_s2⟩ := sin_chain2 ((TO_RAD * (-89.448922) - (-1) * (π / 2))) 0.0096181 0.0096182 0.0010686 0.0010687 0.0032057 0.0032061 0.0096169 0.0096182 S9_ac_x1 S9_ac_x2 (by norm_num [sinChainCond2])
  obtain ⟨S9_ac_1, S9_ac_2⟩ : 0.0096169 ≤ Real.cos (TO_RAD * (-89.448922)) ∧ Real.cos (TO_RAD * (-89.448922)) ≤ 0.0096182 := by rw [cos_red_m1 (TO_RAD * (-89.448922))]; exact ⟨S9_ac_s1, S9_ac_s2⟩
  obtain ⟨S9_bs_x1, S9_bs_x2⟩ := to_rad_shift_bounds (-89.444921) (-1) 0.0096879 0.009688 (by norm_num)
  obtain ⟨S9_bs_c1, S9_bs_c2⟩ := cos_chain2_pos ((TO_RAD * (-89.444921) - (-1) * (π / 2))) 0.0096879 0.009688 0.0005382 0.0005383 0.0016145 0.0016149 0.0048434 0.0048447 0.999953 0.9999531 S9_bs_x1 S9_bs_x2 (by norm_num [sinChainCond2])
  obtain ⟨S9_bs_1, S9_bs_2⟩ : (-0.9999531) ≤ Real.sin (TO_RAD * (-89.444921)) ∧ Real.sin (TO_RAD * (-89.444921)) ≤ (-0.999953) := by rw [sin_red_m1 (TO_RAD * (-89.444921))]; constructor <;> linarith only [S9_bs_c1, S9_bs_c2]
  obtain ⟨S9_bc_x1, S9_bc_x2⟩ := to_rad_shift_bounds (-89.444921) (-1) 0.0096879 0.009688 (by norm_num)
  obtain ⟨S9_bc_s1, S9_bc_s2⟩ := sin_chain2 ((TO_RAD * (-89.444921) - (-1) * (π / 2))) 0.0096879 0.009688 0.0010764 0.0010765 0.0032291 0.0032295 0.0096871 0.0096884 S9_bc_x1 S9_bc_x2 (by norm_num [sinChainCond2])
  obtain ⟨S9_bc_1, S9_bc_2⟩ : 0.0096871 ≤ Real.cos (TO_RAD * (-89.444921)) ∧ Real.cos (TO_RAD * (-89.444921)) ≤ 0.0096884 := by rw [cos_red_m1 (TO_RAD * (-89.444921))]; exact ⟨S9_bc_s1, S9_bc_s2⟩
  have hta : Real.tan (TO_RAD * (-89.448922)) ≤ (-103.9647439) := by
    rw [Real.tan_eq_sin_div_cos]
    exact (div_ivl (Real.sin (TO_RAD * (-89.448922))) (Real.cos (TO_RAD * (-89.448922))) (-0.9999538) (-0.9999537) 0.0096169 0.0096182 (-103.9788082) (-103.9647439) S9_as_1 S9_as_2 S9_ac_1 S9_ac_2 (by norm_num)).2
  have htb : (-103.2252274) ≤ Real.tan (TO_RAD * (-89.444921)) := by
    rw [Real.tan_eq_sin_div_cos]
    exact (div_ivl (Real.sin (TO_RAD * (-89.444921))) (Real.cos (TO_RAD * (-89.444921))) (-0.9999531) (-0.999953) 0.0096871 0.0096884 (-103.2252274) (-103.2113661) S9_bs_1 S9_bs_2 S9_bc_1 S9_bc_2 (by norm_num)).1
  have hbr := arctan_bracket (0.91764 * Real.tan (TO_RAD * calcL 180 ⟨2024, 6, 21⟩ false)) (TO_RAD * (-89.448922)) (TO_RAD * (-89.444921))
    (to_rad_gt_neg_half_pi _ (by norm_num)) (to_rad_mono _ _ (by norm_num)) (to_rad_lt_half_pi _ (by norm_num))
    (by linarith only [hta, hw1]) (by linarith only [htb, hw2])
  obtain ⟨hr1, hr2⟩ := inv_to_rad_bounds (Real.arctan (0.91764 * Real.tan (TO_RAD * calcL 180 ⟨2024, 6, 21⟩ false))) (-89.448922) (-89.444921) hbr.1 hbr.2
  have hfr : _force_range ((1 / TO_RAD) * Real.arctan (0.91764 * Real.tan (TO_RAD * calcL 180 ⟨2024, 6, 21⟩ false))) 360 = (1 / TO_RAD) * Real.arctan (0.91764 * Real.tan (TO_RAD * calcL 180 ⟨2024, 6, 21⟩ false)) + 360 := forceRange_neg _ 360 (by linarith only [hr2])
  have hLq : ⌊(calcL 180 ⟨2024, 6, 21⟩ false) / 90⌋ = 1 := floor_det _ 1 (by push_cast; linarith only [hL1]) (by push_cast; linarith only [hL2])
  have hRq : ⌊((1 / TO_RAD) * Real.arctan (0.91764 * Real.tan (TO_RAD * calcL 180 ⟨2024, 6, 21⟩ false)) + 360) / 90⌋ = 3 := floor_det _ 3 (by push_cast; linarith only [hr1]) (by push_cast; linarith only [hr2])
  rw [calcRA_def, hfr, hLq, hRq]
  constructor <;> (push_cast; linarith only [hr1, hr2])

lemma S9_UT : 8.4411084 ≤ calcUT 52.5 180 ⟨2024, 6, 21⟩ false 90.8 ∧ calcUT 52.5 180 ⟨2024, 6, 21⟩ false 90.8 ≤ 8.441642 := by
  have hN : calcN ⟨2024, 6, 21⟩ = 173 := by
    have h := calcN_eval 2024 6 21 183 1 506 0
      (floor_det _ 183 (by norm_num) (by norm_num))
      (floor_det _ 1 (by norm_num) (by norm_num))
      (floor_det _ 506 (by norm_num) (by norm_num))
      (floor_det _ 0 (by norm_num) (by norm_num))
    norm_num at h
    exact h
  have ht : calcT 180 ⟨2024, 6, 21⟩ false = 173.25 := by
    unfold calcT calcLngHour
    rw [hN]
    norm_num
  have hlng : calcLngHour 180 = 12 := by
    unfold calcLngHour
    norm_num
  obtain ⟨h1, h2⟩ := S9_H
  obtain ⟨h3, h4⟩ := S9_RA
  unfold calcUT
  rw [ht, hlng]
  rw [forceRange_neg (calcH 52.5 180 ⟨2024, 6, 21⟩ false 90.8 + calcRA 180 ⟨2024, 6, 21⟩ false - 0.06571 * 173.25 - 6.622 - 12) 24 (by linarith only [h1, h2, h3, h4])]
  constructor <;> linarith only [h1, h2, h3, h4]

lemma S9_result : _calc_sun_time 52.5 180 ⟨2024, 6, 21⟩ false 90.8 = .ok ⟨2024, 6, 21, 8, 26⟩ := by
  obtain ⟨h1, h2⟩ := S9_cosH
  obtain ⟨h3, h4⟩ := S9_UT
  exact calc_eval_ok _ _ _ _ _ 8 26 (by linarith only [h1]) (by linarith only [h2]) (by norm_num) (by norm_num)
    (by push_cast; linarith only [h3]) (by push_cast; linarith only [h4]) (by push_cast; linarith only [h3]) (by push_cast; linarith only [h4])
    (by norm_num) (by norm_num) (by decide)

lemma S11_L : 310.78532855 ≤ calcL 92.579 ⟨2023, 1, 31⟩ true ∧ calcL 92.579 ⟨2023, 1, 31⟩ true ≤ 310.78534157 := by
  have hN : calcN ⟨2023, 1, 31⟩ = 31 := by
    have h := calcN_eval 2023 1 31 30 0 505 1
      (floor_det _ 30 (by norm_num) (by norm_num))
      (floor_det _ 0 (by norm_num) (by norm_num))
      (floor_det _ 505 (by norm_num) (by norm_num))
      (floor_det _ 1 (by norm_num) (by norm_num))
    norm_num at h
    exact h
  have hM : calcM 92.579 ⟨2023, 1, 31⟩ true = (191654573 / 7031250) := by
    unfold calcM calcT calcLngHour
    rw [hN]
    norm_num
  obtain ⟨S11_sM_x1, S11_sM_x2⟩ := to_rad_val_bounds (191654573 / 7031250) 0.4757337 0.47573386 (by norm_num)
  obtain ⟨S11_sM_s1, S11_sM_s2⟩ := sin_chain2 (TO_RAD * (191654573 / 7031250)) 0.4757337 0.47573386 0.05283427 0.05283511 0.15791287 0.15791537 0.45798744 0.45799421 S11_sM_x1 S11_sM_x2 (by norm_num [sinChainCond2])
  obtain ⟨S11_s2_x1, S11_s2_x2⟩ := to_rad_shift_bounds (2 * (191654573 / 7031250)) 1 (-0.61932879) (-0.61932858) (by norm_num)
  obtain ⟨S11_s2_c1, S11_s2_c2⟩ := cos_chain2_neg ((TO_RAD * (2 * (191654573 / 7031250)) - 1 * (π / 2))) (-0.61932879) (-0.61932858) (-0.03440044) (-0.03440028) (-0.10303849) (-0.103038) (-0.30473967) (-0.30473825) 0.81426746 0.8142692 S11_s2_x1 S11_s2_x2 (by norm_num [sinChainCond2])
  obtain ⟨S11_s2_1, S11_s2_2⟩ : 0.81426746 ≤ Real.sin (TO_RAD * (2 * (191654573 / 7031250))) ∧ Real.sin (TO_RAD * (2 * (191654573 / 7031250))) ≤ 0.8142692 := by rw [sin_red1 (TO_RAD * (2 * (191654573 / 7031250)))]; exact ⟨S11_s2_c1, S11_s2_c2⟩
  unfold calcL
  rw [hM]
  rw [mul_assoc TO_RAD 2 (191654573 / 7031250)]
  rw [forceRange_id ((191654573 / 7031250) + 1.916 * Real.sin (TO_RAD * (191654573 / 7031250)) + 0.020 * Real.sin (TO_RAD * (2 * (191654573 / 7031250))) + 282.634) 360 (by linarith only [S11_sM_s1, S11_sM_s2, S11_s2_1, S11_s2_2]) (by linarith only [S11_sM_s1, S11_sM_s2, S11_s2_1, S11_s2_2])]
  constructor <;> linarith only [S11_sM_s1, S11_sM_s2, S11_s2_1, S11_s2_2]

lemma S11_cosH : (-0.01464223) ≤ calcCosH 0 92.579 ⟨2023, 1, 31⟩ true 90.8 ∧ calcCosH 0 92.579 ⟨2023, 1, 31⟩ true 90.8 ≤ (-0.0146422) := by
  obtain ⟨hL1, hL2⟩ := S11_L
  obtain ⟨S11_sL_x1, S11_sL_x2⟩ := to_rad_shift_bounds_of_le (calcL 92.579 ⟨2023, 1, 31⟩ true) 3 310.78532855 310.78534157 0.71183812 0.71183858 hL1 hL2 (by norm_num)
  obtain ⟨S11_sL_c1, S11_sL_c2⟩ := cos_chain2_pos ((TO_RAD * calcL 92.579 ⟨2023, 1, 31⟩ true - 3 * (π / 2))) 0.71183812 0.71183858 0.03953612 0.03953641 0.11836116 0.11836203 0.34845082 0.34845329 0.7571606 0.75716406 S11_sL_x1 S11_sL_x2 (by norm_num [sinChainCond2])
  obtain ⟨S11_sL_1, S11_sL_2⟩ : (-0.75716406) ≤ Real.sin (TO_RAD * calcL 92.579 ⟨2023, 1, 31⟩ true) ∧ Real.sin (TO_RAD * calcL 92.579 ⟨2023, 1, 31⟩ true) ≤ (-0.7571606) := by rw [sin_red3 (TO_RAD * calcL 92.579 ⟨2023, 1, 31⟩ true)]; constructor <;> linarith only [S11_sL_c1, S11_sL_c2]
  obtain ⟨ha1, ha2⟩ : (-0.30121501) ≤ calcSinDec 92.579 ⟨2023, 1, 31⟩ true ∧ calcSinDec 92.579 ⟨2023, 1, 31⟩ true ≤ (-0.30121362) := by
    unfold calcSinDec
    constructor <;> linarith only [S11_sL_1, S11_sL_2]
  obtain ⟨hq1, hq2⟩ := sq_bounds_of_neg (calcSinDec 92.579 ⟨2023, 1, 31⟩ true) (-0.30121501) (-0.30121362) ha1 ha2 (by norm_num)
  obtain ⟨hb1, hb2⟩ : 0.95355624 ≤ calcCosDec 92.579 ⟨2023, 1, 31⟩ true ∧ calcCosDec 92.579 ⟨2023, 1, 31⟩ true ≤ 0.95355669 := by
    unfold calcCosDec
    rw [Real.cos_arcsin]
    exact sqrt_ivl _ 0.95355624 0.95355669 (by nlinarith [hq1, hq2]) (by nlinarith [hq1, hq2]) (by norm_num)
  obtain ⟨hc1, hc2⟩ := coszen_bounds
  unfold calcCosH
  rw [mul_zero, Real.sin_zero, Real.cos_zero, mul_zero, mul_one, sub_zero]
  exact div_ivl _ _ (-0.0139621827) (-0.0139621769) 0.95355624 0.95355669 (-0.01464223) (-0.0146422) hc1 hc2 hb1 hb2 (by norm_num)

lemma S11_H : 17.94393546 ≤ calcH 0 92.579 ⟨2023, 1, 31⟩ true 90.8 ∧ calcH 0 92.579 ⟨2023, 1, 31⟩ true 90.8 ≤ 17.9442022 := by
  obtain ⟨h1, h2⟩ := S11_cosH
  obtain ⟨S11_aA_x1, S11_aA_x2⟩ := to_rad_shift_bounds 90.836967 1 0.01460782 0.01460784 (by norm_num)
  obtain ⟨S11_aA_s1, S11_aA_s2⟩ := sin_chain2 ((TO_RAD * 90.836967 - 1 * (π / 2))) 0.01460782 0.01460784 0.00162309 0.0016231 0.00486925 0.00486929 0.01460728 0.01460741 S11_aA_x1 S11_aA_x2 (by norm_num [sinChainCond2])
  obtain ⟨S11_aA_1, S11_aA_2⟩ : (-0.01460741) ≤ Real.cos (TO_RAD * 90.836967) ∧ Real.cos (TO_RAD * 90.836967) ≤ (-0.01460728) := by rw [cos_red1 (TO_RAD * 90.836967)]; constructor <;> linarith only [S11_aA_s1, S11_aA_s2]
  obtain ⟨S11_aB_x1, S11_aB_x2⟩ := to_rad_shift_bounds 90.840968 1 0.01467765 0.01467767 (by norm_num)
  obtain ⟨S11_aB_s1, S11_aB_s2⟩ := sin_chain2 ((TO_RAD * 90.840968 - 1 * (π / 2))) 0.01467765 0.01467767 0.00163084 0.00163086 0.0048925 0.00489257 0.01467703 0.01467725 S11_aB_x1 S11_aB_x2 (by norm_num [sinChainCond2])
  obtain ⟨S11_aB_1, S11_aB_2⟩ : (-0.01467725) ≤ Real.cos (TO_RAD * 90.840968) ∧ Real.cos (TO_RAD * 90.840968) ≤ (-0.01467703) := by rw [cos_red1 (TO_RAD * 90.840968)]; constructor <;> linarith only [S11_aB_s1, S11_aB_s2]
  have hbr := arccos_bracket (calcCosH 0 92.579 ⟨2023, 1, 31⟩ true 90.8) (TO_RAD * 90.836967) (TO_RAD * 90.840968) (by linarith only [h1]) (by linarith only [h2])
    (to_rad_nonneg _ (by norm_num)) (to_rad_mono _ _ (by norm_num)) (to_rad_le_pi _ (by norm_num))
    (by linarith only [S11_aB_2, h1]) (by linarith only [S11_aA_1, h2])
  obtain ⟨hk1, hk2⟩ := inv_to_rad_bounds (Real.arccos (calcCosH 0 92.579 ⟨2023, 1, 31⟩ true 90.8)) 90.836967 90.840968 hbr.1 hbr.2
  unfold calcH
  rw [if_pos rfl]
  constructor <;> linarith only [hk1, hk2]

lemma S11_RA : 20.88209646 ≤ calcRA 92.579 ⟨2023, 1, 31⟩ true ∧ calcRA 92.579 ⟨2023, 1, 31⟩ true ≤ 20.8823632 := by
  obtain ⟨hL1, hL2⟩ := S11_L
  obtain ⟨hy1, hy2⟩ := to_rad_shift_bounds_of_le (calcL 92.579 ⟨2023, 1, 31⟩ true) 3 310.78532855 310.78534157 0.71183812 0.71183858 hL1 hL2 (by norm_num)
  obtain ⟨S11_rs_s1, S11_rs_s2⟩ := sin_chain2 ((TO_RAD * calcL 92.579 ⟨2023, 1, 31⟩ true - 3 * (π / 2))) 0.71183812 0.71183858 0.07900862 0.07901275 0.23505305 0.23506514 0.65321248 0.65324074 hy1 hy2 (by norm_num [sinChainCond2])
  obtain ⟨S11_rc_c1, S11_rc_c2⟩ := cos_chain2_pos ((TO_RAD * calcL 92.579 ⟨2023, 1, 31⟩ true - 3 * (π / 2))) 0.71183812 0.71183858 0.03953612 0.03953641 0.11836116 0.11836203 0.34845082 0.34845329 0.7571606 0.75716406 hy1 hy2 (by norm_num [sinChainCond2])
  have htan : Real.tan (TO_RAD * calcL 92.579 ⟨2023, 1, 31⟩ true) = -(Real.cos (TO_RAD * calcL 92.579 ⟨2023, 1, 31⟩ true - 3 * (π / 2)) / Real.sin (TO_RAD * calcL 92.579 ⟨2023, 1, 31⟩ true - 3 * (π / 2))) := by
    conv_lhs => rw [show TO_RAD * calcL 92.579 ⟨2023, 1, 31⟩ true = (TO_RAD * calcL 92.579 ⟨2023, 1, 31⟩ true - 3 * (π / 2)) + 3 * (π / 2) by ring]
    rw [tan_shift3, Real.tan_eq_sin_div_cos, inv_div]
  obtain ⟨hq1, hq2⟩ := div_ivl (Real.cos (TO_RAD * calcL 92.579 ⟨2023, 1, 31⟩ true - 3 * (π / 2))) (Real.sin (TO_RAD * calcL 92.579 ⟨2023, 1, 31⟩ true - 3 * (π / 2))) 0.7571606 0.75716406 0.65321248 0.65324074 1.15908355 1.159139 S11_rc_c1 S11_rc_c2 S11_rs_s1 S11_rs_s2 (by norm_num)
  have hw1 : (-1.06367232) ≤ 0.91764 * Real.tan (TO_RAD * calcL 92.579 ⟨2023, 1, 31⟩ true) := by rw [htan]; linarith only [hq1, hq2]
  have hw2 : 0.91764 * Real.tan (TO_RAD * calcL 92.579 ⟨2023, 1, 31⟩ true) ≤ (-1.06362142) := by rw [htan]; linarith only [hq1, hq2]
  obtain ⟨S11_as_x1, S11_as_x2⟩ := to_rad_shift_bounds (-46.768553) (-1) 0.75453093 0.75453118 (by norm_num)
  obtain ⟨S11_as_c1, S11_as_c2⟩ := cos_chain2_pos ((TO_RAD * (-46.768553) - (-1) * (π / 2))) 0.75453093 0.75453118 0.04190594 0.04190629 0.12542345 0.1254245 0.36837818 0.36838114 0.72859067 0.72859504 S11_as_x1 S11_as_x2 (by norm_num [sinChainCond2])
  obtain ⟨S11_as_1, S11_as_2⟩ : (-0.72859504) ≤ Real.sin (TO_RAD * (-46.768553)) ∧ Real.sin (TO_RAD * (-46.768553)) ≤ (-0.72859067) := by rw [sin_red_m1 (TO_RAD * (-46.768553))]; constructor <;> linarith only [S11_as_c1, S11_as_c2]
  obtain ⟨S11_ac_x1, S11_ac_x2⟩ := to_rad_shift_bounds (-46.768553) (-1) 0.75453093 0.75453118 (by norm_num)
  obtain ⟨S11_ac_s1, S11_ac_s2⟩ := sin_chain2 ((TO_RAD * (-46.768553) - (-1) * (π / 2))) 0.75453093 0.75453118 0.08373598 0.08374117 0.2488594 0.24887455 0.68492975 0.68496395 S11_ac_x1 S11_ac_x2 (by norm_num [sinChainCond2])
  obtain ⟨S11_ac_1, S11_ac_2⟩ : 0.68492975 ≤ Real.cos (TO_RAD * (-46.768553)) ∧ Real.cos (TO_RAD * (-46.768553)) ≤ 0.68496395 := by rw [cos_red_m1 (TO_RAD * (-46.768553))]; exact ⟨S11_ac_s1, S11_ac_s2⟩
  obtain ⟨S11_bs_x1, S11_bs_x2⟩ := to_rad_shift_bounds (-46.764552) (-1) 0.75460076 0.75460101 (by norm_num)
  obtain ⟨S11_bs_c1, S11_bs_c2⟩ := cos_chain2_pos ((TO_RAD * (-46.764552) - (-1) * (π / 2))) 0.75460076 0.75460101 0.04190982 0.04191016 0.12543501 0.12543603 0.36841068 0.36841355 0.72854291 0.72854715 S11_bs_x1 S11_bs_x2 (by norm_num [sinChainCond2])
  obtain ⟨S11_bs_1, S11_bs_2⟩ : (-0.72854715) ≤ Real.sin (TO_RAD * (-46.764552)) ∧ Real.sin (TO_RAD * (-46.764552)) ≤ (-0.72854291) := by rw [sin_red_m1 (TO_RAD * (-46.764552))]; constructor <;> linarith only [S11_bs_c1, S11_bs_c2]
  obtain ⟨S11_bc_x1, S11_bc_x2⟩ := to_rad_shift_bounds (-46.764552) (-1) 0.75460076 0.75460101 (by norm_num)
  obtain ⟨S11_bc_s1, S11_bc_s2⟩ := sin_chain2 ((TO_RAD * (-46.764552) - (-1) * (π / 2))) 0.75460076 0.75460101 0.08374371 0.0837489 0.24888194 0.24889709 0.68498062 0.68501481 S11_bc_x1 S11_bc_x2 (by norm_num [sinChainCond2])
  obtain ⟨S11_bc_1, S11_bc_2⟩ : 0.68498062 ≤ Real.cos (TO_RAD * (-46.764552)) ∧ Real.cos (TO_RAD * (-46.764552)) ≤ 0.68501481 := by rw [cos_red_m1 (TO_RAD * (-46.764552))]; exact ⟨S11_bc_s1, S11_bc_s2⟩
  have hta : Real.tan (TO_RAD * (-46.768553)) ≤ (-1.06369199) := by
    rw [Real.tan_eq_sin_div_cos]
    exact (div_ivl (Real.sin (TO_RAD * (-46.768553))) (Real.cos (TO_RAD * (-46.768553))) (-0.72859504) (-0.72859067) 0.68492975 0.68496395 (-1.06375149) (-1.06369199) S11_as_1 S11_as_2 S11_ac_1 S11_ac_2 (by norm_num)).2
  have htb : (-1.06360258) ≤ Real.tan (TO_RAD * (-46.764552)) := by
    rw [Real.tan_eq_sin_div_cos]
    exact (div_ivl (Real.sin (TO_RAD * (-46.764552))) (Real.cos (TO_RAD * (-46.764552))) (-0.72854715) (-0.72854291) 0.68498062 0.68501481 (-1.06360258) (-1.06354329) S11_bs_1 S11_bs_2 S11_bc_1 S11_bc_2 (by norm_num)).1
  have hbr := arctan_bracket (0.91764 * Real.tan (TO_RAD * calcL 92.579 ⟨2023, 1, 31⟩ true)) (TO_RAD * (-46.768553)) (TO_RAD * (-46.764552))
    (to_rad_gt_neg_half_pi _ (by norm_num)) (to_rad_mono _ _ (by norm_num)) (to_rad_lt_half_pi _ (by norm_num))
    (by linarith only [hta, hw1]) (by linarith only [htb, hw2])
  obtain ⟨hr1, hr2⟩ := inv_to_rad_bounds (Real.arctan (0.91764 * Real.tan (TO_RAD * calcL 92.579 ⟨2023, 1, 31⟩ true))) (-46.768553) (-46.764552) hbr.1 hbr.2
  have hfr : _force_range ((1 / TO_RAD) * Real.arctan (0.91764 * Real.tan (TO_RAD * calcL 92.579 ⟨2023, 1, 31⟩ true))) 360 = (1 / TO_RAD) * Real.arctan (0.91764 * Real.tan (TO_RAD * calcL 92.579 ⟨2023, 1, 31⟩ true)) + 360 := forceRange_neg _ 360 (by linarith only [hr2])
  have hLq : ⌊(calcL 92.579 ⟨2023, 1, 31⟩ true) / 90⌋ = 3 := floor_det _ 3 (by push_cast; linarith only [hL1]) (by push_cast; linarith only [hL2])
  have hRq : ⌊((1 / TO_RAD) * Real.arctan (0.91764 * Real.tan (TO_RAD * calcL 92.579 ⟨2023, 1, 31⟩ true)) + 360) / 90⌋ = 3 := floor_det _ 3 (by push_cast; linarith only [hr1]) (by push_cast; linarith only [hr2])
  rw [calcRA_def, hfr, hLq, hRq]
  constructor <;> (push_cast; linarith only [hr1, hr2])

lemma S11_UT : 23.99555932 ≤ calcUT 0 92.579 ⟨2023, 1, 31⟩ true 90.8 ∧ calcUT 0 92.579 ⟨2023, 1, 31⟩ true 90.8 ≤ 23.99609281 := by
  have hN : calcN ⟨2023, 1, 31⟩ = 31 := by
    have h := calcN_eval 2023 1 31 30 0 505 1
      (floor_det _ 30 (by norm_num) (by norm_num))
      (floor_det _ 0 (by norm_num) (by norm_num))
      (floor_det _ 505 (by norm_num) (by norm_num))
      (floor_det _ 1 (by norm_num) (by norm_num))
    norm_num at h
    exact h
  have ht : calcT 92.579 ⟨2023, 1, 31⟩ true = (11157421 / 360000) := by
    unfold calcT calcLngHour
    rw [hN]
    norm_num
  have hlng : calcLngHour 92.579 = (92579 / 15000) := by
    unfold calcLngHour
    norm_num
  obtain ⟨h1, h2⟩ := S11_H
  obtain ⟨h3, h4⟩ := S11_RA
  unfold calcUT
  rw [ht, hlng]
  rw [forceRange_id (calcH 0 92.579 ⟨2023, 1, 31⟩ true 90.8 + calcRA 92.579 ⟨2023, 1, 31⟩ true - 0.06571 * (11157421 / 360000) - 6.622 - (92579 / 15000)) 24 (by linarith only [h1, h2, h3, h4]) (by linarith only [h1, h2, h3, h4])]
  constructor <;> linarith only [h1, h2, h3, h4]

lemma S11_result : _calc_sun_time 0 92.579 ⟨2023, 1, 31⟩ true 90.8 = .invalidDate := by
  obtain ⟨h1, h2⟩ := S11_cosH
  obtain ⟨h3, h4⟩ := S11_UT
  exact calc_eval_rollover _ _ _ _ _ (by linarith only [h1]) (by linarith only [h2])
    (by linarith only [h3]) (by linarith only [h4]) (by linarith only [h3]) (by decide)

lemma S12_L : 10.94409566 ≤ calcL (-88.092) ⟨2023, 3, 31⟩ false ∧ calcL (-88.092) ⟨2023, 3, 31⟩ false ≤ 10.94409571 := by
  have hN : calcN ⟨2023, 3, 31⟩ = 90 := by
    have h := calcN_eval 2023 3 31 91 1 505 1
      (floor_det _ 91 (by norm_num) (by norm_num))
      (floor_det _ 1 (by norm_num) (by norm_num))
      (floor_det _ 505 (by norm_num) (by norm_num))
      (floor_det _ 1 (by norm_num) (by norm_num))
    norm_num at h
    exact h
  have hM : calcM (-88.092) ⟨2023, 3, 31⟩ false = 86.39537632 := by
    unfold calcM calcT calcLngHour
    rw [hN]
    norm_num
  obtain ⟨S12_sM_x1, S12_sM_x2⟩ := to_rad_shift_bounds 86.39537632 1 (-0.06291256) (-0.06291253) (by norm_num)
  obtain ⟨S12_sM_c1, S12_sM_c2⟩ := cos_chain2_neg ((TO_RAD * 86.39537632 - 1 * (π / 2))) (-0.06291256) (-0.06291253) (-0.00349514) (-0.00349513) (-0.01048525) (-0.01048521) (-0.03145114) (-0.03145101) 0.99802165 0.99802167 S12_sM_x1 S12_sM_x2 (by norm_num [sinChainCond2])
  obtain ⟨S12_sM_1, S12_sM_2⟩ : 0.99802165 ≤ Real.sin (TO_RAD * 86.39537632) ∧ Real.sin (TO_RAD * 86.39537632) ≤ 0.99802167 := by rw [sin_red1 (TO_RAD * 86.39537632)]; exact ⟨S12_sM_c1, S12_sM_c2⟩
  obtain ⟨S12_s2_x1, S12_s2_x2⟩ := to_rad_shift_bounds (2 * 86.39537632) 2 (-0.12582512) (-0.12582507) (by norm_num)
  obtain ⟨S12_s2_s1, S12_s2_s2⟩ := sin_chain2 ((TO_RAD * (2 * 86.39537632) - 2 * (π / 2))) (-0.12582512) (-0.12582507) (-0.01398012) (-0.0139801) (-0.04192944) (-0.04192937) (-0.12549346) (-0.12549325) S12_s2_x1 S12_s2_x2 (by norm_num [sinChainCond2])
  obtain ⟨S12_s2_1, S12_s2_2⟩ : 0.12549325 ≤ Real.sin (TO_RAD * (2 * 86.39537632)) ∧ Real.sin (TO_RAD * (2 * 86.39537632)) ≤ 0.12549346 := by rw [sin_red2 (TO_RAD * (2 * 86.39537632))]; constructor <;> linarith only [S12_s2_s1, S12_s2_s2]
  unfold calcL
  rw [hM]
  rw [mul_assoc TO_RAD 2 86.39537632]
  rw [forceRange_wrap (86.39537632 + 1.916 * Real.sin (TO_RAD * 86.39537632) + 0.020 * Real.sin (TO_RAD * (2 * 86.39537632)) + 282.634) 360 (by norm_num) (by linarith only [S12_sM_1, S12_sM_2, S12_s2_1, S12_s2_2])]
  constructor <;> linarith only [S12_sM_1, S12_sM_2, S12_s2_1, S12_s2_2]

lemma S12_cosH : (-0.01400218) ≤ calcCosH 0 (-88.092) ⟨2023, 3, 31⟩ false 90.8 ∧ calcCosH 0 (-88.092) ⟨2023, 3, 31⟩ false 90.8 ≤ (-0.01400216) := by
  obtain ⟨hL1, hL2⟩ := S12_L
  obtain ⟨S12_sL_x1, S12_sL_x2⟩ := to_rad_val_bounds_of_le (calcL (-88.092) ⟨2023, 3, 31⟩ false) 10.94409566 10.94409571 0.19101046 0.19101053 hL1 hL2 (by norm_num)
  obtain ⟨S12_sL_s1, S12_sL_s2⟩ := sin_chain2 (TO_RAD * calcL (-88.092) ⟨2023, 3, 31⟩ false) 0.19101046 0.19101053 0.02122178 0.02122181 0.0636271 0.0636272 0.18985094 0.18985125 S12_sL_x1 S12_sL_x2 (by norm_num [sinChainCond2])
  obtain ⟨ha1, ha2⟩ : 0.0755265 ≤ calcSinDec (-88.092) ⟨2023, 3, 31⟩ false ∧ calcSinDec (-88.092) ⟨2023, 3, 31⟩ false ≤ 0.07552663 := by
    unfold calcSinDec
    constructor <;> linarith only [S12_sL_s1, S12_sL_s2]
  obtain ⟨hq1, hq2⟩ := sq_bounds_of_pos (calcSinDec (-88.092) ⟨2023, 3, 31⟩ false) 0.0755265 0.07552663 ha1 ha2 (by norm_num)
  obtain ⟨hb1, hb2⟩ : 0.99714378 ≤ calcCosDec (-88.092) ⟨2023, 3, 31⟩ false ∧ calcCosDec (-88.092) ⟨2023, 3, 31⟩ false ≤ 0.9971438 := by
    unfold calcCosDec
    rw [Real.cos_arcsin]
    exact sqrt_ivl _ 0.99714378 0.9971438 (by nlinarith [hq1, hq2]) (by nlinarith [hq1, hq2]) (by norm_num)
  obtain ⟨hc1, hc2⟩ := coszen_bounds
  unfold calcCosH
  rw [mul_zero, Real.sin_zero, Real.cos_zero, mul_zero, mul_one, sub_zero]
  exact div_ivl _ _ (-0.0139621827) (-0.0139621769) 0.99714378 0.9971438 (-0.01400218) (-0.01400216) hc1 hc2 hb1 hb2 (by norm_num)

lemma S12_H : 6.05335273 ≤ calcH 0 (-88.092) ⟨2023, 3, 31⟩ false 90.8 ∧ calcH 0 (-88.092) ⟨2023, 3, 31⟩ false 90.8 ≤ 6.05361947 := by
  obtain ⟨h1, h2⟩ := S12_cosH
  obtain ⟨S12_aA_x1, S12_aA_x2⟩ := to_rad_shift_bounds 90.800291 1 0.01396771 0.01396772 (by norm_num)
  obtain ⟨S12_aA_s1, S12_aA_s2⟩ := sin_chain2 ((TO_RAD * 90.800291 - 1 * (π / 2))) 0.01396771 0.01396772 0.00155196 0.00155197 0.00465586 0.0046559 0.01396717 0.0139673 S12_aA_x1 S12_aA_x2 (by norm_num [sinChainCond2])
  obtain ⟨S12_aA_1, S12_aA_2⟩ : (-0.0139673) ≤ Real.cos (TO_RAD * 90.800291) ∧ Real.cos (TO_RAD * 90.800291) ≤ (-0.01396717) := by rw [cos_red1 (TO_RAD * 90.800291)]; constructor <;> linarith only [S12_aA_s1, S12_aA_s2]
  obtain ⟨S12_aB_x1, S12_aB_x2⟩ := to_rad_shift_bounds 90.804292 1 0.01403754 0.01403755 (by norm_num)
  obtain ⟨S12_aB_s1, S12_aB_s2⟩ := sin_chain2 ((TO_RAD * 90.804292 - 1 * (π / 2))) 0.01403754 0.01403755 0.00155972 0.00155973 0.00467914 0.00467918 0.01403701 0.01403714 S12_aB_x1 S12_aB_x2 (by norm_num [sinChainCond2])
  obtain ⟨S12_aB_1, S12_aB_2⟩ : (-0.01403714) ≤ Real.cos (TO_RAD * 90.804292) ∧ Real.cos (TO_RAD * 90.804292) ≤ (-0.01403701) := by rw [cos_red1 (TO_RAD * 90.804292)]; constructor <;> linarith only [S12_aB_s1, S12_aB_s2]
  have hbr := arccos_bracket (calcCosH 0 (-88.092) ⟨2023, 3, 31⟩ false 90.8) (TO_RAD * 90.800291) (TO_RAD * 90.804292) (by linarith only [h1]) (by linarith only [h2])
    (to_rad_nonneg _ (by norm_num)) (to_rad_mono _ _ (by norm_num)) (to_rad_le_pi _ (by norm_num))
    (by linarith only [S12_aB_2, h1]) (by linarith only [S12_aA_1, h2])
  obtain ⟨hk1, hk2⟩ := inv_to_rad_bounds (Real.arccos (calcCosH 0 (-88.092) ⟨2023, 3, 31⟩ false 90.8)) 90.800291 90.804292 hbr.1 hbr.2
  unfold calcH
  rw [if_neg Bool.false_ne_true]
  constructor <;> linarith only [hk1, hk2]

lemma S12_RA : 0.6706636 ≤ calcRA (-88.092) ⟨2023, 3, 31⟩ false ∧ calcRA (-88.092) ⟨2023, 3, 31⟩ false ≤ 0.67093034 := by
  obtain ⟨hL1, hL2⟩ := S12_L
  obtain ⟨hy1, hy2⟩ := to_rad_val_bounds_of_le (calcL (-88.092) ⟨2023, 3, 31⟩ false) 10.94409566 10.94409571 0.19101046 0.19101053 hL1 hL2 (by norm_num)
  obtain ⟨S12_rs_s1, S12_rs_s2⟩ := sin_chain2 ((TO_RAD * calcL (-88.092) ⟨2023, 3, 31⟩ false)) 0.19101046 0.19101053 0.02122178 0.02122181 0.0636271 0.0636272 0.18985094 0.18985125 hy1 hy2 (by norm_num [sinChainCond2])
  obtain ⟨S12_rc_c1, S12_rc_c2⟩ := cos_chain2_pos ((TO_RAD * calcL (-88.092) ⟨2023, 3, 31⟩ false)) 0.19101046 0.19101053 0.01061149 0.0106115 0.03182969 0.03182973 0.09536007 0.0953602 0.98181286 0.98181292 hy1 hy2 (by norm_num [sinChainCond2])
  have htan : Real.tan (TO_RAD * calcL (-88.092) ⟨2023, 3, 31⟩ false) = Real.sin (TO_RAD * calcL (-88.092) ⟨2023, 3, 31⟩ false) / Real.cos (TO_RAD * calcL (-88.092) ⟨2023, 3, 31⟩ false) := Real.tan_eq_sin_div_cos _
  obtain ⟨hq1, hq2⟩ := div_ivl (Real.sin (TO_RAD * calcL (-88.092) ⟨2023, 3, 31⟩ false)) (Real.cos (TO_RAD * calcL (-88.092) ⟨2023, 3, 31⟩ false)) 0.18985094 0.18985125 0.98181286 0.98181292 0.19336773 0.19336807 S12_rs_s1 S12_rs_s2 S12_rc_c1 S12_rc_c2 (by norm_num)
  have hw1 : 0.17744196 ≤ 0.91764 * Real.tan (TO_RAD * calcL (-88.092) ⟨2023, 3, 31⟩ false) := by rw [htan]; linarith only [hq1, hq2]
  have hw2 : 0.91764 * Real.tan (TO_RAD * calcL (-88.092) ⟨2023, 3, 31⟩ false) ≤ 0.17744228 := by rw [htan]; linarith only [hq1, hq2]
  obtain ⟨S12_as_x1, S12_as_x2⟩ := to_rad_val_bounds 10.059954 0.17557928 0.17557934 (by norm_num)
  obtain ⟨S12_as_s1, S12_as_s2⟩ := sin_chain2 (TO_RAD * 10.059954) 0.17557928 0.17557934 0.01950756 0.01950759 0.05849298 0.05849308 0.17467842 0.17467872 S12_as_x1 S12_as_x2 (by norm_num [sinChainCond2])
  obtain ⟨S12_ac_x1, S12_ac_x2⟩ := to_rad_val_bounds 10.059954 0.17557928 0.17557934 (by norm_num)
  obtain ⟨S12_ac_c1, S12_ac_c2⟩ := cos_chain2_pos (TO_RAD * 10.059954) 0.17557928 0.17557934 0.00975424 0.00975426 0.029259 0.02925907 0.0876768 0.08767702 0.98462548 0.98462556 S12_ac_x1 S12_ac_x2 (by norm_num [sinChainCond2])
  obtain ⟨S12_bs_x1, S12_bs_x2⟩ := to_rad_val_bounds 10.063955 0.17564911 0.17564917 (by norm_num)
  obtain ⟨S12_bs_s1, S12_bs_s2⟩ := sin_chain2 (TO_RAD * 10.063955) 0.17564911 0.17564917 0.01951532 0.01951535 0.05851623 0.05851633 0.17474721 0.17474752 S12_bs_x1 S12_bs_x2 (by norm_num [sinChainCond2])
  obtain ⟨S12_bc_x1, S12_bc_x2⟩ := to_rad_val_bounds 10.063955 0.17564911 0.17564917 (by norm_num)
  obtain ⟨S12_bc_c1, S12_bc_c2⟩ := cos_chain2_pos (TO_RAD * 10.063955) 0.17564911 0.17564917 0.00975812 0.00975814 0.02927064 0.02927071 0.0877116 0.08771182 0.98461327 0.98461336 S12_bc_x1 S12_bc_x2 (by norm_num [sinChainCond2])
  have hta : Real.tan (TO_RAD * 10.059954) ≤ 0.17740626 := by
    rw [Real.tan_eq_sin_div_cos]
    exact (div_ivl (Real.sin (TO_RAD * 10.059954)) (Real.cos (TO_RAD * 10.059954)) 0.17467842 0.17467872 0.98462548 0.98462556 0.17740593 0.17740626 S12_as_s1 S12_as_s2 S12_ac_c1 S12_ac_c2 (by norm_num)).2
  have htb : 0.177478 ≤ Real.tan (TO_RAD * 10.063955) := by
    rw [Real.tan_eq_sin_div_cos]
    exact (div_ivl (Real.sin (TO_RAD * 10.063955)) (Real.cos (TO_RAD * 10.063955)) 0.17474721 0.17474752 0.98461327 0.98461336 0.177478 0.17747834 S12_bs_s1 S12_bs_s2 S12_bc_c1 S12_bc_c2 (by norm_num)).1
  have hbr := arctan_bracket (0.91764 * Real.tan (TO_RAD * calcL (-88.092) ⟨2023, 3, 31⟩ false)) (TO_RAD * 10.059954) (TO_RAD * 10.063955)
    (to_rad_gt_neg_half_pi _ (by norm_num)) (to_rad_mono _ _ (by norm_num)) (to_rad_lt_half_pi _ (by norm_num))
    (by linarith only [hta, hw1]) (by linarith only [htb, hw2])
  obtain ⟨hr1, hr2⟩ := inv_to_rad_bounds (Real.arctan (0.91764 * Real.tan (TO_RAD * calcL (-88.092) ⟨2023, 3, 31⟩ false))) 10.059954 10.063955 hbr.1 hbr.2
  have hfr : _force_range ((1 / TO_RAD) * Real.arctan (0.91764 * Real.tan (TO_RAD * calcL (-88.092) ⟨2023, 3, 31⟩ false))) 360 = (1 / TO_RAD) * Real.arctan (0.91764 * Real.tan (TO_RAD * calcL (-88.092) ⟨2023, 3, 31⟩ false)) := forceRange_id _ 360 (by linarith only [hr1]) (by linarith only [hr2])
  have hLq : ⌊(calcL (-88.092) ⟨2023, 3, 31⟩ false) / 90⌋ = 0 := floor_det _ 0 (by push_cast; linarith only [hL1]) (by push_cast; linarith only [hL2])
  have hRq : ⌊(1 / TO_RAD) * Real.arctan (0.91764 * Real.tan (TO_RAD * calcL (-88.092) ⟨2023, 3, 31⟩ false)) / 90⌋ = 0 := floor_det _ 0 (by push_cast; linarith only [hr1]) (by push_cast; linarith only [hr2])
  rw [calcRA_def, hfr, hLq, hRq]
  constructor <;> (push_cast; linarith only [hr1, hr2])

lemma S12_UT : 23.99555459 ≤ calcUT 0 (-88.092) ⟨2023, 3, 31⟩ false 90.8 ∧ calcUT 0 (-88.092) ⟨2023, 3, 31⟩ false 90.8 ≤ 23.99608808 := by
  have hN : calcN ⟨2023, 3, 31⟩ = 90 := by
    have h := calcN_eval 2023 3 31 91 1 505 1
      (floor_det _ 91 (by norm_num) (by norm_num))
      (floor_det _ 1 (by norm_num) (by norm_num))
      (floor_det _ 505 (by norm_num) (by norm_num))
      (floor_det _ 1 (by norm_num) (by norm_num))
    norm_num at h
    exact h
  have ht : calcT (-88.092) ⟨2023, 3, 31⟩ false = 90.9947 := by
    unfold calcT calcLngHour
    rw [hN]
    norm_num
  have hlng : calcLngHour (-88.092) = (-5.8728) := by
    unfold calcLngHour
    norm_num
  obtain ⟨h1, h2⟩ := S12_H
  obtain ⟨h3, h4⟩ := S12_RA
  unfold calcUT
  rw [ht, hlng]
  rw [forceRange_neg (calcH 0 (-88.092) ⟨2023, 3, 31⟩ false 90.8 + calcRA (-88.092) ⟨2023, 3, 31⟩ false - 0.06571 * 90.9947 - 6.622 - (-5.8728)) 24 (by linarith only [h1, h2, h3, h4])]
  constructor <;> linarith only [h1, h2, h3, h4]

lemma S12_result : _calc_sun_time 0 (-88.092) ⟨2023, 3, 31⟩ false 90.8 = .invalidDate := by
  obtain ⟨h1, h2⟩ := S12_cosH
  obtain ⟨h3, h4⟩ := S12_UT
  exact calc_eval_rollover _ _ _ _ _ (by linarith only [h1]) (by linarith only [h2])
    (by linarith only [h3]) (by linarith only [h4]) (by linarith only [h3]) (by decide)

lemma S13_L : 357.9883989067 ≤ calcL 119.75 ⟨2023, 3, 19⟩ true ∧ calcL 119.75 ⟨2023, 3, 19⟩ true ≤ 357.9883992932 := by
  have hN : calcN ⟨2023, 3, 19⟩ = 78 := by
    have h := calcN_eval 2023 3 19 91 1 505 1
      (floor_det _ 91 (by norm_num) (by norm_num))
      (floor_det _ 1 (by norm_num) (by norm_num))
      (floor_det _ 505 (by norm_num) (by norm_num))
      (floor_det _ 1 (by norm_num) (by norm_num))
    norm_num at h
    exact h
  have hM : calcM 119.75 ⟨2023, 3, 19⟩ true = (16538929 / 225000) := by
    unfold calcM calcT calcLngHour
    rw [hN]
    norm_num
  obtain ⟨S13_sM_x1, S13_sM_x2⟩ := to_rad_shift_bounds (16538929 / 225000) 1 (-0.2878685106) (-0.2878684188) (by norm_num)
  obtain ⟨S13_sM_c1, S13_sM_c2⟩ := cos_chain2_neg ((TO_RAD * (16538929 / 225000) - 1 * (π / 2))) (-0.2878685106) (-0.2878684188) (-0.0159920168) (-0.0159920047) (-0.047959691) (-0.0479596546) (-0.1434378186) (-0.1434377103) 0.9588511843 0.9588512466 S13_sM_x1 S13_sM_x2 (by norm_num [sinChainCond2])
  obtain ⟨S13_sM_1, S13_sM_2⟩ : 0.9588511843 ≤ Real.sin (TO_RAD * (16538929 / 225000)) ∧ Real.sin (TO_RAD * (16538929 / 225000)) ≤ 0.9588512466 := by rw [sin_red1 (TO_RAD * (16538929 / 225000))]; exact ⟨S13_sM_c1, S13_sM_c2⟩
  obtain ⟨S13_s2_x1, S13_s2_x2⟩ := to_rad_shift_bounds (2 * (16538929 / 225000)) 2 (-0.5757370211) (-0.5757368377) (by norm_num)
  obtain ⟨S13_s2_s1, S13_s2_s2⟩ := sin_chain2 ((TO_RAD * (2 * (16538929 / 225000)) - 2 * (π / 2))) (-0.5757370211) (-0.5757368377) (-0.0639280215) (-0.0639262567) (-0.1907390225) (-0.1907338145) (-0.5444596762) (-0.5444463257) S13_s2_x1 S13_s2_x2 (by norm_num [sinChainCond2])
  obtain ⟨S13_s2_1, S13_s2_2⟩ : 0.5444463257 ≤ Real.sin (TO_RAD * (2 * (16538929 / 225000))) ∧ Real.sin (TO_RAD * (2 * (16538929 / 225000))) ≤ 0.5444596762 := by rw [sin_red2 (TO_RAD * (2 * (16538929 / 225000)))]; constructor <;> linarith only [S13_s2_s1, S13_s2_s2]
  unfold calcL
  rw [hM]
  rw [mul_assoc TO_RAD 2 (16538929 / 225000)]
  rw [forceRange_id ((16538929 / 225000) + 1.916 * Real.sin (TO_RAD * (16538929 / 225000)) + 0.020 * Real.sin (TO_RAD * (2 * (16538929 / 225000))) + 282.634) 360 (by linarith only [S13_sM_1, S13_sM_2, S13_s2_1, S13_s2_2]) (by linarith only [S13_sM_1, S13_sM_2, S13_s2_1, S13_s2_2])]
  constructor <;> linarith only [S13_sM_1, S13_sM_2, S13_s2_1, S13_s2_2]

lemma S13_cosH : 0.0011506116 ≤ calcCosH 89.9 119.75 ⟨2023, 3, 19⟩ true 90.8 ∧ calcCosH 89.9 119.75 ⟨2023, 3, 19⟩ true 90.8 ≤ 0.001158463 := by
  obtain ⟨hL1, hL2⟩ := S13_L
  obtain ⟨S13_sL_x1, S13_sL_x2⟩ := to_rad_shift_bounds_of_le (calcL 119.75 ⟨2023, 3, 19⟩ true) 4 357.9883989067 357.9883992932 (-0.0351090662) (-0.0351090482) hL1 hL2 (by norm_num)
  obtain ⟨S13_sL_s1, S13_sL_s2⟩ := sin_chain2 ((TO_RAD * calcL 119.75 ⟨2023, 3, 19⟩ true - 4 * (π / 2))) (-0.0351090662) (-0.0351090482) (-0.0039009975) (-0.0039009954) (-0.0117027551) (-0.0117027487) (-0.0351018544) (-0.0351018351) S13_sL_x1 S13_sL_x2 (by norm_num [sinChainCond2])
  obtain ⟨S13_sL_1, S13_sL_2⟩ : (-0.0351018544) ≤ Real.sin (TO_RAD * calcL 119.75 ⟨2023, 3, 19⟩ true) ∧ Real.sin (TO_RAD * calcL 119.75 ⟨2023, 3, 19⟩ true) ≤ (-0.0351018351) := by rw [sin_red4 (TO_RAD * calcL 119.75 ⟨2023, 3, 19⟩ true)]; exact ⟨S13_sL_s1, S13_sL_s2⟩
  obtain ⟨ha1, ha2⟩ : (-0.0139642198) ≤ calcSinDec 119.75 ⟨2023, 3, 19⟩ true ∧ calcSinDec 119.75 ⟨2023, 3, 19⟩ true ≤ (-0.013964212) := by
    unfold calcSinDec
    constructor <;> linarith only [S13_sL_1, S13_sL_2]
  obtain ⟨hq1, hq2⟩ := sq_bounds_of_neg (calcSinDec 119.75 ⟨2023, 3, 19⟩ true) (-0.0139642198) (-0.013964212) ha1 ha2 (by norm_num)
  obtain ⟨hb1, hb2⟩ : 0.9999024955 ≤ calcCosDec 119.75 ⟨2023, 3, 19⟩ true ∧ calcCosDec 119.75 ⟨2023, 3, 19⟩ true ≤ 0.9999024957 := by
    unfold calcCosDec
    rw [Real.cos_arcsin]
    exact sqrt_ivl _ 0.9999024955 0.9999024957 (by nlinarith [hq1, hq2]) (by nlinarith [hq1, hq2]) (by norm_num)
  obtain ⟨hc1, hc2⟩ := coszen_bounds
  obtain ⟨hd1, hd2, he1, he2⟩ := ang_899_10
  unfold calcCosH
  obtain ⟨hm1, hm2⟩ := mul_ivl_negpos (calcSinDec 119.75 ⟨2023, 3, 19⟩ true) (Real.sin (TO_RAD * 89.9)) (-0.0139642198) (-0.013964212) 0.9999984769 0.999998477 ha1 ha2 hd1 hd2 (by linarith only [ha2]) (by norm_num)
  obtain ⟨hn1, hn2⟩ := mul_ivl_pos (calcCosDec 119.75 ⟨2023, 3, 19⟩ true) (Real.cos (TO_RAD * 89.9)) 0.9999024955 0.9999024957 0.0017453275 0.0017453288 hb1 hb2 he1 he2 (by norm_num) (by norm_num)
  exact div_ivl _ _ 0.000002008 0.0000020217 0.0017451573 0.0017451587 0.0011506116 0.001158463 (by linarith only [hc1, hm1, hm2]) (by linarith only [hc2, hm1, hm2]) (by linarith only [hn1]) (by linarith only [hn2]) (by norm_num)

lemma S13_H : 18.0042766666 ≤ calcH 89.9 119.75 ⟨2023, 3, 19⟩ true 90.8 ∧ calcH 89.9 119.75 ⟨2023, 3, 19⟩ true 90.8 ≤ 18.0045434 := by
  obtain ⟨h1, h2⟩ := S13_cosH
  obtain ⟨S13_aA_x1, S13_aA_x2⟩ := to_rad_shift_bounds 89.931849 1 (-0.0011894595) (-0.001189459) (by norm_num)
  obtain ⟨S13_aA_s1, S13_aA_s2⟩ := sin_chain2 ((TO_RAD * 89.931849 - 1 * (π / 2))) (-0.0011894595) (-0.001189459) (-0.0001321622) (-0.0001321621) (-0.0003964866) (-0.0003964862) (-0.0011894596) (-0.0011894583) S13_aA_x1 S13_aA_x2 (by norm_num [sinChainCond2])
  obtain ⟨S13_aA_1, S13_aA_2⟩ : 0.0011894583 ≤ Real.cos (TO_RAD * 89.931849) ∧ Real.cos (TO_RAD * 89.931849) ≤ 0.0011894596 := by rw [cos_red1 (TO_RAD * 89.931849)]; constructor <;> linarith only [S13_aA_s1, S13_aA_s2]
  obtain ⟨S13_aB_x1, S13_aB_x2⟩ := to_rad_shift_bounds 89.93585 1 (-0.0011196289) (-0.0011196284) (by norm_num)
  obtain ⟨S13_aB_s1, S13_aB_s2⟩ := sin_chain2 ((TO_RAD * 89.93585 - 1 * (π / 2))) (-0.0011196289) (-0.0011196284) (-0.0001244033) (-0.0001244031) (-0.0003732099) (-0.0003732092) (-0.0011196295) (-0.0011196273) S13_aB_x1 S13_aB_x2 (by norm_num [sinChainCond2])
  obtain ⟨S13_aB_1, S13_aB_2⟩ : 0.0011196273 ≤ Real.cos (TO_RAD * 89.93585) ∧ Real.cos (TO_RAD * 89.93585) ≤ 0.0011196295 := by rw [cos_red1 (TO_RAD * 89.93585)]; constructor <;> linarith only [S13_aB_s1, S13_aB_s2]
  have hbr := arccos_bracket (calcCosH 89.9 119.75 ⟨2023, 3, 19⟩ true 90.8) (TO_RAD * 89.931849) (TO_RAD * 89.93585) (by linarith only [h1]) (by linarith only [h2])
    (to_rad_nonneg _ (by norm_num)) (to_rad_mono _ _ (by norm_num)) (to_rad_le_pi _ (by norm_num))
    (by linarith only [S13_aB_2, h1]) (by linarith only [S13_aA_1, h2])
  obtain ⟨hk1, hk2⟩ := inv_to_rad_bounds (Real.arccos (calcCosH 89.9 119.75 ⟨2023, 3, 19⟩ true 90.8)) 89.931849 89.93585 hbr.1 hbr.2
  unfold calcH
  rw [if_pos rfl]
  constructor <;> linarith only [hk1, hk2]

lemma S13_RA : 23.8767969333 ≤ calcRA 119.75 ⟨2023, 3, 19⟩ true ∧ calcRA 119.75 ⟨2023, 3, 19⟩ true ≤ 23.8770636667 := by
  obtain ⟨hL1, hL2⟩ := S13_L
  obtain ⟨hy1, hy2⟩ := to_rad_shift_bounds_of_le (calcL 119.75 ⟨2023, 3, 19⟩ true) 4 357.9883989067 357.9883992932 (-0.0351090662) (-0.0351090482) hL1 hL2 (by norm_num)
  obtain ⟨S13_rs_s1, S13_rs_s2⟩ := sin_chain2 ((TO_RAD * calcL 119.75 ⟨2023, 3, 19⟩ true - 4 * (π / 2))) (-0.0351090662) (-0.0351090482) (-0.0039009975) (-0.0039009954) (-0.0117027551) (-0.0117027487) (-0.0351018544) (-0.0351018351) hy1 hy2 (by norm_num [sinChainCond2])
  obtain ⟨S13_rc_c1, S13_rc_c2⟩ := cos_chain2_neg ((TO_RAD * calcL 119.75 ⟨2023, 3, 19⟩ true - 4 * (π / 2))) (-0.0351090662) (-0.0351090482) (-0.0019505025) (-0.0019505014) (-0.0058514779) (-0.0058514745) (-0.0175536323) (-0.017553622) 0.9993837399 0.9993837408 hy1 hy2 (by norm_num [sinChainCond2])
  have htan : Real.tan (TO_RAD * calcL 119.75 ⟨2023, 3, 19⟩ true) = Real.sin (TO_RAD * calcL 119.75 ⟨2023, 3, 19⟩ true - 4 * (π / 2)) / Real.cos (TO_RAD * calcL 119.75 ⟨2023, 3, 19⟩ true - 4 * (π / 2)) := by
    conv_lhs => rw [show TO_RAD * calcL 119.75 ⟨2023, 3, 19⟩ true = (TO_RAD * calcL 119.75 ⟨2023, 3, 19⟩ true - 4 * (π / 2)) + 2 * π by ring]
    rw [tan_shift4, Real.tan_eq_sin_div_cos]
  obtain ⟨hq1, hq2⟩ := div_ivl (Real.sin (TO_RAD * calcL 119.75 ⟨2023, 3, 19⟩ true - 4 * (π / 2))) (Real.cos (TO_RAD * calcL 119.75 ⟨2023, 3, 19⟩ true - 4 * (π / 2))) (-0.0351018544) (-0.0351018351) 0.9993837399 0.9993837408 (-0.0351234997) (-0.0351234802) S13_rs_s1 S13_rs_s2 S13_rc_c1 S13_rc_c2 (by norm_num)
  have hw1 : (-0.0322307283) ≤ 0.91764 * Real.tan (TO_RAD * calcL 119.75 ⟨2023, 3, 19⟩ true) := by rw [htan]; linarith only [hq1, hq2]
  have hw2 : 0.91764 * Real.tan (TO_RAD * calcL 119.75 ⟨2023, 3, 19⟩ true) ≤ (-0.0322307103) := by rw [htan]; linarith only [hq1, hq2]
  obtain ⟨S13_as_x1, S13_as_x2⟩ := to_rad_val_bounds (-1.848046) (-0.032254491) (-0.0322544807) (by norm_num)
  obtain ⟨S13_as_s1, S13_as_s2⟩ := sin_chain2 (TO_RAD * (-1.848046)) (-0.032254491) (-0.0322544807) (-0.0035838247) (-0.0035838235) (-0.01075129) (-0.0107512863) (-0.0322488991) (-0.0322488879) S13_as_x1 S13_as_x2 (by norm_num [sinChainCond2])
  obtain ⟨S13_ac_x1, S13_ac_x2⟩ := to_rad_val_bounds (-1.848046) (-0.032254491) (-0.0322544807) (by norm_num)
  obtain ⟨S13_ac_c1, S13_ac_c2⟩ := cos_chain2_neg (TO_RAD * (-1.848046)) (-0.032254491) (-0.0322544807) (-0.0017919153) (-0.0017919146) (-0.0053757229) (-0.0053757207) (-0.0161265474) (-0.0161265407) 0.9994798689 0.9994798694 S13_ac_x1 S13_ac_x2 (by norm_num [sinChainCond2])
  obtain ⟨S13_bs_x1, S13_bs_x2⟩ := to_rad_val_bounds (-1.844045) (-0.0321846604) (-0.0321846501) (by norm_num)
  obtain ⟨S13_bs_s1, S13_bs_s2⟩ := sin_chain2 (TO_RAD * (-1.844045)) (-0.0321846604) (-0.0321846501) (-0.0035760658) (-0.0035760646) (-0.0107280145) (-0.0107280108) (-0.0321791048) (-0.0321790936) S13_bs_x1 S13_bs_x2 (by norm_num [sinChainCond2])
  obtain ⟨S13_bc_x1, S13_bc_x2⟩ := to_rad_val_bounds (-1.844045) (-0.0321846604) (-0.0321846501) (by norm_num)
  obtain ⟨S13_bc_c1, S13_bc_c2⟩ := cos_chain2_neg (TO_RAD * (-1.844045)) (-0.0321846604) (-0.0321846501) (-0.0017880358) (-0.0017880351) (-0.0053640846) (-0.0053640824) (-0.0160916365) (-0.0160916298) 0.9994821184 0.999482119 S13_bc_x1 S13_bc_x2 (by norm_num [sinChainCond2])
  have hta : Real.tan (TO_RAD * (-1.848046)) ≤ (-0.0322656702) := by
    rw [Real.tan_eq_sin_div_cos]
    exact (div_ivl (Real.sin (TO_RAD * (-1.848046))) (Real.cos (TO_RAD * (-1.848046))) (-0.0322488991) (-0.0322488879) 0.9994798689 0.9994798694 (-0.0322656815) (-0.0322656702) S13_as_s1 S13_as_s2 S13_ac_c1 S13_ac_c2 (by norm_num)).2
  have htb : (-0.0321957785) ≤ Real.tan (TO_RAD * (-1.844045)) := by
    rw [Real.tan_eq_sin_div_cos]
    exact (div_ivl (Real.sin (TO_RAD * (-1.844045))) (Real.cos (TO_RAD * (-1.844045))) (-0.0321791048) (-0.0321790936) 0.9994821184 0.999482119 (-0.0321957785) (-0.0321957671) S13_bs_s1 S13_bs_s2 S13_bc_c1 S13_bc_c2 (by norm_num)).1
  have hbr := arctan_bracket (0.91764 * Real.tan (TO_RAD * calcL 119.75 ⟨2023, 3, 19⟩ true)) (TO_RAD * (-1.848046)) (TO_RAD * (-1.844045))
    (to_rad_gt_neg_half_pi _ (by norm_num)) (to_rad_mono _ _ (by norm_num)) (to_rad_lt_half_pi _ (by norm_num))
    (by linarith only [hta, hw1]) (by linarith only [htb, hw2])
  obtain ⟨hr1, hr2⟩ := inv_to_rad_bounds (Real.arctan (0.91764 * Real.tan (TO_RAD * calcL 119.75 ⟨2023, 3, 19⟩ true))) (-1.848046) (-1.844045) hbr.1 hbr.2
  have hfr : _force_range ((1 / TO_RAD) * Real.arctan (0.91764 * Real.tan (TO_RAD * calcL 119.75 ⟨2023, 3, 19⟩ true))) 360 = (1 / TO_RAD) * Real.arctan (0.91764 * Real.tan (TO_RAD * calcL 119.75 ⟨2023, 3, 19⟩ true)) + 360 := forceRange_neg _ 360 (by linarith only [hr2])
  have hLq : ⌊(calcL 119.75 ⟨2023, 3, 19⟩ true) / 90⌋ = 3 := floor_det _ 3 (by push_cast; linarith only [hL1]) (by push_cast; linarith only [hL2])
  have hRq : ⌊((1 / TO_RAD) * Real.arctan (0.91764 * Real.tan (TO_RAD * calcL 119.75 ⟨2023, 3, 19⟩ true)) + 360) / 90⌋ = 3 := floor_det _ 3 (by push_cast; linarith only [hr1]) (by push_cast; linarith only [hr2])
  rw [calcRA_def, hfr, hLq, hRq]
  constructor <;> (push_cast; linarith only [hr1, hr2])

lemma S13_UT : 22.1557904679 ≤ calcUT 89.9 119.75 ⟨2023, 3, 19⟩ true 90.8 ∧ calcUT 89.9 119.75 ⟨2023, 3, 19⟩ true 90.8 ≤ 22.1563239348 := by
  have hN : calcN ⟨2023, 3, 19⟩ = 78 := by
    have h := calcN_eval 2023 3 19 91 1 505 1
      (floor_det _ 91 (by norm_num) (by norm_num))
      (floor_det _ 1 (by norm_num) (by norm_num))
      (floor_det _ 505 (by norm_num) (by norm_num))
      (floor_det _ 1 (by norm_num) (by norm_num))
    norm_num at h
    exact h
  have ht : calcT 119.75 ⟨2023, 3, 19⟩ true = (112201 / 1440) := by
    unfold calcT calcLngHour
    rw [hN]
    norm_num
  have hlng : calcLngHour 119.75 = (479 / 60) := by
    unfold calcLngHour
    norm_num
  obtain ⟨h1, h2⟩ := S13_H
  obtain ⟨h3, h4⟩ := S13_RA
  unfold calcUT
  rw [ht, hlng]
  rw [forceRange_id (calcH 89.9 119.75 ⟨2023, 3, 19⟩ true 90.8 + calcRA 119.75 ⟨2023, 3, 19⟩ true - 0.06571 * (112201 / 1440) - 6.622 - (479 / 60)) 24 (by linarith only [h1, h2, h3, h4]) (by linarith only [h1, h2, h3, h4])]
  constructor <;> linarith only [h1, h2, h3, h4]

lemma S13_result : _calc_sun_time 89.9 119.75 ⟨2023, 3, 19⟩ true 90.8 = .ok ⟨2023, 3, 19, 22, 9⟩ := by
  obtain ⟨h1, h2⟩ := S13_cosH
  obtain ⟨h3, h4⟩ := S13_UT
  exact calc_eval_ok _ _ _ _ _ 22 9 (by linarith only [h1]) (by linarith only [h2]) (by norm_num) (by norm_num)
    (by push_cast; linarith only [h3]) (by push_cast; linarith only [h4]) (by push_cast; linarith only [h3]) (by push_cast; linarith only [h4])
    (by norm_num) (by norm_num) (by decide)

lemma S14_L : 356.9937348 ≤ calcL 479.75 ⟨2023, 3, 19⟩ true ∧ calcL 479.75 ⟨2023, 3, 19⟩ true ≤ 356.9937471 := by
  have hN : calcN ⟨2023, 3, 19⟩ = 78 := by
    have h := calcN_eval 2023 3 19 91 1 505 1
      (floor_det _ 91 (by norm_num) (by norm_num))
      (floor_det _ 1 (by norm_num) (by norm_num))
      (floor_det _ 505 (by norm_num) (by norm_num))
      (floor_det _ 1 (by norm_num) (by norm_num))
    norm_num at h
    exact h
  have hM : calcM 479.75 ⟨2023, 3, 19⟩ true = (16317169 / 225000) := by
    unfold calcM calcT calcLngHour
    rw [hN]
    norm_num
  obtain ⟨S14_sM_x1, S14_sM_x2⟩ := to_rad_shift_bounds (16317169 / 225000) 1 (-0.3050705) (-0.3050703) (by norm_num)
  obtain ⟨S14_sM_c1, S14_sM_c2⟩ := cos_chain1_neg ((TO_RAD * (16317169 / 225000) - 1 * (π / 2))) (-0.3050705) (-0.3050703) (-0.0508236) (-0.0508227) (-0.1519457) (-0.151943) 0.953825 0.9538267 S14_sM_x1 S14_sM_x2 (by norm_num [sinChainCond1])
  obtain ⟨S14_sM_1, S14_sM_2⟩ : 0.953825 ≤ Real.sin (TO_RAD * (16317169 / 225000)) ∧ Real.sin (TO_RAD * (16317169 / 225000)) ≤ 0.9538267 := by rw [sin_red1 (TO_RAD * (16317169 / 225000))]; exact ⟨S14_sM_c1, S14_sM_c2⟩
  obtain ⟨S14_s2_x1, S14_s2_x2⟩ := to_rad_shift_bounds (2 * (16317169 / 225000)) 2 (-0.610141) (-0.6101407) (by norm_num)
  obtain ⟨S14_s2_s1, S14_s2_s2⟩ := sin_chain1 ((TO_RAD * (2 * (16317169 / 225000)) - 2 * (π / 2))) (-0.610141) (-0.6101407) (-0.2020674) (-0.201889) (-0.5731996) (-0.5727516) S14_s2_x1 S14_s2_x2 (by norm_num [sinChainCond1])
  obtain ⟨S14_s2_1, S14_s2_2⟩ : 0.5727516 ≤ Real.sin (TO_RAD * (2 * (16317169 / 225000))) ∧ Real.sin (TO_RAD * (2 * (16317169 / 225000))) ≤ 0.5731996 := by rw [sin_red2 (TO_RAD * (2 * (16317169 / 225000)))]; constructor <;> linarith only [S14_s2_s1, S14_s2_s2]
  unfold calcL
  rw [hM]
  rw [mul_assoc TO_RAD 2 (16317169 / 225000)]
  rw [forceRange_id ((16317169 / 225000) + 1.916 * Real.sin (TO_RAD * (16317169 / 225000)) + 0.020 * Real.sin (TO_RAD * (2 * (16317169 / 225000))) + 282.634) 360 (by linarith only [S14_sM_1, S14_sM_2, S14_s2_1, S14_s2_2]) (by linarith only [S14_sM_1, S14_sM_2, S14_s2_1, S14_s2_2])]
  constructor <;> linarith only [S14_sM_1, S14_sM_2, S14_s2_1, S14_s2_2]

lemma S14_cosH : 3.9548424 ≤ calcCosH 89.9 479.75 ⟨2023, 3, 19⟩ true 90.8 ∧ calcCosH 89.9 479.75 ⟨2023, 3, 19⟩ true 90.8 ≤ 3.9553557 := by
  obtain ⟨hL1, hL2⟩ := S14_L
  obtain ⟨S14_sL_x1, S14_sL_x2⟩ := to_rad_shift_bounds_of_le (calcL 479.75 ⟨2023, 3, 19⟩ true) 4 356.9937348 356.9937471 (-0.0524693) (-0.052469) hL1 hL2 (by norm_num)
  obtain ⟨S14_sL_s1, S14_sL_s2⟩ := sin_chain1 ((TO_RAD * calcL 479.75 ⟨2023, 3, 19⟩ true - 4 * (π / 2))) (-0.0524693) (-0.052469) (-0.0174889) (-0.0174887) (-0.0524454) (-0.0524447) S14_sL_x1 S14_sL_x2 (by norm_num [sinChainCond1])
  obtain ⟨S14_sL_1, S14_sL_2⟩ : (-0.0524454) ≤ Real.sin (TO_RAD * calcL 479.75 ⟨2023, 3, 19⟩ true) ∧ Real.sin (TO_RAD * calcL 479.75 ⟨2023, 3, 19⟩ true) ≤ (-0.0524447) := by rw [sin_red4 (TO_RAD * calcL 479.75 ⟨2023, 3, 19⟩ true)]; exact ⟨S14_sL_s1, S14_sL_s2⟩
  obtain ⟨ha1, ha2⟩ : (-0.0208639) ≤ calcSinDec 479.75 ⟨2023, 3, 19⟩ true ∧ calcSinDec 479.75 ⟨2023, 3, 19⟩ true ≤ (-0.0208635) := by
    unfold calcSinDec
    constructor <;> linarith only [S14_sL_1, S14_sL_2]
  obtain ⟨hq1, hq2⟩ := sq_bounds_of_neg (calcSinDec 479.75 ⟨2023, 3, 19⟩ true) (-0.0208639) (-0.0208635) ha1 ha2 (by norm_num)
  obtain ⟨hb1, hb2⟩ : 0.9997823 ≤ calcCosDec 479.75 ⟨2023, 3, 19⟩ true ∧ calcCosDec 479.75 ⟨2023, 3, 19⟩ true ≤ 0.9997824 := by
    unfold calcCosDec
    rw [Real.cos_arcsin]
    exact sqrt_ivl _ 0.9997823 0.9997824 (by nlinarith [hq1, hq2]) (by nlinarith [hq1, hq2]) (by norm_num)
  obtain ⟨hc1, hc2⟩ := coszen_bounds
  obtain ⟨hd1, hd2, he1, he2⟩ := ang_899_10
  unfold calcCosH
  obtain ⟨hm1, hm2⟩ := mul_ivl_negpos (calcSinDec 479.75 ⟨2023, 3, 19⟩ true) (Real.sin (TO_RAD * 89.9)) (-0.0208639) (-0.0208635) 0.9999984769 0.999998477 ha1 ha2 hd1 hd2 (by linarith only [ha2]) (by norm_num)
  obtain ⟨hn1, hn2⟩ := mul_ivl_pos (calcCosDec 479.75 ⟨2023, 3, 19⟩ true) (Real.cos (TO_RAD * 89.9)) 0.9997823 0.9997824 0.0017453275 0.0017453288 hb1 hb2 he1 he2 (by norm_num) (by norm_num)
  exact div_ivl _ _ 0.0069012 0.0069017 0.0017449 0.001745 3.9548424 3.9553557 (by linarith only [hc1, hm1, hm2]) (by linarith only [hc2, hm1, hm2]) (by linarith only [hn1]) (by linarith only [hn2]) (by norm_num)

lemma S14_result : _calc_sun_time 89.9 479.75 ⟨2023, 3, 19⟩ true 90.8 = .noEvent :=
  calc_noEvent_hi _ _ _ _ _ (by linarith only [S14_cosH.1])

lemma S15_L : 193.64385808 ≤ calcL 180 ⟨2023, 10, 7⟩ false ∧ calcL 180 ⟨2023, 10, 7⟩ false ≤ 193.64385813 := by
  have hN : calcN ⟨2023, 10, 7⟩ = 280 := by
    have h := calcN_eval 2023 10 7 305 1 505 1
      (floor_det _ 305 (by norm_num) (by norm_num))
      (floor_det _ 1 (by norm_num) (by norm_num))
      (floor_det _ 505 (by norm_num) (by norm_num))
      (floor_det _ 1 (by norm_num) (by norm_num))
    norm_num at h
    exact h
  have hM : calcM 180 ⟨2023, 10, 7⟩ false = 272.9254 := by
    unfold calcM calcT calcLngHour
    rw [hN]
    norm_num
  obtain ⟨S15_sM_x1, S15_sM_x2⟩ := to_rad_shift_bounds 272.9254 3 0.05105785 0.05105787 (by norm_num)
  obtain ⟨S15_sM_c1, S15_sM_c2⟩ := cos_chain2_pos ((TO_RAD * 272.9254 - 3 * (π / 2))) 0.05105785 0.05105787 0.00283654 0.00283655 0.00850952 0.00850956 0.02552609 0.02552622 0.99869682 0.99869684 S15_sM_x1 S15_sM_x2 (by norm_num [sinChainCond2])
  obtain ⟨S15_sM_1, S15_sM_2⟩ : (-0.99869684) ≤ Real.sin (TO_RAD * 272.9254) ∧ Real.sin (TO_RAD * 272.9254) ≤ (-0.99869682) := by rw [sin_red3 (TO_RAD * 272.9254)]; constructor <;> linarith only [S15_sM_c1, S15_sM_c2]
  obtain ⟨S15_s2_x1, S15_s2_x2⟩ := to_rad_shift_bounds (2 * 272.9254) 6 0.1021157 0.10211574 (by norm_num)
  obtain ⟨S15_s2_s1, S15_s2_s2⟩ := sin_chain2 ((TO_RAD * (2 * 272.9254) - 6 * (π / 2))) 0.1021157 0.10211574 0.01134594 0.01134596 0.03403197 0.03403204 0.10193825 0.10193846 S15_s2_x1 S15_s2_x2 (by norm_num [sinChainCond2])
  obtain ⟨S15_s2_1, S15_s2_2⟩ : (-0.10193846) ≤ Real.sin (TO_RAD * (2 * 272.9254)) ∧ Real.sin (TO_RAD * (2 * 272.9254)) ≤ (-0.10193825) := by rw [sin_red6 (TO_RAD * (2 * 272.9254))]; constructor <;> linarith only [S15_s2_s1, S15_s2_s2]
  unfold calcL
  rw [hM]
  rw [mul_assoc TO_RAD 2 272.9254]
  rw [forceRange_wrap (272.9254 + 1.916 * Real.sin (TO_RAD * 272.9254) + 0.020 * Real.sin (TO_RAD * (2 * 272.9254)) + 282.634) 360 (by norm_num) (by linarith only [S15_sM_1, S15_sM_2, S15_s2_1, S15_s2_2])]
  constructor <;> linarith only [S15_sM_1, S15_sM_2, S15_s2_1, S15_s2_2]

lemma S15_cosH : 0.99924608 ≤ calcCosH 85.412 180 ⟨2023, 10, 7⟩ false 90.8 ∧ calcCosH 85.412 180 ⟨2023, 10, 7⟩ false 90.8 ≤ 0.9992501 := by
  obtain ⟨hL1, hL2⟩ := S15_L
  obtain ⟨S15_sL_x1, S15_sL_x2⟩ := to_rad_shift_bounds_of_le (calcL 180 ⟨2023, 10, 7⟩ false) 2 193.64385808 193.64385813 0.23813019 0.23813028 hL1 hL2 (by norm_num)
  obtain ⟨S15_sL_s1, S15_sL_s2⟩ := sin_chain2 ((TO_RAD * calcL 180 ⟨2023, 10, 7⟩ false - 2 * (π / 2))) 0.23813019 0.23813028 0.02645579 0.02645586 0.0792933 0.07929352 0.23588569 0.23588634 S15_sL_x1 S15_sL_x2 (by norm_num [sinChainCond2])
  obtain ⟨S15_sL_1, S15_sL_2⟩ : (-0.23588634) ≤ Real.sin (TO_RAD * calcL 180 ⟨2023, 10, 7⟩ false) ∧ Real.sin (TO_RAD * calcL 180 ⟨2023, 10, 7⟩ false) ≤ (-0.23588569) := by rw [sin_red2 (TO_RAD * calcL 180 ⟨2023, 10, 7⟩ false)]; constructor <;> linarith only [S15_sL_s1, S15_sL_s2]
  obtain ⟨ha1, ha2⟩ : (-0.09384031) ≤ calcSinDec 180 ⟨2023, 10, 7⟩ false ∧ calcSinDec 180 ⟨2023, 10, 7⟩ false ≤ (-0.09384004) := by
    unfold calcSinDec
    constructor <;> linarith only [S15_sL_1, S15_sL_2]
  obtain ⟨hq1, hq2⟩ := sq_bounds_of_neg (calcSinDec 180 ⟨2023, 10, 7⟩ false) (-0.09384031) (-0.09384004) ha1 ha2 (by norm_num)
  obtain ⟨hb1, hb2⟩ : 0.99558726 ≤ calcCosDec 180 ⟨2023, 10, 7⟩ false ∧ calcCosDec 180 ⟨2023, 10, 7⟩ false ≤ 0.99558729 := by
    unfold calcCosDec
    rw [Real.cos_arcsin]
    exact sqrt_ivl _ 0.99558726 0.99558729 (by nlinarith [hq1, hq2]) (by nlinarith [hq1, hq2]) (by norm_num)
  obtain ⟨hc1, hc2⟩ := coszen_bounds
  obtain ⟨hd1, hd2, he1, he2⟩ := ang_21353_250
  unfold calcCosH
  obtain ⟨hm1, hm2⟩ := mul_ivl_negpos (calcSinDec 180 ⟨2023, 10, 7⟩ false) (Real.sin (TO_RAD * 85.412)) (-0.09384031) (-0.09384004) 0.9967956526 0.9967956549 ha1 ha2 hd1 hd2 (by linarith only [ha2]) (by norm_num)
  obtain ⟨hn1, hn2⟩ := mul_ivl_pos (calcCosDec 180 ⟨2023, 10, 7⟩ false) (Real.cos (TO_RAD * 85.412)) 0.99558726 0.99558729 0.079990138 0.0799901704 hb1 hb2 he1 he2 (by norm_num) (by norm_num)
  exact div_ivl _ _ 0.07957716 0.07957744 0.07963716 0.0796372 0.99924608 0.9992501 (by linarith only [hc1, hm1, hm2]) (by linarith only [hc2, hm1, hm2]) (by linarith only [hn1]) (by linarith only [hn2]) (by norm_num)

lemma S15_H : 0.14792126 ≤ calcH 85.412 180 ⟨2023, 10, 7⟩ false 90.8 ∧ calcH 85.412 180 ⟨2023, 10, 7⟩ false 90.8 ≤ 0.148348 := by
  obtain ⟨h1, h2⟩ := S15_cosH
  obtain ⟨S15_aA_x1, S15_aA_x2⟩ := to_rad_val_bounds 2.218819 0.03872568 0.03872571 (by norm_num)
  obtain ⟨S15_aA_c1, S15_aA_c2⟩ := cos_chain2_pos (TO_RAD * 2.218819) 0.03872568 0.03872571 0.00215142 0.00215143 0.00645422 0.00645426 0.01936158 0.01936171 0.99925024 0.99925026 S15_aA_x1 S15_aA_x2 (by norm_num [sinChainCond2])
  obtain ⟨S15_aB_x1, S15_aB_x2⟩ := to_rad_val_bounds 2.22522 0.0388374 0.03883742 (by norm_num)
  obtain ⟨S15_aB_c1, S15_aB_c2⟩ := cos_chain2_pos (TO_RAD * 2.22522) 0.0388374 0.03883742 0.00215763 0.00215764 0.00647284 0.00647288 0.01941743 0.01941756 0.99924591 0.99924593 S15_aB_x1 S15_aB_x2 (by norm_num [sinChainCond2])
  have hbr := arccos_bracket (calcCosH 85.412 180 ⟨2023, 10, 7⟩ false 90.8) (TO_RAD * 2.218819) (TO_RAD * 2.22522) (by linarith only [h1]) (by linarith only [h2])
    (to_rad_nonneg _ (by norm_num)) (to_rad_mono _ _ (by norm_num)) (to_rad_le_pi _ (by norm_num))
    (by linarith only [S15_aB_c2, h1]) (by linarith only [S15_aA_c1, h2])
  obtain ⟨hk1, hk2⟩ := inv_to_rad_bounds (Real.arccos (calcCosH 85.412 180 ⟨2023, 10, 7⟩ false 90.8)) 2.218819 2.22522 hbr.1 hbr.2
  unfold calcH
  rw [if_neg Bool.false_ne_true]
  constructor <;> linarith only [hk1, hk2]

lemma S15_RA : 12.83701993 ≤ calcRA 180 ⟨2023, 10, 7⟩ false ∧ calcRA 180 ⟨2023, 10, 7⟩ false ≤ 12.83728667 := by
  obtain ⟨hL1, hL2⟩ := S15_L
  obtain ⟨hy1, hy2⟩ := to_rad_shift_bounds_of_le (calcL 180 ⟨2023, 10, 7⟩ false) 2 193.64385808 193.64385813 0.23813019 0.23813028 hL1 hL2 (by norm_num)
  obtain ⟨S15_rs_s1, S15_rs_s2⟩ := sin_chain2 ((TO_RAD * calcL 180 ⟨2023, 10, 7⟩ false - 2 * (π / 2))) 0.23813019 0.23813028 0.02645579 0.02645586 0.0792933 0.07929352 0.23588569 0.23588634 hy1 hy2 (by norm_num [sinChainCond2])
  obtain ⟨S15_rc_c1, S15_rc_c2⟩ := cos_chain2_pos ((TO_RAD * calcL 180 ⟨2023, 10, 7⟩ false - 2 * (π / 2))) 0.23813019 0.23813028 0.01322906 0.01322908 0.03967791 0.03967798 0.11878386 0.11878408 0.97178068 0.97178079 hy1 hy2 (by norm_num [sinChainCond2])
  have htan : Real.tan (TO_RAD * calcL 180 ⟨2023, 10, 7⟩ false) = Real.sin (TO_RAD * calcL 180 ⟨2023, 10, 7⟩ false - 2 * (π / 2)) / Real.cos (TO_RAD * calcL 180 ⟨2023, 10, 7⟩ false - 2 * (π / 2)) := by
    conv_lhs => rw [show TO_RAD * calcL 180 ⟨2023, 10, 7⟩ false = (TO_RAD * calcL 180 ⟨2023, 10, 7⟩ false - 2 * (π / 2)) + π by ring]
    rw [tan_shift2, Real.tan_eq_sin_div_cos]
  obtain ⟨hq1, hq2⟩ := div_ivl (Real.sin (TO_RAD * calcL 180 ⟨2023, 10, 7⟩ false - 2 * (π / 2))) (Real.cos (TO_RAD * calcL 180 ⟨2023, 10, 7⟩ false - 2 * (π / 2))) 0.23588569 0.23588634 0.97178068 0.97178079 0.24273549 0.2427362 S15_rs_s1 S15_rs_s2 S15_rc_c1 S15_rc_c2 (by norm_num)
  have hw1 : 0.22274379 ≤ 0.91764 * Real.tan (TO_RAD * calcL 180 ⟨2023, 10, 7⟩ false) := by rw [htan]; linarith only [hq1, hq2]
  have hw2 : 0.91764 * Real.tan (TO_RAD * calcL 180 ⟨2023, 10, 7⟩ false) ≤ 0.22274445 := by rw [htan]; linarith only [hq1, hq2]
  obtain ⟨S15_as_x1, S15_as_x2⟩ := to_rad_val_bounds 12.555299 0.21913126 0.21913134 (by norm_num)
  obtain ⟨S15_as_s1, S15_as_s2⟩ := sin_chain2 (TO_RAD * 12.555299) 0.21913126 0.21913134 0.02434549 0.02434554 0.07297875 0.07297891 0.21738154 0.21738202 S15_as_x1 S15_as_x2 (by norm_num [sinChainCond2])
  obtain ⟨S15_ac_x1, S15_ac_x2⟩ := to_rad_val_bounds 12.555299 0.21913126 0.21913134 (by norm_num)
  obtain ⟨S15_ac_c1, S15_ac_c2⟩ := cos_chain2_pos (TO_RAD * 12.555299) 0.21913126 0.21913134 0.01217365 0.01217367 0.03651373 0.0365138 0.10934646 0.10934668 0.9760866 0.97608671 S15_ac_x1 S15_ac_x2 (by norm_num [sinChainCond2])
  obtain ⟨S15_bs_x1, S15_bs_x2⟩ := to_rad_val_bounds 12.5593 0.21920109 0.21920117 (by norm_num)
  obtain ⟨S15_bs_s1, S15_bs_s2⟩ := sin_chain2 (TO_RAD * 12.5593) 0.21920109 0.21920117 0.02435325 0.0243533 0.07300197 0.07300213 0.21744971 0.21745019 S15_bs_x1 S15_bs_x2 (by norm_num [sinChainCond2])
  obtain ⟨S15_bc_x1, S15_bc_x2⟩ := to_rad_val_bounds 12.5593 0.21920109 0.21920117 (by norm_num)
  obtain ⟨S15_bc_c1, S15_bc_c2⟩ := cos_chain2_pos (TO_RAD * 12.5593) 0.21920109 0.21920117 0.01217753 0.01217755 0.03652536 0.03652543 0.10938116 0.10938138 0.97607142 0.97607153 S15_bc_x1 S15_bc_x2 (by norm_num [sinChainCond2])
  have hta : Real.tan (TO_RAD * 12.555299) ≤ 0.22270772 := by
    rw [Real.tan_eq_sin_div_cos]
    exact (div_ivl (Real.sin (TO_RAD * 12.555299)) (Real.cos (TO_RAD * 12.555299)) 0.21738154 0.21738202 0.9760866 0.97608671 0.2227072 0.22270772 S15_as_s1 S15_as_s2 S15_ac_c1 S15_ac_c2 (by norm_num)).2
  have htb : 0.2227805 ≤ Real.tan (TO_RAD * 12.5593) := by
    rw [Real.tan_eq_sin_div_cos]
    exact (div_ivl (Real.sin (TO_RAD * 12.5593)) (Real.cos (TO_RAD * 12.5593)) 0.21744971 0.21745019 0.97607142 0.97607153 0.2227805 0.22278103 S15_bs_s1 S15_bs_s2 S15_bc_c1 S15_bc_c2 (by norm_num)).1
  have hbr := arctan_bracket (0.91764 * Real.tan (TO_RAD * calcL 180 ⟨2023, 10, 7⟩ false)) (TO_RAD * 12.555299) (TO_RAD * 12.5593)
    (to_rad_gt_neg_half_pi _ (by norm_num)) (to_rad_mono _ _ (by norm_num)) (to_rad_lt_half_pi _ (by norm_num))
    (by linarith only [hta, hw1]) (by linarith only [htb, hw2])
  obtain ⟨hr1, hr2⟩ := inv_to_rad_bounds (Real.arctan (0.91764 * Real.tan (TO_RAD * calcL 180 ⟨2023, 10, 7⟩ false))) 12.555299 12.5593 hbr.1 hbr.2
  have hfr : _force_range ((1 / TO_RAD) * Real.arctan (0.91764 * Real.tan (TO_RAD * calcL 180 ⟨2023, 10, 7⟩ false))) 360 = (1 / TO_RAD) * Real.arctan (0.91764 * Real.tan (TO_RAD * calcL 180 ⟨2023, 10, 7⟩ false)) := forceRange_id _ 360 (by linarith only [hr1]) (by linarith only [hr2])
  have hLq : ⌊(calcL 180 ⟨2023, 10, 7⟩ false) / 90⌋ = 2 := floor_det _ 2 (by push_cast; linarith only [hL1]) (by push_cast; linarith only [hL2])
  have hRq : ⌊(1 / TO_RAD) * Real.arctan (0.91764 * Real.tan (TO_RAD * calcL 180 ⟨2023, 10, 7⟩ false)) / 90⌋ = 0 := floor_det _ 0 (by push_cast; linarith only [hr1]) (by push_cast; linarith only [hr2])
  rw [calcRA_def, hfr, hLq, hRq]
  constructor <;> (push_cast; linarith only [hr1, hr2])

lemma S15_UT : calcUT 85.412 180 ⟨2023, 10, 7⟩ false 90.8 < 0 := by
  have hN : calcN ⟨2023, 10, 7⟩ = 280 := by
    have h := calcN_eval 2023 10 7 305 1 505 1
      (floor_det _ 305 (by norm_num) (by norm_num))
      (floor_det _ 1 (by norm_num) (by norm_num))
      (floor_det _ 505 (by norm_num) (by norm_num))
      (floor_det _ 1 (by norm_num) (by norm_num))
    norm_num at h
    exact h
  have ht : calcT 180 ⟨2023, 10, 7⟩ false = 280.25 := by
    unfold calcT calcLngHour
    rw [hN]
    norm_num
  have hlng : calcLngHour 180 = 12 := by
    unfold calcLngHour
    norm_num
  obtain ⟨h1, h2⟩ := S15_H
  obtain ⟨h3, h4⟩ := S15_RA
  unfold calcUT
  rw [ht, hlng]
  rw [forceRange_neg (calcH 85.412 180 ⟨2023, 10, 7⟩ false 90.8 + calcRA 180 ⟨2023, 10, 7⟩ false - 0.06571 * 280.25 - 6.622 - 12) 24 (by linarith only [h1, h2, h3, h4])]
  linarith only [h1, h2, h3, h4]

/-! ### The claims -/

/-- C1: the spec ties the failure reason to the sign of `cosH` ("never rises"
for `cosH > 1`, "never sets" for `cosH < -1`, regardless of the operation).
In the code the reason is fixed by the operation: the sunrise wrapper always
raises "never rises" and the sunset wrapper always raises "never sets",
whichever side of `[-1, 1]` the hour-angle cosine leaves.  This theorem states
the amended property: each operation fails with its own reason exactly when
`cosH` falls outside `[-1, 1]` on either side. -/
theorem C1_reason_by_operation (lat lon : ℝ) (env : Env) (d : Date) (z : Option ℤ) :
    (get_local_sunrise_time lat lon env (some d) z = .error (.sun .neverRises) ↔
      (1 < calcCosH lat lon d true 90.8 ∨ calcCosH lat lon d true 90.8 < -1)) ∧
    (get_local_sunset_time lat lon env (some d) z = .error (.sun .neverSets) ↔
      (1 < calcCosH lat lon d false 90.8 ∨ calcCosH lat lon d false 90.8 < -1)) := by
  constructor
  · rw [← calc_noEvent_iff, sunrise_match]
    cases hc : _calc_sun_time lat lon d true 90.8 <;> simp [hc]
  · rw [← calc_noEvent_iff, sunset_match]
    cases hc : _calc_sun_time lat lon d false 90.8 <;> simp [hc]

/-- C1 counterexample: at Svalbard on 2023-06-21 (midnight sun) the sunrise
call sees `cosH < -1`, where the claim prescribes the reason "never sets",
yet the call fails with "never rises". -/
theorem C1_reason_counterexample :
    calcCosH 78 15 ⟨2023, 6, 21⟩ true 90.8 < -1 ∧
    get_local_sunrise_time 78 15 ⟨0, 0, ⟨2023, 1, 1⟩⟩ (some ⟨2023, 6, 21⟩) none =
      .error (.sun .neverRises) := by
  constructor
  · linarith only [S3_cosH.2]
  · rw [sunrise_match, S3_result]

/-- C2 (code bug): `NoSuchEvent` is not the only failure mode.  At the
equator with longitude 92.579 on 2023-01-31 the sunrise time rounds up past
midnight, the day is incremented to 32 without month renormalization, and the
`datetime` constructor raises `ValueError`. -/
theorem C2_month_end_value_error :
    get_local_sunrise_time 0 92.579 ⟨0, 0, ⟨2023, 1, 1⟩⟩ (some ⟨2023, 1, 31⟩) none =
      .error .valueError := by
  rw [sunrise_match, S11_result]

/-- C3: for London (51.5074, -0.1278) on 2023-01-01 the calculator returns
sunrise 08:07 UTC and sunset 16:02 UTC, each within one minute of the
expected 08:06 / 16:01. -/
theorem C3_london_events :
    _calc_sun_time 51.5074 (-0.1278) ⟨2023, 1, 1⟩ true 90.8 = .ok ⟨2023, 1, 1, 8, 7⟩ ∧
    _calc_sun_time 51.5074 (-0.1278) ⟨2023, 1, 1⟩ false 90.8 = .ok ⟨2023, 1, 1, 16, 2⟩ ∧
    (⟨2023, 1, 1, 8, 7⟩ : Datetime).key - (⟨2023, 1, 1, 8, 6⟩ : Datetime).key ≤ 1 ∧
    (⟨2023, 1, 1, 16, 2⟩ : Datetime).key - (⟨2023, 1, 1, 16, 1⟩ : Datetime).key ≤ 1 :=
  ⟨S1_result, S2_result, by decide, by decide⟩

/-- C4: at Svalbard (78, 15) the sunset call on 2023-06-21 fails with
"never sets" (midnight sun) and the sunrise call on 2023-12-21 fails with
"never rises" (polar night). -/
theorem C4_svalbard_no_event (env : Env) (z : Option ℤ) :
    get_local_sunset_time 78 15 env (some ⟨2023, 6, 21⟩) z = .error (.sun .neverSets) ∧
    get_local_sunrise_time 78 15 env (some ⟨2023, 12, 21⟩) z = .error (.sun .neverRises) := by
  constructor
  · rw [sunset_match, S4_result]
  · rw [sunrise_match, S5_result]

/-- C5 (code bug): at the equator both operations are claimed to always
succeed, but at longitude -88.092 on 2023-03-31 the sunset time rounds up
past midnight, the day is incremented to 32, and the `datetime` constructor
raises `ValueError`. -/
theorem C5_equator_value_error :
    get_local_sunset_time 0 (-88.092) ⟨0, 0, ⟨2023, 1, 1⟩⟩ (some ⟨2023, 3, 31⟩) none =
      .error .valueError := by
  rw [sunset_match, S12_result]

/-- C6 counterexample: at (85.412, 180) on 2023-10-07 the sunset event exists
(`cosH` is inside `[-1, 1]`) yet the normalized `UT` is negative: the
pre-normalization value lies below `-24`, and `_force_range` applies only a
single `+24` correction. -/
theorem C6_ut_counterexample :
    (-1 ≤ calcCosH 85.412 180 ⟨2023, 10, 7⟩ false 90.8 ∧
      calcCosH 85.412 180 ⟨2023, 10, 7⟩ false 90.8 ≤ 1) ∧
    calcUT 85.412 180 ⟨2023, 10, 7⟩ false 90.8 < 0 :=
  ⟨⟨by linarith only [S15_cosH.1], by linarith only [S15_cosH.2]⟩, S15_UT⟩

/-- C6 (amended): the true longitude `L` always lands in `[0, 360)` for a
valid date and a longitude in `[-180, 180]`; the `UT` normalization lands in
`[0, 24)` only when the pre-normalization value lies in `[-24, 48)`, since
`_force_range` applies at most one correction. -/
theorem C6_ranges :
    (∀ (lon : ℝ) (d : Date) (rise : Bool), d.Valid → -180 ≤ lon → lon ≤ 180 →
      0 ≤ calcL lon d rise ∧ calcL lon d rise < 360) ∧
    (∀ v : ℝ, -24 ≤ v → v < 48 → 0 ≤ _force_range v 24 ∧ _force_range v 24 < 24) := by
  constructor
  · intro lon d rise hd h1 h2
    exact calcL_mem lon d rise hd h1 h2
  · intro v h1 h2
    exact forceRange_mem v 24 h1 (by linarith)

/-- C6 witness: the amended range facts at the concrete inputs
`(lon, date) = (0, 2023-01-01)` and `v = 12`. -/
theorem C6_ranges_witness :
    (0 ≤ calcL 0 ⟨2023, 1, 1⟩ true ∧ calcL 0 ⟨2023, 1, 1⟩ true < 360) ∧
    (0 ≤ _force_range 12 24 ∧ _force_range 12 24 < 24) :=
  ⟨C6_ranges.1 0 ⟨2023, 1, 1⟩ true (by decide) (by norm_num) (by norm_num),
   C6_ranges.2 12 (by norm_num) (by norm_num)⟩

/-- C7 counterexample: at latitude 89.9 on 2023-03-19 the sunrise call at
longitude 119.75 returns 22:09 UTC, while the same call at longitude
119.75 + 360 reports no event: the results are not equivalent. -/
theorem C7_longitude_counterexample :
    _calc_sun_time 89.9 119.75 ⟨2023, 3, 19⟩ true 90.8 = .ok ⟨2023, 3, 19, 22, 9⟩ ∧
    _calc_sun_time 89.9 (119.75 + 360) ⟨2023, 3, 19⟩ true 90.8 = .noEvent := by
  refine ⟨S13_result, ?_⟩
  rw [show (119.75 : ℝ) + 360 = 479.75 by norm_num]
  exact S14_result

/-- C7 (amended): the code never reduces the longitude; a `+360` shift
enters the approximation as a different time of year: the longitude hour
grows by 24 and the approximate event time `t` shifts by a full day, so the
two calls evaluate the formulas at different points and need not agree. -/
theorem C7_longitude_shift (lon : ℝ) (d : Date) (rise : Bool) :
    calcLngHour (lon + 360) = calcLngHour lon + 24 ∧
    calcT (lon + 360) d rise = calcT lon d rise - 1 := by
  constructor
  · unfold calcLngHour
    ring
  · unfold calcT calcLngHour
    cases rise
    · rw [if_neg Bool.false_ne_true, if_neg Bool.false_ne_true]
      ring
    · rw [if_pos rfl, if_pos rfl]
      ring

/-- C8 counterexample: at (52.5, 180) on 2024-06-21 both events exist, but
the computed sunset (08:26 UTC) precedes the computed sunrise (15:37 UTC):
the UTC instants of a local day can straddle the UTC date boundary. -/
theorem C8_order_counterexample :
    _calc_sun_time 52.5 180 ⟨2024, 6, 21⟩ true 90.8 = .ok ⟨2024, 6, 21, 15, 37⟩ ∧
    _calc_sun_time 52.5 180 ⟨2024, 6, 21⟩ false 90.8 = .ok ⟨2024, 6, 21, 8, 26⟩ ∧
    (⟨2024, 6, 21, 8, 26⟩ : Datetime).key < (⟨2024, 6, 21, 15, 37⟩ : Datetime).key :=
  ⟨S8_result, S9_result, by decide⟩

/-- C8 (amended): the ordering does hold at the claim's example: for Berlin
(52.5, 13.4) on 2024-06-21 the computed sunrise 02:44 UTC precedes the
computed sunset 19:33 UTC. -/
theorem C8_berlin_order :
    _calc_sun_time 52.5 13.4 ⟨2024, 6, 21⟩ true 90.8 = .ok ⟨2024, 6, 21, 2, 44⟩ ∧
    _calc_sun_time 52.5 13.4 ⟨2024, 6, 21⟩ false 90.8 = .ok ⟨2024, 6, 21, 19, 33⟩ ∧
    (⟨2024, 6, 21, 2, 44⟩ : Datetime).key < (⟨2024, 6, 21, 19, 33⟩ : Datetime).key :=
  ⟨S6_result, S7_result, by decide⟩

/-- C9 counterexample: the zone default is captured when the module is
loaded, not at each call.  In an environment whose import-time zone is 0 but
whose zone at call time is 5, a sunrise call without an explicit zone tags
its result with zone 0. -/
theorem C9_zone_counterexample :
    get_local_sunrise_time 51.5074 (-0.1278) ⟨0, 5, ⟨2023, 5, 5⟩⟩ (some ⟨2023, 1, 1⟩) none =
      .ok (⟨2023, 1, 1, 8, 7⟩, 0) ∧
    (⟨0, 5, ⟨2023, 5, 5⟩⟩ : Env).currentZone = 5 ∧ (0 : ℤ) ≠ 5 := by
  refine ⟨?_, rfl, by decide⟩
  rw [sunrise_match, S1_result]
  rfl

/-- C9 (amended): the date default is resolved per call (`today` at the
moment of the call), but the zone default is the time zone captured when the
`def` ran (`importZone`), not the zone at the moment of the call. -/
theorem C9_default_resolution (lat lon : ℝ) (env : Env) :
    get_local_sunrise_time lat lon env none none =
      get_local_sunrise_time lat lon env (some env.today) (some env.importZone) ∧
    get_local_sunset_time lat lon env none none =
      get_local_sunset_time lat lon env (some env.today) (some env.importZone) :=
  ⟨rfl, rfl⟩

/-- C10: whenever the core calculation returns a result, the result's year
and month equal the input date's, and the day is the input day or the input
day plus one; no month or year carry is applied. -/
theorem C10_result_frame (lat lon : ℝ) (d : Date) (rise : Bool) (zen : ℝ) (dt : Datetime)
    (h : _calc_sun_time lat lon d rise zen = .ok dt) :
    dt.year = d.year ∧ dt.month = d.month ∧ (dt.day = d.day ∨ dt.day = d.day + 1) :=
  calc_ok_frame lat lon d rise zen dt h

/-- C10 witness: the frame property instantiated at the London sunrise call
of 2023-01-01, whose result is 08:07 on the same date. -/
theorem C10_result_frame_witness :
    (⟨2023, 1, 1, 8, 7⟩ : Datetime).year = (⟨2023, 1, 1⟩ : Date).year ∧
    (⟨2023, 1, 1, 8, 7⟩ : Datetime).month = (⟨2023, 1, 1⟩ : Date).month ∧
    ((⟨2023, 1, 1, 8, 7⟩ : Datetime).day = (⟨2023, 1, 1⟩ : Date).day ∨
      (⟨2023, 1, 1, 8, 7⟩ : Datetime).day = (⟨2023, 1, 1⟩ : Date).day + 1) :=
  C10_result_frame 51.5074 (-0.1278) ⟨2023, 1, 1⟩ true 90.8 ⟨2023, 1, 1, 8, 7⟩ S1_result

end Suntime
